import Mathlib

/-!
# bookapp: cart, checkout and UPI payment verification

A shallow embedding of the Express route handlers in
`backend/routes/cart.js`, `backend/routes/orders.js` and `backend/routes/payments.js`,
of the pagination of `getAllUsers` in `backend/controllers/authController.js` and of
`fetchWithRetries` in the front end's `services/googleBooksService.js`.

The three MongoDB collections (CartItem, Order, Purchase) are lists in natural
(insertion) order.  A handler is a function from the request and the store to
the new store and the HTTP response.  Storage calls are taken to succeed; the
values a handler obtains from outside (generated ObjectIds, the clock, what the
payment service returns) are arguments.  Prices and amounts are JavaScript numbers,
that is IEEE-754 doubles, and `+` on them rounds as the language does.
-/

namespace BookApp

/-! ## JavaScript numbers -/

/-- A JavaScript number, an IEEE-754 double.  `finite mant exp` is `mant * 2^exp` in
lowest terms: `mant` is odd, or `mant = 0` and `exp = 0` for `+0`. -/
inductive JsNumber where
  | finite (mant : Int) (exp : Int)
  | negZero
  | infinite (negative : Bool)
  | nan
deriving DecidableEq, Repr

/-- The number of binary digits of `n`; `fuel` bounds the digits looked at. -/
def bitLengthAux : Nat → Nat → Nat
  | 0, _ => 0
  | fuel + 1, n => if n = 0 then 0 else bitLengthAux fuel (n / 2) + 1

/-- The number of binary digits of `n`. -/
def bitLength (n : Nat) : Nat := bitLengthAux n n

/-- Take the factors 2 out of `n`, adding them to the exponent `e`. -/
def stripZeros : Nat → Nat → Int → Nat × Int
  | 0, n, e => (n, e)
  | fuel + 1, n, e => if n % 2 = 0 ∧ n ≠ 0 then stripZeros fuel (n / 2) (e + 1) else (n, e)

/-- The quotient `n / d` rounded to the nearest integer, a tie to the even one. -/
def roundHalfEven (n d : Nat) : Nat :=
  let fl := n / d
  let rem := n % d
  if 2 * rem < d then fl
  else if d < 2 * rem then fl + 1
  else if fl % 2 = 0 then fl else fl + 1

/-- The double of magnitude `k * 2^e` for `0 < k ≤ 2^53`, brought to lowest terms:
infinite from `2^1024` on. -/
def packDouble (negative : Bool) (k : Nat) (e : Int) : JsNumber :=
  if (bitLength k : Int) + e > 1024 then .infinite negative
  else
    let r := stripZeros k k e
    .finite (if negative then -(r.1 : Int) else r.1) r.2

/-- The double nearest to `n / d * 2^e` in magnitude, for `n > 0` and `d > 0`, with the
given sign: 53 significant binary digits, or a multiple of `2^-1074` below `2^-1022`; a
tie goes to the neighbour with the even last digit (the rounding of IEEE-754 that `+`
and `JSON.parse` use).  Here `fl` is the floor of the binary logarithm of `n / d` and
`qe` the exponent of the last digit kept. -/
def nearestDouble (negative : Bool) (n d : Nat) (e : Int) : JsNumber :=
  let l : Int := (bitLength n : Int) - (bitLength d : Int)
  let fl : Int := if d * 2 ^ l.toNat ≤ n * 2 ^ (-l).toNat then l else l - 1
  let qe : Int := max (e + fl - 52) (-1074)
  let sh : Int := qe - e
  let k := roundHalfEven (n * 2 ^ (-sh).toNat) (d * 2 ^ sh.toNat)
  if k = 0 then (if negative then .negZero else .finite 0 0)
  else packDouble negative k qe

/-- The operator `+` on numbers. -/
def jsAdd : JsNumber → JsNumber → JsNumber
  | .nan, _ => .nan
  | _, .nan => .nan
  | .infinite a, .infinite b => if a = b then .infinite a else .nan
  | .infinite a, _ => .infinite a
  | _, .infinite b => .infinite b
  | .negZero, .negZero => .negZero
  | .negZero, .finite m e => .finite m e
  | .finite m e, .negZero => .finite m e
  | .finite m₁ e₁, .finite m₂ e₂ =>
    let e := min e₁ e₂
    let s : Int := m₁ * 2 ^ (e₁ - e).toNat + m₂ * 2 ^ (e₂ - e).toNat
    if s = 0 then .finite 0 0
    else nearestDouble (decide (s < 0)) s.natAbs 1 e

/-- The number that the decimal numeral `digits / 10^scale` denotes, as `JSON.parse` reads
it: 9.99 is `JsNumber.ofDecimal 999 2`. -/
def JsNumber.ofDecimal (digits : Int) (scale : Nat) : JsNumber :=
  if digits = 0 then .finite 0 0
  else nearestDouble (decide (digits < 0)) digits.natAbs (10 ^ scale) 0

/-- The number that the whole number `n` is read as. -/
def JsNumber.ofNat (n : Nat) : JsNumber := JsNumber.ofDecimal n 0

instance : OfNat JsNumber n := ⟨JsNumber.ofNat n⟩

/-- The operator unary `-` on numbers. -/
def JsNumber.neg : JsNumber → JsNumber
  | .finite 0 _ => .negZero
  | .finite m e => .finite (-m) e
  | .negZero => .finite 0 0
  | .infinite negative => .infinite (!negative)
  | .nan => .nan

instance : Neg JsNumber := ⟨JsNumber.neg⟩

/-- The operator `<` on numbers. -/
def JsNumber.lt : JsNumber → JsNumber → Bool
  | .nan, _ => false
  | _, .nan => false
  | .infinite a, .infinite b => a && !b
  | .infinite a, _ => a
  | _, .infinite b => !b
  | .negZero, .negZero => false
  | .negZero, .finite m _ => decide (0 < m)
  | .finite m _, .negZero => decide (m < 0)
  | .finite m₁ e₁, .finite m₂ e₂ =>
    decide (m₁ * 2 ^ (e₁ - min e₁ e₂).toNat < m₂ * 2 ^ (e₂ - min e₁ e₂).toNat)

instance : LT JsNumber := ⟨fun a b => JsNumber.lt a b = true⟩

instance (a b : JsNumber) : Decidable (a < b) :=
  inferInstanceAs (Decidable (JsNumber.lt a b = true))

/-- Truthiness of a number: `0`, `-0` and `NaN` are falsy. -/
def JsNumber.truthy : JsNumber → Bool
  | .finite m _ => m != 0
  | .negZero => false
  | .infinite _ => true
  | .nan => false

/-- The real number that a finite double is; `none` for the infinities and `NaN`. -/
def JsNumber.value? : JsNumber → Option ℚ
  | .finite m e => some ((m : ℚ) * (2 : ℚ) ^ e)
  | .negZero => some 0
  | .infinite _ => none
  | .nan => none

/-! ## Data model -/

/-- A MongoDB ObjectId in its string form: 24 hexadecimal digits, the letters in lower
case. -/
abbrev ObjectId := String

/-- One hexadecimal digit. -/
def isHexDigit (c : Char) : Bool :=
  c.isDigit || (c.toNat ≥ 97 && c.toNat ≤ 102) || (c.toNat ≥ 65 && c.toNat ≤ 70)

/-- The check `mongoose.Types.ObjectId.isValid` on a string: 24 hexadecimal digits. -/
def objectIdIsValid (s : String) : Bool :=
  s.data.length == 24 && s.data.all isHexDigit

/-- A hexadecimal digit in lower case. -/
def hexLower (c : Char) : Char :=
  if c.toNat ≥ 65 && c.toNat ≤ 70 then Char.ofNat (c.toNat + 32) else c

/-- The ObjectId that Mongoose casts a string of a request to before it runs a query:
the bytes that the 24 hexadecimal digits spell, whatever the case of the letters. -/
def castObjectId (s : String) : ObjectId :=
  String.mk (s.data.map hexLower)

/-- A CartItem document.  `price` is absent when the document holds no number there. -/
structure CartItem where
  _id : ObjectId
  userId : ObjectId
  bookId : String
  title : String
  author : String
  price : Option JsNumber
  imageUrl : String
  purchased : Bool
  createdAt : Nat
deriving DecidableEq, Repr

/-- A line item embedded in an Order. -/
structure OrderItem where
  bookId : String
  title : String
  author : String
  price : Option JsNumber
  imageUrl : String
deriving DecidableEq, Repr

/-- The `paymentDetails` sub-document of an Order. -/
structure PaymentDetails where
  upiId : Option String
  paymentTime : Option Nat
  gatewayTransactionId : Option String
  paymentGateway : Option String
deriving DecidableEq, Repr

/-- An Order document. -/
structure Order where
  _id : ObjectId
  userId : ObjectId
  items : List OrderItem
  totalAmount : JsNumber
  paymentMethod : String
  paymentStatus : String
  status : String
  transactionId : Option String
  upiTransactionId : Option String
  paymentDetails : PaymentDetails
  address : Option String := none
deriving DecidableEq, Repr

/-- A Purchase document. -/
structure Purchase where
  bookId : String
  title : String
  author : String
  price : Option JsNumber
  quantity : Nat
  userId : ObjectId
deriving DecidableEq, Repr

/-- The database: the three collections, each in insertion order. -/
structure Store where
  carts : List CartItem
  orders : List Order
  purchases : List Purchase
deriving DecidableEq, Repr

/-- The user document that `authenticateToken` puts in `req.user`. -/
structure AuthUser where
  _id : ObjectId
  username : String
  email : String
  role : String
deriving DecidableEq, Repr

/-- The `id` of a user document: the string form of `_id`, the same id in a query. -/
def AuthUser.id (u : AuthUser) : ObjectId := u._id

/-! ## Requests and responses -/

/-- A JSON value of a request body as far as the handlers tell values apart. -/
inductive JsValue where
  | undefined
  | null
  | bool (b : Bool)
  | number (n : JsNumber)
  | string (s : String)
deriving DecidableEq, Repr

/-- The body of `POST /cart/add`; an absent field is `none` (`undefined` for the price). -/
structure AddBody where
  userId : Option String
  bookId : Option String
  title : Option String
  price : JsValue
  author : Option String
  imageUrl : Option String
deriving DecidableEq, Repr

/-- The JSON body of a response. -/
inductive Body where
  | message (m : String)
  | error (e : String)
  | cartItem (item : CartItem)
  | success (m : String)
  | initiated (orderId : ObjectId) (transactionId upiString qrCode : String)
      (amount : JsNumber) (upiId : String)
  | verified (success : Bool) (m : String) (orderId : ObjectId)
      (transactionId : Option String) (gatewayTransactionId : Option String)
  | order (m : String) (o : Order)
  | checkedOut (m : String) (totalAmount : JsNumber) (itemCount : Nat)
      (transactionId : String) (o : Order)
  | ok
  | refunded (refundId : String) (amount : JsNumber) (status : String)
  | updated (o : Order)
deriving DecidableEq, Repr

/-- An HTTP response: status code and JSON body. -/
structure Response where
  status : Nat
  body : Body
deriving DecidableEq, Repr

/-- What `paymentService.generateUPIPaymentRequest` returns. -/
structure PaymentRequest where
  transactionId : String
  upiString : String
  qrCode : String
  upiId : String
deriving DecidableEq, Repr

/-- The `gatewayResponse` part of a verification result. -/
structure GatewayResponse where
  gatewayTransactionId : String
deriving DecidableEq, Repr

/-- What `paymentService.simulateUPIPaymentVerification` resolves to. -/
structure PaymentResult where
  status : String
  paymentTime : Nat
  gatewayResponse : GatewayResponse
deriving DecidableEq, Repr

/-- What `POST /cart/add` takes from outside: the ObjectId of an inserted document
and the clock. -/
structure AddEnv where
  freshId : ObjectId
  now : Nat
deriving DecidableEq, Repr

/-- What `POST /payments/upi/initiate` takes from outside: the ObjectId of the new
order, the configured `paymentService.upiId`, and the result of
`paymentService.generateUPIPaymentRequest` (`none` when that call throws). -/
structure InitiateEnv where
  freshId : ObjectId
  serviceUpiId : String
  paymentRequest : Option PaymentRequest
deriving DecidableEq, Repr

/-- The defaults that the Order schema gives to the paths `new Order` leaves out (the
schema file is not among the sources). -/
structure OrderDefaults where
  status : String
  paymentStatus : String
  paymentMethod : String
deriving DecidableEq, Repr

/-- What `POST /orders` takes from outside: the ObjectId of the new order and the
defaults of the Order schema. -/
structure CreateEnv where
  freshId : ObjectId
  defaults : OrderDefaults
deriving DecidableEq, Repr

/-- What `paymentService.verifyPaymentCallback` returns. -/
structure CallbackVerification where
  verified : Bool
  transactionId : Option String
  status : String
  paymentTime : Nat
deriving DecidableEq, Repr

/-- What `paymentService.processRefund` resolves to. -/
structure RefundResult where
  refundId : String
  amount : JsNumber
  status : String
deriving DecidableEq, Repr

/-- The body of `POST /payments/refund`. -/
structure RefundBody where
  orderId : String
  amount : Option JsNumber
  reason : Option String
deriving DecidableEq, Repr

/-! ## JavaScript helpers -/

/-- Truthiness of an optional string: `undefined` and the empty string are falsy. -/
def truthy : Option String → Bool
  | none => false
  | some s => s != ""

/-- The expression `a || b` on optional strings. -/
def orElseStr (a b : Option String) : Option String :=
  if truthy a then a else b

/-- The expression `item.price || 0`: an absent price and the falsy numbers give 0. -/
def priceOrZero : Option JsNumber → JsNumber
  | none => 0
  | some p => if p.truthy then p else 0

/-- The expression `amount || order.totalAmount`: an absent amount and the falsy
numbers give the total. -/
def amountOr (amount : Option JsNumber) (totalAmount : JsNumber) : JsNumber :=
  match amount with
  | none => totalAmount
  | some a => if a.truthy then a else totalAmount

/-- A destructuring default `field = ''`. -/
def withDefault (a : Option String) : String :=
  match a with
  | none => ""
  | some s => s

/-- Apply `f` to the first element satisfying `p`: a document loaded with `findOne`,
changed and written back with `save`. -/
def updateFirst {α : Type} (p : α → Bool) (f : α → α) : List α → List α
  | [] => []
  | a :: l => if p a then f a :: l else a :: updateFirst p f l

/-! ## Cart routes (`backend/routes/cart.js`) -/

/-- The snapshot of a cart item embedded in an order. -/
def snapshot (item : CartItem) : OrderItem :=
  { bookId := item.bookId, title := item.title, author := item.author,
    price := item.price, imageUrl := item.imageUrl }

/-- The fold `cartItems.reduce((sum, item) => sum + (item.price || 0), 0)`. -/
def cartTotal (cartItems : List CartItem) : JsNumber :=
  cartItems.foldl (fun sum item => jsAdd sum (priceOrZero item.price)) 0

/-- The filter `{ userId, bookId }` of the upsert. -/
def cartKey (userId : ObjectId) (bookId : String) (c : CartItem) : Bool :=
  c.userId == userId && c.bookId == bookId

/-- The handler `router.post('/add')`.  A `userId` taken from the body is a string, which
the upsert casts to an ObjectId in its filter and in the inserted document. -/
def addToCart (env : AddEnv) (user : Option AuthUser) (body : AddBody) (s : Store) :
    Store × Response :=
  let userId : Option String :=
    orElseStr (match user with
      | none => none
      | some u => some u._id) (body.userId.map castObjectId)
  if !truthy userId || !truthy body.bookId || !truthy body.title
      || body.price == JsValue.undefined then
    (s, ⟨400, .error "Missing required fields: userId, bookId, title, price"⟩)
  else if !objectIdIsValid (withDefault userId) then
    (s, ⟨400, .error "Invalid userId"⟩)
  else
    match body.price with
    | .number price =>
      let uid := withDefault userId
      let bookId := withDefault body.bookId
      match s.carts.find? (cartKey uid bookId) with
      | some item => (s, ⟨200, .cartItem item⟩)
      | none =>
        let item : CartItem :=
          { _id := env.freshId, userId := uid, bookId := bookId,
            title := withDefault body.title, author := withDefault body.author,
            price := some price, imageUrl := withDefault body.imageUrl,
            purchased := false, createdAt := env.now }
        ({ s with carts := s.carts ++ [item] }, ⟨200, .cartItem item⟩)
    | _ => (s, ⟨400, .error "Price must be a number"⟩)

/-- The filter `{ _id: itemId, userId }` of the delete; the query casts the `itemId` of
the path to an ObjectId. -/
def ownedItem (itemId : String) (userId : ObjectId) (c : CartItem) : Bool :=
  c._id == castObjectId itemId && c.userId == userId

/-- The handler `router.delete('/:itemId')`. -/
def removeFromCart (user : Option AuthUser) (itemId : String) (s : Store) :
    Store × Response :=
  match user with
  | none => (s, ⟨500, .error "Server error"⟩)
  | some u =>
    if !objectIdIsValid itemId then
      (s, ⟨400, .error "Invalid item ID"⟩)
    else
      match s.carts.find? (ownedItem itemId u._id) with
      | none => (s, ⟨404, .error "Item not found in cart"⟩)
      | some _ =>
        ({ s with carts := s.carts.eraseP (ownedItem itemId u._id) },
          ⟨200, .success "Item removed from cart"⟩)

/-- One purchase record built from a cart item (`POST /cart/checkout`, `POST /orders`). -/
def purchaseOfCart (userId : ObjectId) (item : CartItem) : Purchase :=
  { bookId := item.bookId, title := item.title, author := item.author,
    price := item.price, quantity := 1, userId := userId }

/-- The filter `{ userId, purchased: false }`. -/
def unpurchasedOf (userId : ObjectId) (c : CartItem) : Bool :=
  c.userId == userId && c.purchased == false

/-- The order built by `new Order({...})` in the checkout handler. -/
def completedOrder (freshId : ObjectId) (userId : ObjectId) (address : Option String)
    (transactionId : Option String) (cartItems : List CartItem) : Order :=
  { _id := freshId, userId := userId,
    items := cartItems.map snapshot,
    totalAmount := cartTotal cartItems,
    status := "completed", paymentMethod := "upi", paymentStatus := "completed",
    transactionId := transactionId, upiTransactionId := none,
    paymentDetails :=
      { upiId := none, paymentTime := none, gatewayTransactionId := none,
        paymentGateway := none },
    address := address }

/-- The handler `router.post('/checkout')` of the cart routes; `freshId` is the ObjectId
of the new order. -/
def checkout (freshId : ObjectId) (user : Option AuthUser) (address : Option String)
    (transactionId : Option String) (s : Store) : Store × Response :=
  match user with
  | none => (s, ⟨500, .error "Server error during checkout"⟩)
  | some u =>
    let userId := u._id
    if !truthy transactionId then
      (s, ⟨400, .error "UPI payment required: missing transactionId"⟩)
    else
      let cartItems := s.carts.filter (unpurchasedOf userId)
      if cartItems.length == 0 then
        (s, ⟨400, .error "Cart is empty"⟩)
      else
        let totalAmount := cartTotal cartItems
        let createdOrder := completedOrder freshId userId address transactionId cartItems
        let purchaseRecords := cartItems.map (purchaseOfCart userId)
        ({ carts := s.carts.filter (fun c => !(unpurchasedOf userId c)),
           orders := s.orders ++ [createdOrder],
           purchases := s.purchases ++ purchaseRecords },
          ⟨200, .checkedOut "Checkout successful" totalAmount cartItems.length
            (withDefault transactionId) createdOrder⟩)

/-! ## Order routes (`backend/routes/orders.js`) -/

/-- The order built by `new Order({ userId, items, totalAmount })`: the other paths take
the schema defaults. -/
def defaultOrder (env : CreateEnv) (userId : ObjectId) (cartItems : List CartItem) : Order :=
  { _id := env.freshId, userId := userId,
    items := cartItems.map snapshot,
    totalAmount := cartTotal cartItems,
    paymentMethod := env.defaults.paymentMethod,
    paymentStatus := env.defaults.paymentStatus,
    status := env.defaults.status,
    transactionId := none, upiTransactionId := none,
    paymentDetails :=
      { upiId := none, paymentTime := none, gatewayTransactionId := none,
        paymentGateway := none } }

/-- The handler `router.post('/')` of the order routes. -/
def createOrder (env : CreateEnv) (user : Option AuthUser) (s : Store) : Store × Response :=
  match user with
  | none => (s, ⟨500, .message "Error creating order"⟩)
  | some u =>
    let userId := u.id
    let cartItems := s.carts.filter (fun c => c.userId == userId)
    if cartItems.length == 0 then
      (s, ⟨400, .message "Cart is empty"⟩)
    else
      let order := defaultOrder env userId cartItems
      let purchaseRecords := cartItems.map (purchaseOfCart userId)
      ({ carts := s.carts.filter (fun c => !(c.userId == userId)),
         orders := s.orders ++ [order],
         purchases := s.purchases ++ purchaseRecords },
        ⟨201, .order "Order created successfully" order⟩)

/-- The list `allowedStatuses`. -/
def allowedStatuses : List String := ["pending", "completed", "cancelled"]

/-- The paymentStatus that the status update writes: mapped from the new status for a
'cod' order, the recorded one otherwise. -/
def mappedPaymentStatus (order : Order) (status : String) : String :=
  if order.paymentMethod == "cod" then
    let p1 := if status == "completed" then "completed" else order.paymentStatus
    let p2 := if status == "cancelled" then "failed" else p1
    if status == "pending" then "pending" else p2
  else order.paymentStatus

/-- The order after the assignments of the status update. -/
def applyStatus (status : String) (order : Order) : Order :=
  { order with status := status, paymentStatus := mappedPaymentStatus order status }

/-- The handler `router.put('/:orderId/status')`.  `findById` casts the `orderId` of the
path to an ObjectId; with an id that does not cast it throws, which the handler answers
with 500. -/
def updateOrderStatus (user : Option AuthUser) (orderId : String) (status : Option String)
    (s : Store) : Store × Response :=
  match user with
  | none => (s, ⟨500, .message "Error updating order status"⟩)
  | some u =>
    if u.role != "admin" then
      (s, ⟨403, .message "Access denied"⟩)
    else
      match status with
      | none => (s, ⟨400, .message "Invalid status"⟩)
      | some st =>
        if !allowedStatuses.contains st then
          (s, ⟨400, .message "Invalid status"⟩)
        else if !objectIdIsValid orderId then
          (s, ⟨500, .message "Error updating order status"⟩)
        else
          match s.orders.find? (fun o => o._id == castObjectId orderId) with
          | none => (s, ⟨404, .message "Order not found"⟩)
          | some order =>
            let saved : Order := applyStatus st order
            let orders := updateFirst (fun o => o._id == castObjectId orderId)
              (applyStatus st) s.orders
            ({ s with orders := orders }, ⟨200, .updated saved⟩)

/-! ## Payment routes (`backend/routes/payments.js`) -/

/-- The order built by `new Order({...})` in the initiation handler. -/
def pendingOrder (env : InitiateEnv) (userId : ObjectId) (upiId : Option String)
    (cartItems : List CartItem) : Order :=
  { _id := env.freshId, userId := userId,
    items := cartItems.map snapshot,
    totalAmount := cartTotal cartItems,
    paymentMethod := "upi", paymentStatus := "pending", status := "pending",
    transactionId := none, upiTransactionId := none,
    paymentDetails :=
      { upiId := orElseStr upiId (some env.serviceUpiId), paymentTime := none,
        gatewayTransactionId := none, paymentGateway := none } }

/-- The handler `router.post('/upi/initiate')`. -/
def initiate (env : InitiateEnv) (user : Option AuthUser) (upiId : Option String)
    (s : Store) : Store × Response :=
  match user with
  | none => (s, ⟨500, .message "Failed to initiate UPI payment"⟩)
  | some u =>
    let userId := u.id
    let cartItems := s.carts.filter (fun c => c.userId == userId)
    if cartItems.length == 0 then
      (s, ⟨400, .message "Cart is empty"⟩)
    else
      let totalAmount := cartTotal cartItems
      let order := pendingOrder env userId upiId cartItems
      match env.paymentRequest with
      | none =>
        ({ s with orders := s.orders ++ [order] },
          ⟨500, .message "Failed to initiate UPI payment"⟩)
      | some paymentRequest =>
        let saved := { order with transactionId := some paymentRequest.transactionId }
        ({ s with orders := s.orders ++ [saved] },
          ⟨200, .initiated saved._id paymentRequest.transactionId
            paymentRequest.upiString paymentRequest.qrCode totalAmount
            paymentRequest.upiId⟩)

/-- The filter `{ transactionId, userId, paymentStatus: 'pending' }`. -/
def pendingFor (transactionId : Option String) (userId : ObjectId) (o : Order) : Bool :=
  o.transactionId == transactionId && o.userId == userId && o.paymentStatus == "pending"

/-- The order after the assignments of the success branch. -/
def markCompleted (paymentResult : PaymentResult) (order : Order) : Order :=
  { order with
    paymentStatus := "completed", status := "completed",
    upiTransactionId := some paymentResult.gatewayResponse.gatewayTransactionId,
    paymentDetails :=
      { order.paymentDetails with
        paymentTime := some paymentResult.paymentTime,
        gatewayTransactionId := some paymentResult.gatewayResponse.gatewayTransactionId,
        paymentGateway := some "UPI" } }

/-- The order after the assignments of the failure branch. -/
def markFailed (order : Order) : Order :=
  { order with paymentStatus := "failed", status := "cancelled" }

/-- One purchase record of the success branch. -/
def purchaseRecord (userId : ObjectId) (item : OrderItem) : Purchase :=
  { bookId := item.bookId, title := item.title, author := item.author,
    price := item.price, quantity := 1, userId := userId }

/-- The handler `router.post('/upi/verify')`. -/
def verify (paymentResult : PaymentResult) (user : Option AuthUser)
    (transactionId : Option String) (s : Store) : Store × Response :=
  match user with
  | none => (s, ⟨500, .message "Failed to verify payment"⟩)
  | some u =>
    let userId := u.id
    match s.orders.find? (pendingFor transactionId userId) with
    | none => (s, ⟨404, .message "Order not found or already processed"⟩)
    | some order =>
      if paymentResult.status == "completed" then
        let orders := updateFirst (pendingFor transactionId userId)
          (markCompleted paymentResult) s.orders
        let purchaseRecords := order.items.map (purchaseRecord order.userId)
        let purchases :=
          if purchaseRecords.length > 0 then s.purchases ++ purchaseRecords
          else s.purchases
        let carts := s.carts.filter (fun c => !(c.userId == userId))
        ({ carts := carts, orders := orders, purchases := purchases },
          ⟨200, .verified true "Payment successful" order._id transactionId
            (some paymentResult.gatewayResponse.gatewayTransactionId)⟩)
      else
        let orders := updateFirst (pendingFor transactionId userId) markFailed s.orders
        ({ s with orders := orders },
          ⟨200, .verified false "Payment failed" order._id transactionId none⟩)

/-- The order after the assignments of the callback handler. -/
def applyCallback (v : CallbackVerification) (order : Order) : Order :=
  { order with
    paymentStatus := v.status,
    status := if v.status == "completed" then "completed" else "cancelled",
    paymentDetails := { order.paymentDetails with paymentTime := some v.paymentTime } }

/-- The handler `router.post('/callback')`; `v` is what
`paymentService.verifyPaymentCallback(callbackData)` returned. -/
def callback (v : CallbackVerification) (s : Store) : Store × Response :=
  if v.verified then
    match s.orders.find? (fun o => o.transactionId == v.transactionId) with
    | some order =>
      let orders := updateFirst (fun o => o.transactionId == v.transactionId)
        (applyCallback v) s.orders
      let carts :=
        if v.status == "completed" then s.carts.filter (fun c => !(c.userId == order.userId))
        else s.carts
      ({ s with carts := carts, orders := orders }, ⟨200, .ok⟩)
    | none => (s, ⟨200, .ok⟩)
  else (s, ⟨200, .ok⟩)

/-- The filter `{ _id: orderId, userId, paymentStatus: 'completed' }`; the query casts
the `orderId` of the body to an ObjectId. -/
def refundable (orderId : String) (userId : ObjectId) (o : Order) : Bool :=
  o._id == castObjectId orderId && o.userId == userId && o.paymentStatus == "completed"

/-- The order after the assignments of the refund handler. -/
def markRefunded (order : Order) : Order :=
  { order with paymentStatus := "refunded", status := "cancelled" }

/-- The handler `router.post('/refund')`.  `processRefund` is the payment service call
(transaction id, amount, reason), `none` when it throws; an orderId that does not cast
to an ObjectId makes the query throw, which the handler answers with 500. -/
def refund (processRefund : Option String → JsNumber → Option String → Option RefundResult)
    (user : Option AuthUser) (body : RefundBody) (s : Store) : Store × Response :=
  match user with
  | none => (s, ⟨500, .message "Failed to process refund"⟩)
  | some u =>
    let userId := u.id
    if !objectIdIsValid body.orderId then
      (s, ⟨500, .message "Failed to process refund"⟩)
    else
      match s.orders.find? (refundable body.orderId userId) with
      | none => (s, ⟨404, .message "Order not found or not eligible for refund"⟩)
      | some order =>
        match processRefund order.transactionId (amountOr body.amount order.totalAmount)
            body.reason with
        | none => (s, ⟨500, .message "Failed to process refund"⟩)
        | some refundResult =>
          let orders := updateFirst (refundable body.orderId userId) markRefunded s.orders
          ({ s with orders := orders },
            ⟨200, .refunded refundResult.refundId refundResult.amount refundResult.status⟩)

/-- The stores after each write of the success branch of the verification handler, in
program order: `order.save()`, then `Purchase.insertMany`, then `CartItem.deleteMany`. -/
def verifySuccessTrace (paymentResult : PaymentResult) (userId : ObjectId)
    (transactionId : Option String) (order : Order) (s : Store) : List Store :=
  let orders := updateFirst (pendingFor transactionId userId)
    (markCompleted paymentResult) s.orders
  let s1 : Store := { s with orders := orders }
  let purchaseRecords := order.items.map (purchaseRecord order.userId)
  let purchases :=
    if purchaseRecords.length > 0 then s1.purchases ++ purchaseRecords else s1.purchases
  let s2 : Store := { s1 with purchases := purchases }
  let carts := s2.carts.filter (fun c => !(c.userId == userId))
  let s3 : Store := { s2 with carts := carts }
  [s1, s2, s3]

/-- The verification handler up to its first `await` after the lookup: the document that
`Order.findOne` returns, `none` for the 404 answer.  The handler then awaits the payment
service, and other requests are served in between. -/
def verifyLookup (u : AuthUser) (transactionId : Option String) (s : Store) : Option Order :=
  s.orders.find? (pendingFor transactionId u.id)

/-- The rest of the verification handler, run on the store as it is once the payment
service has resolved, with the document `order` that the lookup loaded: `order.save()`
writes the assigned paths to the stored document that has the `_id` of `order`. -/
def verifySettle (paymentResult : PaymentResult) (u : AuthUser)
    (transactionId : Option String) (order : Order) (s : Store) : Store × Response :=
  if paymentResult.status == "completed" then
    let orders := updateFirst (fun o => o._id == order._id) (markCompleted paymentResult)
      s.orders
    let purchaseRecords := order.items.map (purchaseRecord order.userId)
    let purchases :=
      if purchaseRecords.length > 0 then s.purchases ++ purchaseRecords
      else s.purchases
    let carts := s.carts.filter (fun c => !(c.userId == u.id))
    ({ carts := carts, orders := orders, purchases := purchases },
      ⟨200, .verified true "Payment successful" order._id transactionId
        (some paymentResult.gatewayResponse.gatewayTransactionId)⟩)
  else
    let orders := updateFirst (fun o => o._id == order._id) markFailed s.orders
    ({ s with orders := orders },
      ⟨200, .verified false "Payment failed" order._id transactionId none⟩)

/-! ## Every route as one operation -/

/-- A request to one of the routes of the three routers, with everything its handler
receives.  The four GET routes (`/cart`, `/orders/user/:userId`, `/orders/admin`,
`/payments/status/:transactionId`) issue only `find` queries. -/
inductive Op where
  | cartAdd (env : AddEnv) (user : Option AuthUser) (body : AddBody)
  | cartGet (user : Option AuthUser) (queryUserId : Option String)
  | cartCheckout (freshId : ObjectId) (user : Option AuthUser) (address : Option String)
      (transactionId : Option String)
  | cartRemove (user : Option AuthUser) (itemId : String)
  | orderCreate (env : CreateEnv) (user : Option AuthUser)
  | orderListUser (user : Option AuthUser) (userId : String)
  | orderListAll (user : Option AuthUser)
  | orderUpdateStatus (user : Option AuthUser) (orderId : String) (status : Option String)
  | payInitiate (env : InitiateEnv) (user : Option AuthUser) (upiId : Option String)
  | payVerify (paymentResult : PaymentResult) (user : Option AuthUser)
      (transactionId : Option String)
  | payStatus (user : Option AuthUser) (transactionId : String)
  | payCallback (v : CallbackVerification)
  | payRefund (processRefund : Option String → JsNumber → Option String → Option RefundResult)
      (user : Option AuthUser) (body : RefundBody)

/-- The store after a request. -/
def Op.run (s : Store) : Op → Store
  | .cartAdd env user body => (addToCart env user body s).1
  | .cartGet _ _ => s
  | .cartCheckout freshId user address transactionId =>
    (checkout freshId user address transactionId s).1
  | .cartRemove user itemId => (removeFromCart user itemId s).1
  | .orderCreate env user => (createOrder env user s).1
  | .orderListUser _ _ => s
  | .orderListAll _ => s
  | .orderUpdateStatus user orderId status => (updateOrderStatus user orderId status s).1
  | .payInitiate env user upiId => (initiate env user upiId s).1
  | .payVerify paymentResult user transactionId =>
    (verify paymentResult user transactionId s).1
  | .payStatus _ _ => s
  | .payCallback v => (callback v s).1
  | .payRefund processRefund user body => (refund processRefund user body s).1

/-- The stores that the routes can produce from the empty database. -/
inductive Reachable : Store → Prop where
  | empty : Reachable { carts := [], orders := [], purchases := [] }
  | step (s : Store) (op : Op) : Reachable s → Reachable (Op.run s op)

/-- No cart item carries the `purchased` flag. -/
def AllUnpurchased (s : Store) : Prop :=
  ∀ c ∈ s.carts, c.purchased = false

/-- A request of a signed-in user to a cart route or to the initiation, verification or
refund route, without the user. -/
inductive UserRequest where
  | add (env : AddEnv) (body : AddBody)
  | getCart (queryUserId : Option String)
  | checkout (freshId : ObjectId) (address : Option String) (transactionId : Option String)
  | remove (itemId : String)
  | initiate (env : InitiateEnv) (upiId : Option String)
  | verify (paymentResult : PaymentResult) (transactionId : Option String)
  | refund (processRefund : Option String → JsNumber → Option String → Option RefundResult)
      (body : RefundBody)

/-- The request as the route receives it when `authenticateToken` resolved it to `u`. -/
def UserRequest.toOp (u : AuthUser) : UserRequest → Op
  | .add env body => .cartAdd env (some u) body
  | .getCart queryUserId => .cartGet (some u) queryUserId
  | .checkout freshId address transactionId =>
    .cartCheckout freshId (some u) address transactionId
  | .remove itemId => .cartRemove (some u) itemId
  | .initiate env upiId => .payInitiate env (some u) upiId
  | .verify paymentResult transactionId => .payVerify paymentResult (some u) transactionId
  | .refund processRefund body => .payRefund processRefund (some u) body

/-- The orders of a user. -/
def ordersOf (userId : ObjectId) (s : Store) : List Order :=
  s.orders.filter (fun o => o.userId == userId)

/-- The values of the fulfillment status of an order. -/
def statusDomain : List String := ["pending", "completed", "cancelled"]

/-- The values of the payment status of an order. -/
def paymentStatusDomain : List String := ["pending", "completed", "failed", "refunded"]

/-- The two statuses of an order lie in their domains. -/
def InDomain (o : Order) : Prop :=
  o.status ∈ statusDomain ∧ o.paymentStatus ∈ paymentStatusDomain

/-- The status-domain invariant of a store. -/
def StatusDomain (s : Store) : Prop :=
  ∀ o ∈ s.orders, InDomain o

/-- Modelled from the spec: what the parts missing from the sources supply to a request.
The settlement outcome that `paymentService.verifyPaymentCallback` maps a notification
to has a status of the payment status domain (section 4.3 gives completed or failed),
and the defaults of the Order schema (section 3) lie in the two domains. -/
def Op.conforms : Op → Bool
  | .orderCreate env _ =>
    statusDomain.contains env.defaults.status &&
      paymentStatusDomain.contains env.defaults.paymentStatus
  | .payCallback v => paymentStatusDomain.contains v.status
  | _ => true

/-- The store after a sequence of requests, served one after the other. -/
def runAll (ops : List Op) (s : Store) : Store :=
  ops.foldl Op.run s

/-! ## Fetch with retries (`BookApp/src/services/googleBooksService.js`) -/

/-- What the loop reads of a `Response` of `fetch`. -/
structure FetchResponse where
  ok : Bool
  status : Nat
deriving DecidableEq, Repr

/-- How one call of `fetch` ends: with a response, or rejected (a network error). -/
inductive FetchOutcome where
  | response (res : FetchResponse)
  | networkError (err : String)
deriving DecidableEq, Repr

/-- How a call of `fetchWithRetries` ends: a response is returned, an error is thrown, or
the loop is left without a `return`. -/
inductive FetchResult where
  | returned (res : FetchResponse)
  | thrown (err : String)
  | undefined
deriving DecidableEq, Repr

/-- A run of `fetchWithRetries`: how it ends, how many times it called `fetch`, and the
waits it slept, in order, in milliseconds. -/
structure FetchRun where
  result : FetchResult
  attempts : Nat
  sleeps : List Nat
deriving DecidableEq, Repr

/-- The test `res.status === 429 || (res.status >= 500 && res.status < 600)`. -/
def retryStatus (status : Nat) : Bool :=
  status == 429 || (status ≥ 500 && status < 600)

/-- The loop `while (attempt <= retries)` from the state `attempt`; `fetch k` is how the
call number `k` of `fetch` ends, `calls` counts the calls made so far. -/
def fetchLoop (fetch : Nat → FetchOutcome) (retries backoff : Nat)
    (attempt calls : Nat) (sleeps : List Nat) : FetchRun :=
  if _h : attempt ≤ retries then
    match fetch calls with
    | .response res =>
      if res.ok then ⟨.returned res, calls + 1, sleeps⟩
      else if retryStatus res.status then
        if attempt = retries then ⟨.returned res, calls + 1, sleeps⟩
        else
          fetchLoop fetch retries backoff (attempt + 1) (calls + 1)
            (sleeps ++ [backoff * 2 ^ attempt])
      else ⟨.returned res, calls + 1, sleeps⟩
    | .networkError err =>
      if attempt = retries then ⟨.thrown err, calls + 1, sleeps⟩
      else
        fetchLoop fetch retries backoff (attempt + 1) (calls + 1)
          (sleeps ++ [backoff * 2 ^ attempt])
  else ⟨.undefined, calls, sleeps⟩
termination_by retries + 1 - attempt
decreasing_by all_goals omega

/-- The function `fetchWithRetries(url, options, retries, backoff)`. -/
def fetchWithRetries (fetch : Nat → FetchOutcome) (retries backoff : Nat) : FetchRun :=
  fetchLoop fetch retries backoff 0 0 []

/-- The outcomes after which the loop tries again when attempts are left: a network
error, or a response that is not ok with status 429 or 500 to 599. -/
def retryable : FetchOutcome → Bool
  | .response res => !res.ok && retryStatus res.status
  | .networkError _ => true

/-- How the call ends on its last outcome: the response is returned, the error thrown. -/
def finish : FetchOutcome → FetchResult
  | .response res => .returned res
  | .networkError err => .thrown err

/-- The waits `backoff * 2^k` for the `n` attempts `attempt, attempt + 1, ...`. -/
def backoffs (backoff attempt n : Nat) : List Nat :=
  (List.range n).map (fun k => backoff * 2 ^ (attempt + k))

/-! ## Pagination of `getAllUsers` (`backend/controllers/authController.js`) -/

/-- The expression `parseInt(x) || d`, given what `parseInt` returned (`none` for NaN):
NaN and 0 are falsy. -/
def parsedOr (parsed : Option Int) (d : Int) : Int :=
  match parsed with
  | none => d
  | some n => if n = 0 then d else n

/-- The expression `Math.ceil(a / b)`, with the exact quotient. -/
def ceilDiv (a b : Int) : Int := Int.ceil ((a : ℚ) / (b : ℚ))

/-- The `pagination` object of the response. -/
structure Pagination where
  totalUsers : Nat
  totalPages : Int
  currentPage : Int
  hasMore : Bool
deriving DecidableEq

/-- The pagination that `getAllUsers` reports; `pageParsed` and `limitParsed` are what
`parseInt` returned for `req.query.page` and `req.query.limit`, `totalUsers` what
`User.countDocuments(query)` returned. -/
def getAllUsersPagination (pageParsed limitParsed : Option Int) (totalUsers : Nat) :
    Pagination :=
  let page := parsedOr pageParsed 1
  let limit := parsedOr limitParsed 10
  let totalPages := ceilDiv totalUsers limit
  { totalUsers := totalUsers, totalPages := totalPages, currentPage := page,
    hasMore := decide (page < totalPages) }

/-! ## Sequences of cart operations -/

/-- A cart request: an add or a remove, with everything the handler receives. -/
inductive CartOp where
  | add (env : AddEnv) (user : Option AuthUser) (body : AddBody)
  | remove (user : Option AuthUser) (itemId : String)
deriving DecidableEq, Repr

/-- The store after one cart request. -/
def applyCartOp (s : Store) : CartOp → Store
  | .add env user body => (addToCart env user body s).1
  | .remove user itemId => (removeFromCart user itemId s).1

/-- The store after a sequence of cart requests, served one after the other. -/
def applyCartOps (ops : List CartOp) (s : Store) : Store :=
  ops.foldl applyCartOp s

/-- The sum of a list of numbers as the language computes it: added one by one, from 0,
from left to right, each step rounded to a double. -/
def doubleSum (prices : List JsNumber) : JsNumber :=
  prices.foldl jsAdd 0

/-- The prices of the line items of an order as the handlers add them: `item.price || 0`
for each item, in order. -/
def linePrices (items : List OrderItem) : List JsNumber :=
  items.map (fun i => priceOrZero i.price)

/-- The prices of cart items as the handlers add them: `item.price || 0` for each item,
in order. -/
def cartPrices (cartItems : List CartItem) : List JsNumber :=
  cartItems.map (fun c => priceOrZero c.price)

/-- Modelled from the spec: the sum of a list of prices, as the real number that it is;
`none` when a price is an infinity or `NaN`. -/
def exactSum : List JsNumber → Option ℚ
  | [] => some 0
  | p :: ps =>
    match p.value?, exactSum ps with
    | some x, some t => some (x + t)
    | _, _ => none

/-- The step `a + b` is exact: both numbers are finite, and so is the result, which is
their sum as real numbers. -/
def addsExactly (a b : JsNumber) : Bool :=
  match a.value?, b.value?, (jsAdd a b).value? with
  | some x, some y, some z => decide (z = x + y)
  | _, _, _ => false

/-- No step rounds when the numbers of the list are added to `acc` one by one. -/
def noRounding : JsNumber → List JsNumber → Bool
  | _, [] => true
  | acc, p :: ps => addsExactly acc p && noRounding (jsAdd acc p) ps

/-- The cart items of a user, as `CartItem.find({ userId })` returns them. -/
def cartOf (userId : ObjectId) (s : Store) : List CartItem :=
  s.carts.filter (fun c => c.userId == userId)

/-- The CartItem invariant: at most one item for each (user, book) pair. -/
def CartUnique (s : Store) : Prop :=
  ∀ (uid : ObjectId) (b : String), s.carts.countP (cartKey uid b) ≤ 1

/-! ## Sample data: the scenario of two books priced 200 and 150 -/

/-- A signed-in user. -/
def alice : AuthUser :=
  { _id := "64b000000000000000000001", username := "alice",
    email := "alice@example.org", role := "user" }

/-- Book A in the cart of alice, priced 200. -/
def bookA : CartItem :=
  { _id := "64b0000000000000000000a1", userId := "64b000000000000000000001",
    bookId := "A", title := "Book A", author := "Ann", price := some 200,
    imageUrl := "", purchased := false, createdAt := 1 }

/-- Book B in the cart of alice, priced 150. -/
def bookB : CartItem :=
  { _id := "64b0000000000000000000a2", userId := "64b000000000000000000001",
    bookId := "B", title := "Book B", author := "Bob", price := some 150,
    imageUrl := "", purchased := false, createdAt := 2 }

/-- The store of the scenario: both books in the cart, nothing else. -/
def cartStore : Store := { carts := [bookA, bookB], orders := [], purchases := [] }

/-- The payment request that the payment service returns in the scenario. -/
def samplePaymentRequest : PaymentRequest :=
  { transactionId := "TXN1", upiString := "upi://pay", qrCode := "qr", upiId := "shop@upi" }

/-- The outside values of the initiation in the scenario. -/
def sampleEnv : InitiateEnv :=
  { freshId := "64b0000000000000000000f1", serviceUpiId := "shop@upi",
    paymentRequest := some samplePaymentRequest }

/-- Another signed-in user. -/
def bob : AuthUser :=
  { _id := "64b000000000000000000002", username := "bob",
    email := "bob@example.org", role := "user" }

/-- A first add-to-cart request for book A. -/
def addA : AddBody :=
  { userId := none, bookId := some "A", title := some "Book A", price := .number 200,
    author := some "Ann", imageUrl := none }

/-- A second add-to-cart request for book A, with another title and price. -/
def addAgain : AddBody :=
  { userId := none, bookId := some "A", title := some "Book A, 2nd edition",
    price := .number 250, author := none, imageUrl := none }

/-- The store with nothing in it. -/
def emptyStore : Store := { carts := [], orders := [], purchases := [] }

/-- The pending order that the initiation of the scenario stores. -/
def sampleOrder : Order :=
  { _id := "64b0000000000000000000f1", userId := "64b000000000000000000001",
    items := [snapshot bookA, snapshot bookB], totalAmount := 350,
    paymentMethod := "upi", paymentStatus := "pending", status := "pending",
    transactionId := some "TXN1", upiTransactionId := none,
    paymentDetails :=
      { upiId := some "shop@upi", paymentTime := none, gatewayTransactionId := none,
        paymentGateway := none } }

/-- The store of the scenario after initiation. -/
def pendingStore : Store := { carts := [bookA, bookB], orders := [sampleOrder], purchases := [] }

/-- A gateway result reporting success. -/
def paidResult : PaymentResult :=
  { status := "completed", paymentTime := 1700000000,
    gatewayResponse := { gatewayTransactionId := "GW1" } }

/-- A gateway result reporting failure. -/
def failedResult : PaymentResult :=
  { status := "failed", paymentTime := 1700000000,
    gatewayResponse := { gatewayTransactionId := "GW1" } }

/-- The store of the scenario after alice added book A. -/
def oneBookStore : Store := { carts := [bookA], orders := [], purchases := [] }

/-- An add-to-cart request with no bookId. -/
def addNoBook : AddBody :=
  { userId := none, bookId := none, title := some "Book A", price := .number 200,
    author := none, imageUrl := none }

/-- An add-to-cart request with a negative price. -/
def addNegative : AddBody :=
  { userId := none, bookId := some "N", title := some "Book N", price := .number (-5),
    author := none, imageUrl := none }

/-- The store after bob added book A to an empty database. -/
def bobStore : Store :=
  Op.run emptyStore (.cartAdd ⟨"64b0000000000000000000b1", 5⟩ (some bob) addA)

/-- Modelled from the spec: the defaults of the Order schema (`models/Order.js` is not
among the sources).  An Order is "created when checkout is initiated (pending)", and the
payment method of such an order is the pay-on-fulfillment one, which the status update
route names 'cod'. -/
def pendingDefaults : OrderDefaults :=
  { status := "pending", paymentStatus := "pending", paymentMethod := "cod" }

/-- A verified gateway callback reporting that TXN1 is completed. -/
def completedCallback : CallbackVerification :=
  { verified := true, transactionId := some "TXN1", status := "completed",
    paymentTime := 1700000000 }

/-- An administrator. -/
def carol : AuthUser :=
  { _id := "64b000000000000000000003", username := "carol",
    email := "carol@example.org", role := "admin" }

/-- A pending pay-on-fulfillment order of alice, as `POST /orders` stores it. -/
def codOrder : Order :=
  { _id := "64b0000000000000000000f2", userId := "64b000000000000000000001",
    items := [snapshot bookA, snapshot bookB], totalAmount := 350,
    paymentMethod := "cod", paymentStatus := "pending", status := "pending",
    transactionId := none, upiTransactionId := none,
    paymentDetails :=
      { upiId := none, paymentTime := none, gatewayTransactionId := none,
        paymentGateway := none } }

/-- A store with the pending UPI order and the pay-on-fulfillment order of alice. -/
def twoOrderStore : Store :=
  { carts := [], orders := [sampleOrder, codOrder], purchases := [] }

/-- The order of the scenario after a successful verification. -/
def paidOrder : Order := markCompleted paidResult sampleOrder

/-- The store of the scenario after a successful verification. -/
def paidStore : Store :=
  { carts := [], orders := [paidOrder],
    purchases := sampleOrder.items.map (purchaseRecord sampleOrder.userId) }

/-- A payment service whose refund result repeats the amount it was asked to refund. -/
def echoRefund (_transactionId : Option String) (amount : JsNumber) (_reason : Option String) :
    Option RefundResult :=
  some { refundId := "RF1", amount := amount, status := "processed" }

/-- The requests of the scenario settled by a callback: alice adds book A, initiates the
payment, and the gateway reports it completed. -/
def sampleOps : List Op :=
  [.cartAdd ⟨"64b0000000000000000000a1", 1⟩ (some alice) addA,
   .payInitiate sampleEnv (some alice) none,
   .payCallback completedCallback]

/-- A cart item of alice priced 9007199254740992, which is 2^53. -/
def bookC : CartItem :=
  { _id := "64b0000000000000000000a3", userId := "64b000000000000000000001",
    bookId := "C", title := "Book C", author := "Cy", price := some 9007199254740992,
    imageUrl := "", purchased := false, createdAt := 3 }

/-- A cart item of alice priced 1. -/
def bookD : CartItem :=
  { _id := "64b0000000000000000000a4", userId := "64b000000000000000000001",
    bookId := "D", title := "Book D", author := "Di", price := some 1,
    imageUrl := "", purchased := false, createdAt := 4 }

/-- Another cart item of alice priced 1. -/
def bookE : CartItem :=
  { _id := "64b0000000000000000000a5", userId := "64b000000000000000000001",
    bookId := "E", title := "Book E", author := "Ed", price := some 1,
    imageUrl := "", purchased := false, createdAt := 5 }

/-- A store where the cart of alice holds the books priced 2^53, 1 and 1, in this order. -/
def roundingStore : Store := { carts := [bookC, bookD, bookE], orders := [], purchases := [] }

/-- A cart item of alice priced 0.1. -/
def bookF : CartItem :=
  { _id := "64b0000000000000000000a6", userId := "64b000000000000000000001",
    bookId := "F", title := "Book F", author := "Flo", price := some (JsNumber.ofDecimal 1 1),
    imageUrl := "", purchased := false, createdAt := 6 }

/-- A cart item of alice priced 0.2. -/
def bookG : CartItem :=
  { _id := "64b0000000000000000000a7", userId := "64b000000000000000000001",
    bookId := "G", title := "Book G", author := "Gus", price := some (JsNumber.ofDecimal 2 1),
    imageUrl := "", purchased := false, createdAt := 7 }

/-- A store where the cart of alice holds the books priced 0.1 and 0.2, in this order. -/
def fractionStore : Store := { carts := [bookF, bookG], orders := [], purchases := [] }

/-- A sequence of fetch outcomes: a network error, then a 503, then a 200. -/
def flaky : Nat → FetchOutcome
  | 0 => .networkError "ECONNRESET"
  | 1 => .response ⟨false, 503⟩
  | _ => .response ⟨true, 200⟩

/-! ## Lemmas on the helpers -/

theorem updateFirst_of_find (p : α → Bool) (f : α → α) :
    ∀ (l : List α) (a : α), l.find? p = some a →
      ∃ pre post, l = pre ++ a :: post ∧ (∀ x ∈ pre, p x = false) ∧ p a = true ∧
        updateFirst p f l = pre ++ f a :: post := by
  intro l
  induction l with
  | nil => intro a h; simp at h
  | cons b l ih =>
    intro a h
    by_cases hb : p b = true
    · rw [List.find?_cons_of_pos _ hb] at h
      cases h
      exact ⟨[], l, rfl, by simp, hb, by simp [updateFirst, hb]⟩
    · rw [List.find?_cons_of_neg _ hb] at h
      obtain ⟨pre, post, hl, hpre, ha, hu⟩ := ih a h
      refine ⟨b :: pre, post, by simp [hl], ?_, ha, by simp [updateFirst, hb, hu]⟩
      intro x hx
      rcases List.mem_cons.mp hx with rfl | hx
      · simpa using hb
      · exact hpre x hx

theorem find_updateFirst_none (p q : α → Bool) (f : α → α)
    (hq : ∀ x, p x = true → q x = true) (hf : ∀ x, p x = true → p (f x) = false) :
    ∀ l : List α, l.countP q ≤ 1 → (updateFirst p f l).find? p = none := by
  intro l
  induction l with
  | nil => intro _; simp [updateFirst]
  | cons b l ih =>
    intro hc
    by_cases hb : p b = true
    · have hqb : q b = true := hq b hb
      rw [List.countP_cons_of_pos _ _ hqb] at hc
      have h0 : l.countP q = 0 := by omega
      rw [List.countP_eq_zero] at h0
      have hu : updateFirst p f (b :: l) = f b :: l := by
        simp [updateFirst, hb]
      rw [hu, List.find?_cons_of_neg _ (by simp [hf b hb])]
      rw [List.find?_eq_none]
      intro x hx hpx
      exact h0 x hx (hq x hpx)
    · have hle : l.countP q ≤ 1 := by
        have := List.countP_cons q b l
        split at this <;> omega
      have hu : updateFirst p f (b :: l) = b :: updateFirst p f l := by
        simp [updateFirst, hb]
      rw [hu, List.find?_cons_of_neg _ hb]
      exact ih hle

/-! ## Lemmas on numbers -/

/-- Additions of doubles with known results: 0.1 + 0.2 is 0.30000000000000004; at 2^53,
which is 9007199254740992, an added 1 is rounded away and an added 3 becomes 4; 12.5 +
0.25 is 12.75; 1 + -1 is 0; twice the smallest subnormal double; the largest double
added to itself overflows to Infinity; Infinity + -Infinity is NaN; -0 + -0 is -0 and
-0 + 0 is 0. -/
theorem jsAdd_examples :
    jsAdd (JsNumber.ofDecimal 1 1) (JsNumber.ofDecimal 2 1) =
      JsNumber.ofDecimal 30000000000000004 17 ∧
    (9007199254740992 : JsNumber) = .finite 1 53 ∧
    jsAdd (.finite 1 53) 1 = .finite 1 53 ∧
    jsAdd (.finite 1 53) 3 = .finite 2251799813685249 2 ∧
    (9007199254740996 : JsNumber) = .finite 2251799813685249 2 ∧
    jsAdd (JsNumber.ofDecimal 125 1) (JsNumber.ofDecimal 25 2) = JsNumber.ofDecimal 1275 2 ∧
    jsAdd 1 (-1) = 0 ∧
    jsAdd (.finite 1 (-1074)) (.finite 1 (-1074)) = .finite 1 (-1073) ∧
    jsAdd (.finite 9007199254740991 971) (.finite 9007199254740991 971) = .infinite false ∧
    jsAdd (.infinite false) (.infinite true) = .nan ∧
    jsAdd .negZero .negZero = .negZero ∧ jsAdd .negZero 0 = 0 :=
  ⟨by decide, by decide, by decide, by decide, by decide, by decide, by decide, by decide,
    by decide, by decide, by decide, by decide⟩

theorem bitLengthAux_le_iff : ∀ (fuel n k : Nat), n ≤ fuel →
    (bitLengthAux fuel n ≤ k ↔ n < 2 ^ k) := by
  intro fuel
  induction fuel with
  | zero =>
    intro n k h
    have : n = 0 := by omega
    subst this
    simp [bitLengthAux]
  | succ f ih =>
    intro n k h
    by_cases hn : n = 0
    · subst hn
      simp [bitLengthAux]
    · simp only [bitLengthAux, hn, if_false]
      cases k with
      | zero =>
        simp
        omega
      | succ k =>
        have h2 : n / 2 ≤ f := by omega
        rw [Nat.add_le_add_iff_right, ih (n / 2) k h2, pow_succ]
        omega

theorem bitLength_le_iff (n k : Nat) : bitLength n ≤ k ↔ n < 2 ^ k :=
  bitLengthAux_le_iff n n k (le_refl n)

theorem stripZeros_fuel : ∀ (f₁ f₂ n : Nat) (e : Int), 0 < n → n ≤ f₁ → n ≤ f₂ →
    stripZeros f₁ n e = stripZeros f₂ n e := by
  intro f₁
  induction f₁ with
  | zero => intro f₂ n e h0 h1 _; omega
  | succ g ih =>
    intro f₂ n e h0 h1 h2
    cases f₂ with
    | zero => omega
    | succ h =>
      simp only [stripZeros]
      by_cases hev : n % 2 = 0 ∧ n ≠ 0
      · rw [if_pos hev, if_pos hev]
        exact ih h (n / 2) (e + 1) (by omega) (by omega) (by omega)
      · rw [if_neg hev, if_neg hev]

theorem stripZeros_mul_pow (n : Nat) (hn : 0 < n) : ∀ (j : Nat) (e : Int),
    stripZeros (n * 2 ^ j) (n * 2 ^ j) e = stripZeros n n (e + j) := by
  intro j
  induction j with
  | zero => intro e; simp
  | succ j ih =>
    intro e
    have hpos : 0 < n * 2 ^ j := Nat.mul_pos hn (pow_pos (by decide) _)
    obtain ⟨m, hm⟩ : ∃ m, n * 2 ^ j = m := ⟨_, rfl⟩
    have h2 : n * 2 ^ (j + 1) = (2 * m - 1) + 1 := by rw [pow_succ, ← mul_assoc, hm]; omega
    rw [h2]
    simp only [stripZeros]
    have hev : (2 * m - 1 + 1) % 2 = 0 ∧ 2 * m - 1 + 1 ≠ 0 := by omega
    rw [if_pos hev]
    have hd : (2 * m - 1 + 1) / 2 = m := by omega
    rw [hd, stripZeros_fuel (2 * m - 1) m m (e + 1) (by omega) (by omega) (le_refl m)]
    rw [← hm, ih (e + 1)]
    congr 1
    push_cast
    ring

theorem stripZeros_spec : ∀ (fuel n : Nat) (e : Int), 0 < n → n ≤ fuel →
    ∃ j : Nat, (stripZeros fuel n e).2 = e + j ∧ (stripZeros fuel n e).1 * 2 ^ j = n := by
  intro fuel
  induction fuel with
  | zero => intro n e h0 h1; omega
  | succ f ih =>
    intro n e h0 h1
    simp only [stripZeros]
    by_cases hev : n % 2 = 0 ∧ n ≠ 0
    · rw [if_pos hev]
      obtain ⟨j, hj1, hj2⟩ := ih (n / 2) (e + 1) (by omega) (by omega)
      refine ⟨j + 1, ?_, ?_⟩
      · rw [hj1]; push_cast; ring
      · rw [pow_succ, ← mul_assoc, hj2]; omega
    · rw [if_neg hev]
      exact ⟨0, by simp, by simp⟩

theorem roundHalfEven_one (n : Nat) : roundHalfEven n 1 = n := by
  simp [roundHalfEven, Nat.mod_one]

/-- The double nearest to a whole number below 2^53 times a power of two is that number. -/
theorem nearestDouble_small (negative : Bool) (n : Nat) (e : Nat) (hn : 0 < n)
    (h53 : n < 2 ^ 53) (he : e ≤ 53) :
    nearestDouble negative n 1 e =
      .finite (if negative then -((stripZeros n n e).1 : Int) else (stripZeros n n e).1)
        (stripZeros n n e).2 := by
  obtain ⟨L, hL⟩ : ∃ L, bitLength n = L := ⟨_, rfl⟩
  have hL53 : L ≤ 53 := by rw [← hL]; exact (bitLength_le_iff n 53).mpr h53
  have hL1 : 1 ≤ L := by
    by_contra hc
    have : bitLength n ≤ 0 := by omega
    have := (bitLength_le_iff n 0).mp this
    omega
  have hlow : 2 ^ (L - 1) ≤ n := by
    by_contra hc
    have : bitLength n ≤ L - 1 := (bitLength_le_iff n (L - 1)).mpr (by omega)
    omega
  have hup : n < 2 ^ L := (bitLength_le_iff n L).mp (by omega)
  have hb1 : bitLength 1 = 1 := by decide
  have hk : n * 2 ^ (53 - L) < 2 ^ 53 := by
    calc n * 2 ^ (53 - L) < 2 ^ L * 2 ^ (53 - L) :=
          Nat.mul_lt_mul_of_pos_right hup (pow_pos (by decide) _)
      _ = 2 ^ 53 := by rw [← pow_add]; congr 1; omega
  have hkpos : 0 < n * 2 ^ (53 - L) := Nat.mul_pos hn (pow_pos (by decide) _)
  have hbk : bitLength (n * 2 ^ (53 - L)) ≤ 53 := (bitLength_le_iff _ 53).mpr hk
  unfold nearestDouble
  simp only [hL, hb1]
  have hl1 : ((L : Int) - ((1 : Nat) : Int)).toNat = L - 1 := by omega
  have hl2 : (-((L : Int) - ((1 : Nat) : Int))).toNat = 0 := by omega
  simp only [hl1, hl2, pow_zero, mul_one, one_mul, hlow, if_true]
  have hqe : max ((e : Int) + ((L : Int) - ((1 : Nat) : Int)) - 52) (-1074) =
      (e : Int) + L - 53 := by
    omega
  simp only [hqe]
  have hs1 : (-((e : Int) + L - 53 - e)).toNat = 53 - L := by omega
  have hs2 : ((e : Int) + L - 53 - e).toNat = 0 := by omega
  simp only [hs1, hs2, pow_zero, roundHalfEven_one]
  rw [if_neg (by omega)]
  unfold packDouble
  rw [if_neg (by omega)]
  simp only []
  rw [stripZeros_mul_pow n hn (53 - L)]
  have he2 : (e : Int) + L - 53 + ((53 - L : Nat) : Int) = e := by omega
  rw [he2]

theorem ofDecimal_nat (a : Nat) (h : a < 2 ^ 53) :
    ∃ m j : Nat, JsNumber.ofDecimal a 0 = .finite m j ∧ m * 2 ^ j = a ∧ j ≤ 53 := by
  by_cases h0 : a = 0
  · subst h0
    exact ⟨0, 0, by simp [JsNumber.ofDecimal], by simp, by omega⟩
  · have hpos : 0 < a := Nat.pos_of_ne_zero h0
    obtain ⟨j, hj1, hj2⟩ := stripZeros_spec a a 0 hpos (le_refl a)
    refine ⟨(stripZeros a a 0).1, j, ?_, hj2, ?_⟩
    · unfold JsNumber.ofDecimal
      have hne : ((a : Nat) : Int) ≠ 0 := by omega
      rw [if_neg hne]
      have hd : decide (((a : Nat) : Int) < 0) = false := decide_eq_false (by omega)
      rw [hd, Int.natAbs_ofNat, pow_zero]
      have := nearestDouble_small false a 0 hpos h (by omega)
      simp only [Nat.cast_zero] at this
      rw [this, hj1]
      simp
    · by_contra hc
      have h1 : 2 ^ 53 ≤ 2 ^ j := Nat.pow_le_pow_right (by decide) (by omega)
      have h2 : 1 ≤ (stripZeros a a 0).1 := by
        by_contra hz
        have : (stripZeros a a 0).1 = 0 := by omega
        rw [this] at hj2
        omega
      have : 2 ^ j ≤ (stripZeros a a 0).1 * 2 ^ j := Nat.le_mul_of_pos_left _ h2
      omega

/-- Adding two whole numbers whose sum is below 2^53 is exact. -/
theorem jsAdd_nat (a b : Nat) (h : a + b < 2 ^ 53) :
    jsAdd (JsNumber.ofDecimal a 0) (JsNumber.ofDecimal b 0) =
      JsNumber.ofDecimal (a + b : Nat) 0 := by
  obtain ⟨m₁, j₁, h1, hv1, hj1⟩ := ofDecimal_nat a (by omega)
  obtain ⟨m₂, j₂, h2, hv2, hj2⟩ := ofDecimal_nat b (by omega)
  rw [h1, h2]
  unfold jsAdd
  simp only []
  obtain ⟨e, he⟩ : ∃ e : Nat, e = min j₁ j₂ := ⟨_, rfl⟩
  have hmin : min (j₁ : Int) (j₂ : Int) = (e : Int) := by omega
  have ht1 : ((j₁ : Int) - e).toNat = j₁ - e := by omega
  have ht2 : ((j₂ : Int) - e).toNat = j₂ - e := by omega
  rw [hmin, ht1, ht2]
  obtain ⟨sN, hs⟩ : ∃ sN : Nat, sN = m₁ * 2 ^ (j₁ - e) + m₂ * 2 ^ (j₂ - e) := ⟨_, rfl⟩
  have hsI : (m₁ : Int) * 2 ^ (j₁ - e) + (m₂ : Int) * 2 ^ (j₂ - e) = (sN : Int) := by
    rw [hs]; push_cast; ring
  rw [hsI]
  have hsum : sN * 2 ^ e = a + b := by
    rw [hs, add_mul, mul_assoc, mul_assoc, ← pow_add, ← pow_add, ← hv1, ← hv2]
    congr 3 <;> omega
  by_cases hz : sN = 0
  · have hab : a + b = 0 := by rw [← hsum, hz]; simp
    simp [hz, hab, JsNumber.ofDecimal]
  · have hpos : 0 < sN := Nat.pos_of_ne_zero hz
    have hne : ((sN : Nat) : Int) ≠ 0 := by omega
    rw [if_neg hne]
    have hd : decide (((sN : Nat) : Int) < 0) = false := decide_eq_false (by omega)
    rw [hd, Int.natAbs_ofNat]
    have hle : sN ≤ sN * 2 ^ e := Nat.le_mul_of_pos_right _ (pow_pos (by decide) _)
    have he53 : e ≤ 53 := by omega
    rw [nearestDouble_small false sN e hpos (by omega) he53]
    have habpos : 0 < a + b := by rw [← hsum]; exact Nat.mul_pos hpos (pow_pos (by decide) _)
    unfold JsNumber.ofDecimal
    have hne2 : (((a + b : Nat) : Nat) : Int) ≠ 0 := by omega
    rw [if_neg hne2]
    have hd2 : decide ((((a + b : Nat) : Nat) : Int) < 0) = false :=
      decide_eq_false (by omega)
    rw [hd2, Int.natAbs_ofNat, pow_zero]
    have := nearestDouble_small false (a + b) 0 habpos h (by omega)
    simp only [Nat.cast_zero] at this
    rw [this, ← hsum, stripZeros_mul_pow sN hpos e 0]
    simp

theorem foldl_jsAdd_nat : ∀ (ns : List Nat) (acc : Nat), acc + ns.sum < 2 ^ 53 →
    (ns.map JsNumber.ofNat).foldl jsAdd (JsNumber.ofNat acc) =
      JsNumber.ofNat (acc + ns.sum) := by
  intro ns
  induction ns with
  | nil => intro acc _; simp
  | cons n ns ih =>
    intro acc h
    rw [List.sum_cons] at h
    rw [List.map_cons, List.foldl_cons]
    have hstep : jsAdd (JsNumber.ofNat acc) (JsNumber.ofNat n) = JsNumber.ofNat (acc + n) :=
      jsAdd_nat acc n (by omega)
    rw [hstep, ih (acc + n) (by omega), List.sum_cons, add_assoc]

/-- Whole numbers whose sum is below 2^53 are added without rounding. -/
theorem noRounding_sample :
    noRounding 0 [200, 150] = true ∧ exactSum [200, 150] = some 350 ∧
    (350 : JsNumber).value? = some 350 := by
  have h0 : (0 : JsNumber) = .finite 0 0 := by decide
  have h1 : (200 : JsNumber) = .finite 25 3 := by decide
  have h2 : (150 : JsNumber) = .finite 75 1 := by decide
  have h3 : (350 : JsNumber) = .finite 175 1 := by decide
  have ha : jsAdd (.finite 0 0) (.finite 25 3) = .finite 25 3 := by decide
  have hb : jsAdd (.finite 25 3) (.finite 75 1) = .finite 175 1 := by decide
  rw [h0, h1, h2, h3]
  refine ⟨?_, ?_, ?_⟩
  · simp only [noRounding, addsExactly, ha, hb]
    norm_num [JsNumber.value?]
  · norm_num [exactSum, JsNumber.value?]
  · norm_num [JsNumber.value?]

theorem doubleSum_nat (ns : List Nat) (h : ns.sum < 2 ^ 53) :
    doubleSum (ns.map JsNumber.ofNat) = JsNumber.ofNat ns.sum := by
  have h0 := foldl_jsAdd_nat ns 0 (by omega)
  rw [zero_add] at h0
  exact h0

theorem cartTotal_eq_doubleSum (cartItems : List CartItem) :
    cartTotal cartItems = doubleSum (cartPrices cartItems) := by
  unfold cartTotal doubleSum cartPrices
  rw [List.foldl_map]

theorem linePrices_snapshot (cartItems : List CartItem) :
    linePrices (cartItems.map snapshot) = cartPrices cartItems := by
  unfold linePrices cartPrices
  rw [List.map_map]
  rfl

theorem cartTotal_eq_lineSum (cartItems : List CartItem) :
    cartTotal cartItems = doubleSum (linePrices (cartItems.map snapshot)) := by
  rw [linePrices_snapshot, cartTotal_eq_doubleSum]

theorem foldl_jsAdd_exact :
    ∀ (prices : List JsNumber) (acc : JsNumber) (x : ℚ), acc.value? = some x →
      noRounding acc prices = true →
      ∃ t, exactSum prices = some t ∧ (prices.foldl jsAdd acc).value? = some (x + t) := by
  intro prices
  induction prices with
  | nil =>
    intro acc x hx _
    exact ⟨0, rfl, by simpa using hx⟩
  | cons p ps ih =>
    intro acc x hx h
    simp only [noRounding, Bool.and_eq_true] at h
    obtain ⟨hstep, hrest⟩ := h
    unfold addsExactly at hstep
    rw [hx] at hstep
    cases hp : p.value? with
    | none => simp [hp] at hstep
    | some y =>
      cases hz : (jsAdd acc p).value? with
      | none => simp [hp, hz] at hstep
      | some z =>
        simp only [hp, hz, decide_eq_true_eq] at hstep
        obtain ⟨t, ht, hfold⟩ := ih (jsAdd acc p) z hz hrest
        refine ⟨y + t, ?_, ?_⟩
        · simp [exactSum, hp, ht]
        · rw [List.foldl_cons, hfold, hstep, add_assoc]

theorem doubleSum_exact (prices : List JsNumber) (h : noRounding 0 prices = true) :
    (doubleSum prices).value? = exactSum prices := by
  have h0 : (0 : JsNumber).value? = some 0 := by
    show (JsNumber.ofDecimal ((0 : Nat) : Int) 0).value? = some 0
    simp [JsNumber.ofDecimal, JsNumber.value?]
  obtain ⟨t, ht, hfold⟩ := foldl_jsAdd_exact prices 0 0 h0 h
  unfold doubleSum
  rw [hfold, ht, zero_add]

theorem cartTotal_exact (cartItems : List CartItem)
    (h : noRounding 0 (linePrices (cartItems.map snapshot)) = true) :
    (cartTotal cartItems).value? = exactSum (linePrices (cartItems.map snapshot)) := by
  rw [cartTotal_eq_lineSum]
  exact doubleSum_exact _ h

theorem cartTotal_exact_cart (cartItems : List CartItem)
    (h : noRounding 0 (cartPrices cartItems) = true) :
    (cartTotal cartItems).value? = exactSum (cartPrices cartItems) := by
  rw [cartTotal_eq_doubleSum]
  exact doubleSum_exact _ h

theorem cartTotal_nat (cartItems : List CartItem) (ns : List Nat)
    (h : linePrices (cartItems.map snapshot) = ns.map JsNumber.ofNat)
    (hs : ns.sum < 2 ^ 53) :
    cartTotal cartItems = JsNumber.ofNat ns.sum := by
  rw [cartTotal_eq_lineSum, h]
  exact doubleSum_nat ns hs

theorem cartTotal_nat_cart (cartItems : List CartItem) (ns : List Nat)
    (h : cartPrices cartItems = ns.map JsNumber.ofNat) (hs : ns.sum < 2 ^ 53) :
    cartTotal cartItems = JsNumber.ofNat ns.sum := by
  rw [cartTotal_eq_doubleSum, h]
  exact doubleSum_nat ns hs

theorem addToCart_orders (env : AddEnv) (user : Option AuthUser) (body : AddBody) (s : Store) :
    (addToCart env user body s).1.orders = s.orders := by
  unfold addToCart
  simp only []
  split
  · rfl
  · split
    · rfl
    · split
      · split <;> rfl
      · rfl

theorem removeFromCart_orders (user : Option AuthUser) (itemId : String) (s : Store) :
    (removeFromCart user itemId s).1.orders = s.orders := by
  unfold removeFromCart
  split
  · rfl
  · split
    · rfl
    · split <;> rfl

theorem applyCartOps_orders (ops : List CartOp) :
    ∀ s : Store, (applyCartOps ops s).orders = s.orders := by
  induction ops with
  | nil => intro s; rfl
  | cons op ops ih =>
    intro s
    show (applyCartOps ops (applyCartOp s op)).orders = s.orders
    rw [ih]
    cases op with
    | add env user body => exact addToCart_orders env user body s
    | remove user itemId => exact removeFromCart_orders user itemId s

/-! ## Lemmas on verification -/

theorem verify_of_no_pending (r : PaymentResult) (u : AuthUser) (t : Option String) (s : Store)
    (h : s.orders.find? (pendingFor t u.id) = none) :
    verify r (some u) t s = (s, ⟨404, .message "Order not found or already processed"⟩) := by
  simp [verify, h]

theorem verify_completed (r : PaymentResult) (u : AuthUser) (t : Option String) (s : Store)
    (o : Order) (h : s.orders.find? (pendingFor t u.id) = some o) (hr : r.status = "completed") :
    verify r (some u) t s =
      ({ carts := s.carts.filter (fun c => !(c.userId == u.id)),
         orders := updateFirst (pendingFor t u.id) (markCompleted r) s.orders,
         purchases :=
           if (o.items.map (purchaseRecord o.userId)).length > 0 then
             s.purchases ++ o.items.map (purchaseRecord o.userId)
           else s.purchases },
        ⟨200, .verified true "Payment successful" o._id t
          (some r.gatewayResponse.gatewayTransactionId)⟩) := by
  simp [verify, h, hr]

theorem verify_failed (r : PaymentResult) (u : AuthUser) (t : Option String) (s : Store)
    (o : Order) (h : s.orders.find? (pendingFor t u.id) = some o) (hr : r.status ≠ "completed") :
    verify r (some u) t s =
      ({ s with orders := updateFirst (pendingFor t u.id) markFailed s.orders },
        ⟨200, .verified false "Payment failed" o._id t none⟩) := by
  simp [verify, h, hr]

theorem pendingFor_markCompleted (r : PaymentResult) (t : Option String) (uid : ObjectId)
    (o : Order) : pendingFor t uid (markCompleted r o) = false := by
  simp [pendingFor, markCompleted]

theorem pendingFor_markFailed (t : Option String) (uid : ObjectId) (o : Order) :
    pendingFor t uid (markFailed o) = false := by
  simp [pendingFor, markFailed]

theorem pendingFor_carries (t : Option String) (uid : ObjectId) (o : Order)
    (h : pendingFor t uid o = true) : (o.transactionId == t) = true := by
  simp only [pendingFor, Bool.and_eq_true] at h
  exact h.1.1

theorem purchases_append_records (ps : List Purchase) (rows : List Purchase) :
    (if rows.length > 0 then ps ++ rows else ps) = ps ++ rows := by
  cases rows with
  | nil => simp
  | cons a l => simp

/-! ## Lemmas on add-to-cart -/

theorem truthy_of_valid (x : String) (h : objectIdIsValid x = true) : truthy (some x) = true := by
  have hx : x ≠ "" := by
    intro hx
    subst hx
    simp [objectIdIsValid] at h
  simpa [truthy] using hx

theorem find_none_iff_countP (p : α → Bool) (l : List α) :
    l.find? p = none ↔ l.countP p = 0 := by
  rw [List.find?_eq_none, List.countP_eq_zero]

/-- Either the store is unchanged, or one item is appended whose (userId, bookId) pair
had no item. -/
theorem addToCart_cases (env : AddEnv) (user : Option AuthUser) (body : AddBody) (s : Store) :
    (addToCart env user body s).1 = s ∨
    ∃ item : CartItem,
      (addToCart env user body s).1 = { s with carts := s.carts ++ [item] } ∧
      s.carts.find? (cartKey item.userId item.bookId) = none := by
  unfold addToCart
  simp only []
  split
  · exact Or.inl rfl
  · split
    · exact Or.inl rfl
    · split
      · split
        · exact Or.inl rfl
        · next hnone => exact Or.inr ⟨_, rfl, hnone⟩
      · exact Or.inl rfl

/-- An accepted add by a signed-in user leaves the pair with the items it had, or with
one item when it had none. -/
theorem addToCart_accepted (env : AddEnv) (u : AuthUser) (body : AddBody) (s : Store)
    (b : String) (hu : objectIdIsValid u._id = true) (hb : body.bookId = some b)
    (hst : (addToCart env (some u) body s).2.status = 200) :
    (addToCart env (some u) body s).1.carts.countP (cartKey u._id b) =
      if s.carts.countP (cartKey u._id b) = 0 then 1 else s.carts.countP (cartKey u._id b) := by
  have ht := truthy_of_valid u._id hu
  unfold addToCart at hst ⊢
  simp only [orElseStr, ht, if_true, withDefault, hb] at hst ⊢
  split at hst
  · simp at hst
  · split at hst
    · simp at hst
    · next h1 h2 =>
      rw [if_neg h1, if_neg h2]
      split at hst
      · next price hprice =>
        cases hfind : s.carts.find? (cartKey u._id b) with
        | some item =>
          have hpos : s.carts.countP (cartKey u._id b) ≠ 0 := by
            intro h0
            rw [← find_none_iff_countP] at h0
            rw [h0] at hfind
            cases hfind
          simp [hpos]
        | none =>
          have h0 : s.carts.countP (cartKey u._id b) = 0 :=
            (find_none_iff_countP _ _).mp hfind
          simp [h0, List.countP_append, cartKey]
      · simp at hst

theorem addToCart_keeps_existing (env : AddEnv) (user : Option AuthUser) (body : AddBody)
    (s : Store) (uid : ObjectId) (b : String) (h : 1 ≤ s.carts.countP (cartKey uid b)) :
    (addToCart env user body s).1.carts.countP (cartKey uid b) =
      s.carts.countP (cartKey uid b) := by
  rcases addToCart_cases env user body s with h0 | ⟨item, h1, hnone⟩
  · rw [h0]
  · rw [h1]
    simp only [List.countP_append, List.countP_cons, List.countP_nil]
    by_cases hk : cartKey uid b item = true
    · exfalso
      have hpair : item.userId = uid ∧ item.bookId = b := by
        simpa [cartKey] using hk
      rw [hpair.1, hpair.2, find_none_iff_countP] at hnone
      omega
    · simp [hk]

/-! ## The scenario, evaluated -/

theorem initiate_cartStore :
    initiate sampleEnv (some alice) none cartStore =
      (pendingStore, ⟨200, .initiated "64b0000000000000000000f1" "TXN1" "upi://pay" "qr" 350
        "shop@upi"⟩) := by
  decide

theorem find_pendingStore :
    pendingStore.orders.find? (pendingFor (some "TXN1") alice.id) = some sampleOrder := by
  decide

/-! ## The CartItem invariant is kept by every handler modelled here -/

theorem cartUnique_emptyStore : CartUnique emptyStore := by
  intro uid b
  simp [emptyStore]

theorem addToCart_cartUnique (env : AddEnv) (user : Option AuthUser) (body : AddBody)
    (s : Store) (h : CartUnique s) : CartUnique (addToCart env user body s).1 := by
  intro uid b
  by_cases hpos : 1 ≤ s.carts.countP (cartKey uid b)
  · rw [addToCart_keeps_existing env user body s uid b hpos]
    exact h uid b
  · rcases addToCart_cases env user body s with h0 | ⟨item, h1, _⟩
    · rw [h0]
      exact h uid b
    · rw [h1]
      simp only [List.countP_append, List.countP_cons, List.countP_nil]
      split <;> omega

theorem removeFromCart_cartUnique (user : Option AuthUser) (itemId : String) (s : Store)
    (h : CartUnique s) : CartUnique (removeFromCart user itemId s).1 := by
  intro uid b
  unfold removeFromCart
  split
  · exact h uid b
  · split
    · exact h uid b
    · split
      · exact h uid b
      · exact le_trans ((List.eraseP_sublist _).countP_le _) (h uid b)

theorem initiate_carts (env : InitiateEnv) (user : Option AuthUser) (upiId : Option String)
    (s : Store) : (initiate env user upiId s).1.carts = s.carts := by
  unfold initiate
  split
  · rfl
  · simp only []
    split
    · rfl
    · split <;> rfl

theorem initiate_cartUnique (env : InitiateEnv) (user : Option AuthUser)
    (upiId : Option String) (s : Store) (h : CartUnique s) :
    CartUnique (initiate env user upiId s).1 := by
  intro uid b
  rw [initiate_carts]
  exact h uid b

theorem verify_cartUnique (r : PaymentResult) (user : Option AuthUser) (t : Option String)
    (s : Store) (h : CartUnique s) : CartUnique (verify r user t s).1 := by
  intro uid b
  unfold verify
  split
  · exact h uid b
  · simp only []
    split
    · exact h uid b
    · split
      · exact le_trans ((List.filter_sublist _).countP_le _) (h uid b)
      · exact h uid b

/-! ## The `purchased` flag is never set by a route -/

theorem allUnpurchased_of_sublist (s t : Store) (h : t.carts.Sublist s.carts)
    (hs : AllUnpurchased s) : AllUnpurchased t :=
  fun c hc => hs c (h.subset hc)

theorem addToCart_allUnpurchased (env : AddEnv) (user : Option AuthUser) (body : AddBody)
    (s : Store) (hs : AllUnpurchased s) : AllUnpurchased (addToCart env user body s).1 := by
  unfold addToCart
  simp only []
  split
  · exact hs
  · split
    · exact hs
    · split
      · split
        · exact hs
        · intro c hc
          rcases List.mem_append.mp hc with h | h
          · exact hs c h
          · rw [List.mem_singleton.mp h]
      · exact hs

theorem removeFromCart_carts_sublist (user : Option AuthUser) (itemId : String) (s : Store) :
    (removeFromCart user itemId s).1.carts.Sublist s.carts := by
  unfold removeFromCart
  split
  · exact List.Sublist.refl _
  · split
    · exact List.Sublist.refl _
    · split
      · exact List.Sublist.refl _
      · exact List.eraseP_sublist _

theorem checkout_carts_sublist (freshId : ObjectId) (user : Option AuthUser)
    (address transactionId : Option String) (s : Store) :
    (checkout freshId user address transactionId s).1.carts.Sublist s.carts := by
  unfold checkout
  split
  · exact List.Sublist.refl _
  · simp only []
    split
    · exact List.Sublist.refl _
    · split
      · exact List.Sublist.refl _
      · exact List.filter_sublist _

theorem createOrder_carts_sublist (env : CreateEnv) (user : Option AuthUser) (s : Store) :
    (createOrder env user s).1.carts.Sublist s.carts := by
  unfold createOrder
  split
  · exact List.Sublist.refl _
  · simp only []
    split
    · exact List.Sublist.refl _
    · exact List.filter_sublist _

theorem updateOrderStatus_carts (user : Option AuthUser) (orderId : String)
    (status : Option String) (s : Store) :
    (updateOrderStatus user orderId status s).1.carts = s.carts := by
  unfold updateOrderStatus
  split
  · rfl
  · split
    · rfl
    · split
      · rfl
      · split
        · rfl
        · split
          · rfl
          · split <;> rfl

theorem verify_carts_sublist (r : PaymentResult) (user : Option AuthUser)
    (t : Option String) (s : Store) : (verify r user t s).1.carts.Sublist s.carts := by
  unfold verify
  split
  · exact List.Sublist.refl _
  · simp only []
    split
    · exact List.Sublist.refl _
    · split
      · exact List.filter_sublist _
      · exact List.Sublist.refl _

theorem callback_carts_sublist (v : CallbackVerification) (s : Store) :
    (callback v s).1.carts.Sublist s.carts := by
  unfold callback
  split
  · split
    · simp only []
      split
      · exact List.filter_sublist _
      · exact List.Sublist.refl _
    · exact List.Sublist.refl _
  · exact List.Sublist.refl _

theorem refund_carts (processRefund : Option String → JsNumber → Option String → Option RefundResult)
    (user : Option AuthUser) (body : RefundBody) (s : Store) :
    (refund processRefund user body s).1.carts = s.carts := by
  unfold refund
  split
  · rfl
  · simp only []
    split
    · rfl
    · split
      · rfl
      · split <;> rfl

theorem run_allUnpurchased (op : Op) (s : Store) (hs : AllUnpurchased s) :
    AllUnpurchased (Op.run s op) := by
  cases op with
  | cartAdd env user body => exact addToCart_allUnpurchased env user body s hs
  | cartGet user q => exact hs
  | cartCheckout freshId user address t =>
    exact allUnpurchased_of_sublist s _ (checkout_carts_sublist freshId user address t s) hs
  | cartRemove user itemId =>
    exact allUnpurchased_of_sublist s _ (removeFromCart_carts_sublist user itemId s) hs
  | orderCreate env user =>
    exact allUnpurchased_of_sublist s _ (createOrder_carts_sublist env user s) hs
  | orderListUser user uid => exact hs
  | orderListAll user => exact hs
  | orderUpdateStatus user orderId status =>
    intro c hc
    exact hs c (by rw [← updateOrderStatus_carts user orderId status s]; exact hc)
  | payInitiate env user upiId =>
    intro c hc
    exact hs c (by rw [← initiate_carts env user upiId s]; exact hc)
  | payVerify r user t =>
    exact allUnpurchased_of_sublist s _ (verify_carts_sublist r user t s) hs
  | payStatus user t => exact hs
  | payCallback v =>
    exact allUnpurchased_of_sublist s _ (callback_carts_sublist v s) hs
  | payRefund processRefund user body =>
    intro c hc
    exact hs c (by rw [← refund_carts processRefund user body s]; exact hc)

theorem reachable_allUnpurchased (s : Store) (h : Reachable s) : AllUnpurchased s := by
  induction h with
  | empty => intro c hc; cases hc
  | step s op _ ih => exact run_allUnpurchased op s ih

theorem initiate_no_items (env : InitiateEnv) (u : AuthUser) (upiId : Option String)
    (s : Store) (h : cartOf u.id s = []) :
    initiate env (some u) upiId s = (s, ⟨400, .message "Cart is empty"⟩) := by
  unfold cartOf at h
  simp [initiate, h]

/-! ## What each route does to the Purchase collection -/

theorem purchaseRecord_snapshot (userId : ObjectId) (cartItems : List CartItem) :
    (cartItems.map snapshot).map (purchaseRecord userId) =
      cartItems.map (purchaseOfCart userId) := by
  simp [List.map_map, Function.comp, purchaseRecord, snapshot, purchaseOfCart]

theorem addToCart_purchases (env : AddEnv) (user : Option AuthUser) (body : AddBody)
    (s : Store) : (addToCart env user body s).1.purchases = s.purchases := by
  rcases addToCart_cases env user body s with h | ⟨item, h, _⟩ <;> rw [h]

theorem removeFromCart_purchases (user : Option AuthUser) (itemId : String) (s : Store) :
    (removeFromCart user itemId s).1.purchases = s.purchases := by
  unfold removeFromCart
  split
  · rfl
  · split
    · rfl
    · split <;> rfl

theorem initiate_purchases (env : InitiateEnv) (user : Option AuthUser)
    (upiId : Option String) (s : Store) :
    (initiate env user upiId s).1.purchases = s.purchases := by
  unfold initiate
  split
  · rfl
  · simp only []
    split
    · rfl
    · split <;> rfl

theorem updateOrderStatus_purchases (user : Option AuthUser) (orderId : String)
    (status : Option String) (s : Store) :
    (updateOrderStatus user orderId status s).1.purchases = s.purchases := by
  unfold updateOrderStatus
  split
  · rfl
  · split
    · rfl
    · split
      · rfl
      · split
        · rfl
        · split
          · rfl
          · split <;> rfl

theorem callback_purchases (v : CallbackVerification) (s : Store) :
    (callback v s).1.purchases = s.purchases := by
  unfold callback
  split
  · split <;> rfl
  · rfl

theorem refund_purchases
    (processRefund : Option String → JsNumber → Option String → Option RefundResult)
    (user : Option AuthUser) (body : RefundBody) (s : Store) :
    (refund processRefund user body s).1.purchases = s.purchases := by
  unfold refund
  split
  · rfl
  · simp only []
    split
    · rfl
    · split
      · rfl
      · split <;> rfl

/-- Verification leaves the ledger alone, or it found a pending order, marked it
completed in place and appended the rows of its items. -/
theorem verify_purchases_cases (r : PaymentResult) (user : Option AuthUser)
    (t : Option String) (s : Store) :
    (verify r user t s).1.purchases = s.purchases ∨
    ∃ (pre post : List Order) (o : Order),
      s.orders = pre ++ o :: post ∧
      (verify r user t s).1.orders = pre ++ markCompleted r o :: post ∧
      (verify r user t s).1.purchases =
        s.purchases ++ o.items.map (purchaseRecord o.userId) := by
  cases user with
  | none => exact Or.inl rfl
  | some u =>
    cases hfind : s.orders.find? (pendingFor t u.id) with
    | none => rw [verify_of_no_pending r u t s hfind]; exact Or.inl rfl
    | some o =>
      by_cases hr : r.status = "completed"
      · obtain ⟨pre, post, hl, _, _, hu⟩ :=
          updateFirst_of_find (pendingFor t u.id) (markCompleted r) s.orders o hfind
        rw [verify_completed r u t s o hfind hr]
        exact Or.inr ⟨pre, post, o, hl, hu, purchases_append_records _ _⟩
      · rw [verify_failed r u t s o hfind hr]
        exact Or.inl rfl

/-- Checkout leaves the ledger alone, or it appended a completed order and the rows of
its items. -/
theorem checkout_purchases_cases (freshId : ObjectId) (user : Option AuthUser)
    (address transactionId : Option String) (s : Store) :
    (checkout freshId user address transactionId s).1.purchases = s.purchases ∨
    ∃ o : Order,
      (checkout freshId user address transactionId s).1.orders = s.orders ++ [o] ∧
      o.status = "completed" ∧ o.paymentStatus = "completed" ∧
      (checkout freshId user address transactionId s).1.purchases =
        s.purchases ++ o.items.map (purchaseRecord o.userId) := by
  unfold checkout
  split
  · exact Or.inl rfl
  · simp only []
    split
    · exact Or.inl rfl
    · split
      · exact Or.inl rfl
      · refine Or.inr ⟨_, rfl, rfl, rfl, ?_⟩
        simp only [completedOrder]
        rw [purchaseRecord_snapshot]

/-- Order creation leaves the ledger alone, or it appended an order with the schema
defaults as status and paymentStatus and the rows of its items. -/
theorem createOrder_purchases_cases (env : CreateEnv) (user : Option AuthUser) (s : Store) :
    (createOrder env user s).1.purchases = s.purchases ∨
    ∃ o : Order,
      (createOrder env user s).1.orders = s.orders ++ [o] ∧
      o.status = env.defaults.status ∧ o.paymentStatus = env.defaults.paymentStatus ∧
      (createOrder env user s).1.purchases =
        s.purchases ++ o.items.map (purchaseRecord o.userId) := by
  unfold createOrder
  split
  · exact Or.inl rfl
  · simp only []
    split
    · exact Or.inl rfl
    · refine Or.inr ⟨_, rfl, rfl, rfl, ?_⟩
      simp only [defaultOrder]
      rw [purchaseRecord_snapshot]

/-! ## Lemmas on the status update and the refund -/

theorem mappedPaymentStatus_cod (o : Order) (st : String) (h : o.paymentMethod = "cod") :
    (st = "completed" → mappedPaymentStatus o st = "completed") ∧
    (st = "cancelled" → mappedPaymentStatus o st = "failed") ∧
    (st = "pending" → mappedPaymentStatus o st = "pending") := by
  refine ⟨?_, ?_, ?_⟩ <;> intro hst <;> subst hst <;> simp [mappedPaymentStatus, h]

theorem mappedPaymentStatus_other (o : Order) (st : String) (h : o.paymentMethod ≠ "cod") :
    mappedPaymentStatus o st = o.paymentStatus := by
  simp [mappedPaymentStatus, h]

/-- The status update by an administrator with an allowed status and an id that casts to
an ObjectId: 404 when no order has the id, otherwise the first order with the id is
written back with the new status. -/
theorem updateOrderStatus_admin (u : AuthUser) (orderId st : String) (s : Store)
    (hadmin : u.role = "admin") (hst : st ∈ allowedStatuses)
    (hid : objectIdIsValid orderId = true) :
    updateOrderStatus (some u) orderId (some st) s =
      match s.orders.find? (fun o => o._id == castObjectId orderId) with
      | none => (s, ⟨404, .message "Order not found"⟩)
      | some order =>
        ({ s with orders := updateFirst (fun o => o._id == castObjectId orderId) (applyStatus st) s.orders },
          ⟨200, .updated (applyStatus st order)⟩) := by
  have hc : allowedStatuses.contains st = true := by simpa using hst
  simp only [updateOrderStatus, hadmin, hc, hid]
  simp

/-- The guards of the status update, in program order: 403 for a role other than
'admin', then 400 for a status that is absent or not allowed, then 500 for an id that
does not cast to an ObjectId; each leaves the store unchanged. -/
theorem updateOrderStatus_guards (u : AuthUser) (orderId : String) (status : Option String)
    (s : Store) :
    (u.role ≠ "admin" →
      updateOrderStatus (some u) orderId status s = (s, ⟨403, .message "Access denied"⟩)) ∧
    (u.role = "admin" → (∀ st, status = some st → st ∉ allowedStatuses) →
      updateOrderStatus (some u) orderId status s = (s, ⟨400, .message "Invalid status"⟩)) ∧
    (u.role = "admin" → (∃ st, status = some st ∧ st ∈ allowedStatuses) →
      objectIdIsValid orderId = false →
      updateOrderStatus (some u) orderId status s =
        (s, ⟨500, .message "Error updating order status"⟩)) := by
  refine ⟨?_, ?_, ?_⟩
  · intro h
    simp [updateOrderStatus, h]
  · intro h hst
    cases status with
    | none => simp [updateOrderStatus, h]
    | some st =>
      have hmem : st ∉ allowedStatuses := hst st rfl
      simp [updateOrderStatus, h, hmem]
  · rintro h ⟨st, rfl, hst⟩ hid
    simp [updateOrderStatus, h, hst, hid]

theorem refund_of_found
    (processRefund : Option String → JsNumber → Option String → Option RefundResult)
    (u : AuthUser) (body : RefundBody) (s : Store) (o : Order) (r : RefundResult)
    (hid : objectIdIsValid body.orderId = true)
    (hfind : s.orders.find? (refundable body.orderId u.id) = some o)
    (hr : processRefund o.transactionId (amountOr body.amount o.totalAmount) body.reason
      = some r) :
    refund processRefund (some u) body s =
      ({ s with orders := updateFirst (refundable body.orderId u.id) markRefunded s.orders },
        ⟨200, .refunded r.refundId r.amount r.status⟩) := by
  simp [refund, hid, hfind, hr]

theorem refund_of_none
    (processRefund : Option String → JsNumber → Option String → Option RefundResult)
    (u : AuthUser) (body : RefundBody) (s : Store)
    (hid : objectIdIsValid body.orderId = true)
    (hfind : s.orders.find? (refundable body.orderId u.id) = none) :
    refund processRefund (some u) body s =
      (s, ⟨404, .message "Order not found or not eligible for refund"⟩) := by
  simp [refund, hid, hfind]

/-! ## What a request of one user does to the documents of another -/

theorem filter_updateFirst (p q : α → Bool) (f : α → α)
    (hp : ∀ x, p x = true → q x = false) (hf : ∀ x, q (f x) = q x) :
    ∀ l : List α, (updateFirst p f l).filter q = l.filter q := by
  intro l
  induction l with
  | nil => rfl
  | cons a l ih =>
    by_cases ha : p a = true
    · have hu : updateFirst p f (a :: l) = f a :: l := by simp [updateFirst, ha]
      rw [hu]
      simp [List.filter_cons, hf a, hp a ha]
    · have hu : updateFirst p f (a :: l) = a :: updateFirst p f l := by
        simp [updateFirst, ha]
      rw [hu]
      simp [List.filter_cons, ih]

theorem filter_eraseP (p q : α → Bool) (hp : ∀ x, p x = true → q x = false) :
    ∀ l : List α, (l.eraseP p).filter q = l.filter q := by
  intro l
  induction l with
  | nil => rfl
  | cons a l ih =>
    by_cases ha : p a = true
    · simp [List.eraseP_cons, ha, List.filter_cons, hp a ha]
    · simp [List.eraseP_cons, ha, List.filter_cons, ih]

theorem filter_other_user (u v : ObjectId) (h : v ≠ u) (l : List CartItem) :
    (l.filter (fun c => !(c.userId == u))).filter (fun c => c.userId == v) =
      l.filter (fun c => c.userId == v) := by
  rw [List.filter_filter]
  apply List.filter_congr
  intro c _
  by_cases hc : c.userId = v
  · simp [hc, h]
  · simp [hc]

theorem filter_other_unpurchased (u v : ObjectId) (h : v ≠ u) (l : List CartItem) :
    (l.filter (fun c => !(unpurchasedOf u c))).filter (fun c => c.userId == v) =
      l.filter (fun c => c.userId == v) := by
  rw [List.filter_filter]
  apply List.filter_congr
  intro c _
  by_cases hc : c.userId = v
  · simp [hc, h, unpurchasedOf]
  · simp [hc]

theorem filter_append_other (v : ObjectId) (l : List Order) (o : Order) (h : o.userId ≠ v) :
    (l ++ [o]).filter (fun x => x.userId == v) = l.filter (fun x => x.userId == v) := by
  simp [List.filter_append, List.filter_cons, h]

theorem addToCart_other (env : AddEnv) (u : AuthUser) (body : AddBody) (s : Store)
    (hu : u._id ≠ "") (v : ObjectId) (hv : v ≠ u._id) :
    cartOf v (addToCart env (some u) body s).1 = cartOf v s ∧
    ordersOf v (addToCart env (some u) body s).1 = ordersOf v s := by
  have ht : truthy (some u._id) = true := by simpa [truthy] using hu
  unfold addToCart
  simp only [orElseStr, ht, if_true, withDefault]
  split
  · exact ⟨rfl, rfl⟩
  · split
    · exact ⟨rfl, rfl⟩
    · split
      · split
        · exact ⟨rfl, rfl⟩
        · refine ⟨?_, rfl⟩
          simp [cartOf, List.filter_append, List.filter_cons, Ne.symm hv]
      · exact ⟨rfl, rfl⟩

theorem removeFromCart_other (u : AuthUser) (itemId : String) (s : Store)
    (v : ObjectId) (hv : v ≠ u._id) :
    cartOf v (removeFromCart (some u) itemId s).1 = cartOf v s ∧
    ordersOf v (removeFromCart (some u) itemId s).1 = ordersOf v s := by
  unfold removeFromCart
  simp only []
  split
  · exact ⟨rfl, rfl⟩
  · split
    · exact ⟨rfl, rfl⟩
    · refine ⟨?_, rfl⟩
      apply filter_eraseP
      intro x hx
      have hx' : x._id = castObjectId itemId ∧ x.userId = u._id := by
        simpa [ownedItem] using hx
      simp [hx'.2, Ne.symm hv]

theorem checkout_other (freshId : ObjectId) (u : AuthUser)
    (address transactionId : Option String) (s : Store) (v : ObjectId) (hv : v ≠ u._id) :
    cartOf v (checkout freshId (some u) address transactionId s).1 = cartOf v s ∧
    ordersOf v (checkout freshId (some u) address transactionId s).1 = ordersOf v s := by
  unfold checkout
  simp only []
  split
  · exact ⟨rfl, rfl⟩
  · split
    · exact ⟨rfl, rfl⟩
    · exact ⟨filter_other_unpurchased u._id v hv s.carts,
        filter_append_other v s.orders _ (by simpa [completedOrder] using Ne.symm hv)⟩

theorem initiate_other (env : InitiateEnv) (u : AuthUser) (upiId : Option String)
    (s : Store) (v : ObjectId) (hv : v ≠ u._id) :
    cartOf v (initiate env (some u) upiId s).1 = cartOf v s ∧
    ordersOf v (initiate env (some u) upiId s).1 = ordersOf v s := by
  unfold initiate
  simp only []
  split
  · exact ⟨rfl, rfl⟩
  · split
    · exact ⟨rfl, filter_append_other v s.orders _
        (by simpa [pendingOrder, AuthUser.id] using Ne.symm hv)⟩
    · exact ⟨rfl, filter_append_other v s.orders _
        (by simpa [pendingOrder, AuthUser.id] using Ne.symm hv)⟩

theorem pendingFor_owner (t : Option String) (uid : ObjectId) (o : Order)
    (h : pendingFor t uid o = true) : o.userId = uid := by
  simp only [pendingFor, Bool.and_eq_true, beq_iff_eq] at h
  exact h.1.2

theorem verify_other (r : PaymentResult) (u : AuthUser) (t : Option String) (s : Store)
    (v : ObjectId) (hv : v ≠ u._id) :
    cartOf v (verify r (some u) t s).1 = cartOf v s ∧
    ordersOf v (verify r (some u) t s).1 = ordersOf v s := by
  have hp : ∀ x, pendingFor t u.id x = true → (x.userId == v) = false := by
    intro x hx
    have := pendingFor_owner t u.id x hx
    simp [this, AuthUser.id, Ne.symm hv]
  cases hfind : s.orders.find? (pendingFor t u.id) with
  | none => rw [verify_of_no_pending r u t s hfind]; exact ⟨rfl, rfl⟩
  | some o =>
    by_cases hr : r.status = "completed"
    · rw [verify_completed r u t s o hfind hr]
      have ho := filter_updateFirst (pendingFor t u.id) (fun x : Order => x.userId == v)
        (markCompleted r) hp (fun x => rfl) s.orders
      exact ⟨filter_other_user u.id v hv s.carts, ho⟩
    · rw [verify_failed r u t s o hfind hr]
      have ho := filter_updateFirst (pendingFor t u.id) (fun x : Order => x.userId == v)
        markFailed hp (fun x => rfl) s.orders
      exact ⟨rfl, ho⟩

theorem refund_other
    (processRefund : Option String → JsNumber → Option String → Option RefundResult)
    (u : AuthUser) (body : RefundBody) (s : Store) (v : ObjectId) (hv : v ≠ u._id) :
    cartOf v (refund processRefund (some u) body s).1 = cartOf v s ∧
    ordersOf v (refund processRefund (some u) body s).1 = ordersOf v s := by
  have hp : ∀ x, refundable body.orderId u.id x = true → (x.userId == v) = false := by
    intro x hx
    have hx' : (x._id = castObjectId body.orderId ∧ x.userId = u.id) ∧
        x.paymentStatus = "completed" := by
      simpa [refundable] using hx
    simp [hx'.1.2, AuthUser.id, Ne.symm hv]
  unfold refund
  simp only []
  split
  · exact ⟨rfl, rfl⟩
  · split
    · exact ⟨rfl, rfl⟩
    · split
      · exact ⟨rfl, rfl⟩
      · have ho := filter_updateFirst (refundable body.orderId u.id)
          (fun x : Order => x.userId == v) markRefunded hp (fun x => rfl) s.orders
        exact ⟨rfl, ho⟩

/-! ## The status domains are kept by every route -/

theorem forall_updateFirst (P : α → Prop) (p : α → Bool) (f : α → α)
    (hf : ∀ x, P x → P (f x)) :
    ∀ l : List α, (∀ x ∈ l, P x) → ∀ x ∈ updateFirst p f l, P x := by
  intro l
  induction l with
  | nil => intro _ x hx; simp [updateFirst] at hx
  | cons a l ih =>
    intro h x hx
    by_cases ha : p a = true
    · have hu : updateFirst p f (a :: l) = f a :: l := by simp [updateFirst, ha]
      rw [hu] at hx
      rcases List.mem_cons.mp hx with rfl | hx
      · exact hf a (h a (List.mem_cons_self _ _))
      · exact h x (List.mem_cons_of_mem _ hx)
    · have hu : updateFirst p f (a :: l) = a :: updateFirst p f l := by
        simp [updateFirst, ha]
      rw [hu] at hx
      rcases List.mem_cons.mp hx with rfl | hx
      · exact h x (List.mem_cons_self _ _)
      · exact ih (fun y hy => h y (List.mem_cons_of_mem _ hy)) x hx

theorem forall_append_one (P : α → Prop) (l : List α) (a : α) (h : ∀ x ∈ l, P x) (ha : P a) :
    ∀ x ∈ l ++ [a], P x := by
  intro x hx
  rcases List.mem_append.mp hx with hx | hx
  · exact h x hx
  · rw [List.mem_singleton.mp hx]
    exact ha

theorem inDomain_markCompleted (r : PaymentResult) (o : Order) : InDomain (markCompleted r o) := by
  simp [InDomain, markCompleted, statusDomain, paymentStatusDomain]

theorem inDomain_markFailed (o : Order) : InDomain (markFailed o) := by
  simp [InDomain, markFailed, statusDomain, paymentStatusDomain]

theorem inDomain_markRefunded (o : Order) : InDomain (markRefunded o) := by
  simp [InDomain, markRefunded, statusDomain, paymentStatusDomain]

theorem inDomain_applyCallback (v : CallbackVerification) (o : Order)
    (hv : v.status ∈ paymentStatusDomain) : InDomain (applyCallback v o) := by
  refine ⟨?_, hv⟩
  simp only [applyCallback, statusDomain]
  split <;> simp

theorem inDomain_applyStatus (st : String) (o : Order) (hst : st ∈ allowedStatuses)
    (ho : InDomain o) : InDomain (applyStatus st o) := by
  refine ⟨hst, ?_⟩
  have hp := ho.2
  simp only [allowedStatuses, List.mem_cons, List.mem_singleton, List.mem_nil_iff,
    or_false] at hst
  simp only [paymentStatusDomain, List.mem_cons, List.mem_singleton, List.mem_nil_iff,
    or_false] at hp
  simp only [applyStatus, mappedPaymentStatus, paymentStatusDomain, List.mem_cons,
    List.mem_singleton, List.mem_nil_iff, or_false]
  split
  · rcases hst with h | h | h <;> subst h <;> simp [hp]
  · exact hp

theorem updateOrderStatus_statusDomain (user : Option AuthUser) (orderId : String)
    (status : Option String) (s : Store) (hs : StatusDomain s) :
    StatusDomain (updateOrderStatus user orderId status s).1 := by
  unfold updateOrderStatus
  split
  · exact hs
  · split
    · exact hs
    · split
      · exact hs
      · next st =>
        split
        · exact hs
        · next hst =>
          split
          · exact hs
          · split
            · exact hs
            · have hmem : st ∈ allowedStatuses := by simpa using hst
              exact forall_updateFirst InDomain _ _
                (fun x hx => inDomain_applyStatus st x hmem hx) s.orders hs

theorem initiate_statusDomain (env : InitiateEnv) (user : Option AuthUser)
    (upiId : Option String) (s : Store) (hs : StatusDomain s) :
    StatusDomain (initiate env user upiId s).1 := by
  have hp : ∀ (uid : ObjectId) (l : List CartItem) (t : Option String),
      InDomain { pendingOrder env uid upiId l with transactionId := t } := by
    intro uid l t
    simp [InDomain, pendingOrder, statusDomain, paymentStatusDomain]
  unfold initiate
  split
  · exact hs
  · simp only []
    split
    · exact hs
    · split
      · exact forall_append_one InDomain _ _ hs (hp _ _ none)
      · exact forall_append_one InDomain _ _ hs (hp _ _ _)

theorem checkout_statusDomain (freshId : ObjectId) (user : Option AuthUser)
    (address transactionId : Option String) (s : Store) (hs : StatusDomain s) :
    StatusDomain (checkout freshId user address transactionId s).1 := by
  unfold checkout
  split
  · exact hs
  · simp only []
    split
    · exact hs
    · split
      · exact hs
      · exact forall_append_one InDomain _ _ hs
          (by simp [InDomain, completedOrder, statusDomain, paymentStatusDomain])

theorem createOrder_statusDomain (env : CreateEnv) (user : Option AuthUser) (s : Store)
    (hd : env.defaults.status ∈ statusDomain ∧
      env.defaults.paymentStatus ∈ paymentStatusDomain)
    (hs : StatusDomain s) : StatusDomain (createOrder env user s).1 := by
  unfold createOrder
  split
  · exact hs
  · simp only []
    split
    · exact hs
    · exact forall_append_one InDomain _ _ hs hd

theorem verify_statusDomain (r : PaymentResult) (user : Option AuthUser)
    (t : Option String) (s : Store) (hs : StatusDomain s) :
    StatusDomain (verify r user t s).1 := by
  unfold verify
  split
  · exact hs
  · simp only []
    split
    · exact hs
    · split
      · exact forall_updateFirst InDomain _ _
          (fun x _ => inDomain_markCompleted r x) s.orders hs
      · exact forall_updateFirst InDomain _ _
          (fun x _ => inDomain_markFailed x) s.orders hs

theorem callback_statusDomain (v : CallbackVerification) (s : Store)
    (hv : v.status ∈ paymentStatusDomain) (hs : StatusDomain s) :
    StatusDomain (callback v s).1 := by
  unfold callback
  split
  · split
    · exact forall_updateFirst InDomain _ _
        (fun x _ => inDomain_applyCallback v x hv) s.orders hs
    · exact hs
  · exact hs

theorem refund_statusDomain
    (processRefund : Option String → JsNumber → Option String → Option RefundResult)
    (user : Option AuthUser) (body : RefundBody) (s : Store) (hs : StatusDomain s) :
    StatusDomain (refund processRefund user body s).1 := by
  unfold refund
  split
  · exact hs
  · simp only []
    split
    · exact hs
    · split
      · exact hs
      · split
        · exact hs
        · exact forall_updateFirst InDomain _ _
            (fun x _ => inDomain_markRefunded x) s.orders hs

theorem run_statusDomain (op : Op) (s : Store) (hc : op.conforms = true)
    (hs : StatusDomain s) : StatusDomain (Op.run s op) := by
  cases op with
  | cartAdd env user body =>
    intro o ho
    exact hs o (by rw [← addToCart_orders env user body s]; exact ho)
  | cartGet user q => exact hs
  | cartCheckout freshId user address t => exact checkout_statusDomain freshId user address t s hs
  | cartRemove user itemId =>
    intro o ho
    exact hs o (by rw [← removeFromCart_orders user itemId s]; exact ho)
  | orderCreate env user =>
    have hd : env.defaults.status ∈ statusDomain ∧
        env.defaults.paymentStatus ∈ paymentStatusDomain := by
      simpa [Op.conforms] using hc
    exact createOrder_statusDomain env user s hd hs
  | orderListUser user uid => exact hs
  | orderListAll user => exact hs
  | orderUpdateStatus user orderId status =>
    exact updateOrderStatus_statusDomain user orderId status s hs
  | payInitiate env user upiId => exact initiate_statusDomain env user upiId s hs
  | payVerify r user t => exact verify_statusDomain r user t s hs
  | payStatus user t => exact hs
  | payCallback v =>
    have hv : v.status ∈ paymentStatusDomain := by simpa [Op.conforms] using hc
    exact callback_statusDomain v s hv hs
  | payRefund processRefund user body => exact refund_statusDomain processRefund user body s hs

theorem runAll_statusDomain (ops : List Op) :
    ∀ s : Store, (∀ op ∈ ops, op.conforms = true) → StatusDomain s →
      StatusDomain (runAll ops s) := by
  induction ops with
  | nil => intro s _ hs; exact hs
  | cons op ops ih =>
    intro s h hs
    exact ih (Op.run s op) (fun x hx => h x (List.mem_cons_of_mem _ hx))
      (run_statusDomain op s (h op (List.mem_cons_self _ _)) hs)

/-! ## The verification handler cut at its await -/

theorem updateFirst_by_id (p : Order → Bool) (f : Order → Order) :
    ∀ (l : List Order) (o : Order), (l.map (fun x => x._id)).Nodup → l.find? p = some o →
      updateFirst (fun x => x._id == o._id) f l = updateFirst p f l := by
  intro l
  induction l with
  | nil => intro o _ h; simp at h
  | cons a l ih =>
    intro o hnd hfind
    have hnd' : a._id ∉ l.map (fun x => x._id) ∧ (l.map (fun x => x._id)).Nodup := by
      simpa using hnd
    by_cases ha : p a = true
    · rw [List.find?_cons_of_pos _ ha] at hfind
      cases hfind
      simp [updateFirst, ha]
    · rw [List.find?_cons_of_neg _ ha] at hfind
      have hmem : o ∈ l := List.mem_of_find?_eq_some hfind
      have hne : a._id ≠ o._id := by
        intro h
        exact hnd'.1 (by rw [h]; exact List.mem_map_of_mem _ hmem)
      simp [updateFirst, ha, hne, ih o hnd'.2 hfind]

/-- Served without another request in between, lookup followed by the rest of the
handler is the handler. -/
theorem verifySettle_after_lookup (r : PaymentResult) (u : AuthUser) (t : Option String)
    (s : Store) (o : Order) (hnd : (s.orders.map (fun x => x._id)).Nodup)
    (h : verifyLookup u t s = some o) :
    verifySettle r u t o s = verify r (some u) t s := by
  unfold verifyLookup at h
  by_cases hr : r.status = "completed"
  · rw [verify_completed r u t s o h hr]
    simp [verifySettle, hr, updateFirst_by_id _ _ s.orders o hnd h]
  · rw [verify_failed r u t s o h hr]
    simp [verifySettle, hr, updateFirst_by_id _ _ s.orders o hnd h]

/-! ## Lemmas on checkout and on the round trip -/

theorem find_append_last (p : α → Bool) (l : List α) (a : α)
    (hl : ∀ x ∈ l, p x = false) (ha : p a = true) : (l ++ [a]).find? p = some a := by
  have hnone : l.find? p = none := by
    rw [List.find?_eq_none]
    intro x hx
    simp [hl x hx]
  simp [List.find?_append, hnone, ha]

theorem updateFirst_append_last (p : α → Bool) (f : α → α) (a : α) (ha : p a = true) :
    ∀ l : List α, (∀ x ∈ l, p x = false) → updateFirst p f (l ++ [a]) = l ++ [f a] := by
  intro l
  induction l with
  | nil => intro _; simp [updateFirst, ha]
  | cons b l ih =>
    intro hl
    have hb : p b = false := hl b (List.mem_cons_self _ _)
    simp [updateFirst, hb, ih (fun x hx => hl x (List.mem_cons_of_mem _ hx))]

/-! ## The retry loop -/

theorem backoffs_succ (backoff attempt n : Nat) :
    backoffs backoff attempt (n + 1) =
      backoff * 2 ^ attempt :: backoffs backoff (attempt + 1) n := by
  simp [backoffs, List.range_succ_eq_map, List.map_map, Function.comp, Nat.add_assoc,
    Nat.add_comm 1]

theorem fetchLoop_step (fetch : Nat → FetchOutcome) (retries backoff attempt : Nat)
    (sleeps : List Nat) (hlt : attempt < retries)
    (hr : retryable (fetch attempt) = true) :
    fetchLoop fetch retries backoff attempt attempt sleeps =
      fetchLoop fetch retries backoff (attempt + 1) (attempt + 1)
        (sleeps ++ [backoff * 2 ^ attempt]) := by
  have hle : attempt ≤ retries := by omega
  have hne : attempt ≠ retries := by omega
  rw [fetchLoop]
  simp only [hle, dite_true]
  cases hf : fetch attempt with
  | response res =>
    rw [hf] at hr
    simp only [retryable, Bool.and_eq_true, Bool.not_eq_eq_eq_not, Bool.not_true] at hr
    simp [hr.1, hr.2, hne]
  | networkError err => simp [hne]

theorem fetchLoop_stop (fetch : Nat → FetchOutcome) (retries backoff attempt : Nat)
    (sleeps : List Nat) (hle : attempt ≤ retries)
    (hr : attempt = retries ∨ retryable (fetch attempt) = false) :
    fetchLoop fetch retries backoff attempt attempt sleeps =
      ⟨finish (fetch attempt), attempt + 1, sleeps⟩ := by
  rw [fetchLoop]
  simp only [hle, dite_true]
  cases hf : fetch attempt with
  | response res =>
    rw [hf] at hr
    by_cases hok : res.ok = true
    · simp [hok, finish]
    · by_cases hrs : retryStatus res.status = true
      · rcases hr with h | h
        · simp [hok, hrs, h, finish]
        · simp [retryable, hok, hrs] at h
      · simp [hok, hrs, finish]
  | networkError err =>
    rw [hf] at hr
    rcases hr with h | h
    · simp [h, finish]
    · simp [retryable] at h

theorem fetchLoop_spec (fetch : Nat → FetchOutcome) (retries backoff : Nat) :
    ∀ (d attempt : Nat) (sleeps : List Nat), retries - attempt = d → attempt ≤ retries →
      ∃ m : Nat, attempt + m ≤ retries ∧
        (∀ k < m, retryable (fetch (attempt + k)) = true) ∧
        (attempt + m = retries ∨ retryable (fetch (attempt + m)) = false) ∧
        fetchLoop fetch retries backoff attempt attempt sleeps =
          ⟨finish (fetch (attempt + m)), attempt + m + 1,
            sleeps ++ backoffs backoff attempt m⟩ := by
  intro d
  induction d with
  | zero =>
    intro attempt sleeps hd hle
    refine ⟨0, by omega, by intro k hk; omega, Or.inl (by omega), ?_⟩
    rw [fetchLoop_stop fetch retries backoff attempt sleeps hle (Or.inl (by omega))]
    simp [backoffs]
  | succ d ih =>
    intro attempt sleeps hd hle
    by_cases hr : retryable (fetch attempt) = true
    · obtain ⟨m, hm1, hm2, hm3, hm4⟩ :=
        ih (attempt + 1) (sleeps ++ [backoff * 2 ^ attempt]) (by omega) (by omega)
      refine ⟨m + 1, by omega, ?_, ?_, ?_⟩
      · intro k hk
        cases k with
        | zero => simpa using hr
        | succ k =>
          have := hm2 k (by omega)
          rwa [show attempt + (k + 1) = attempt + 1 + k by omega]
      · rw [show attempt + (m + 1) = attempt + 1 + m by omega]
        exact hm3
      · rw [fetchLoop_step fetch retries backoff attempt sleeps (by omega) hr, hm4,
          backoffs_succ, show attempt + (m + 1) = attempt + 1 + m by omega]
        simp
    · have hr2 : retryable (fetch attempt) = false := by simpa using hr
      refine ⟨0, by omega, by intro k hk; omega, Or.inr (by simpa using hr2), ?_⟩
      rw [fetchLoop_stop fetch retries backoff attempt sleeps hle (Or.inr hr2)]
      simp [backoffs]

theorem fetchWithRetries_flaky :
    fetchWithRetries flaky 3 500 = ⟨.returned ⟨true, 200⟩, 3, [500, 1000]⟩ := by
  simp [fetchWithRetries, fetchLoop, flaky, retryStatus]

/-! ## The ceiling of the quotient -/

theorem ceilDiv_bounds (a b : Int) (hb : 0 < b) :
    a ≤ ceilDiv a b * b ∧ (ceilDiv a b - 1) * b < a := by
  have hbq : (0 : ℚ) < (b : ℚ) := by exact_mod_cast hb
  constructor
  · have h : (a : ℚ) / (b : ℚ) ≤ ((ceilDiv a b : ℤ) : ℚ) := Int.le_ceil _
    rw [div_le_iff₀ hbq] at h
    exact_mod_cast h
  · have h := Int.ceil_lt_add_one ((a : ℚ) / (b : ℚ))
    have h2 : ((ceilDiv a b : ℤ) : ℚ) - 1 < (a : ℚ) / (b : ℚ) := by
      unfold ceilDiv
      linarith
    rw [lt_div_iff₀ hbq] at h2
    exact_mod_cast h2

theorem lt_ceilDiv (p a b : Int) (hb : 0 < b) : p < ceilDiv a b ↔ p * b < a := by
  have hbq : (0 : ℚ) < (b : ℚ) := by exact_mod_cast hb
  unfold ceilDiv
  rw [Int.lt_ceil, lt_div_iff₀ hbq]
  exact_mod_cast Iff.rfl

theorem pagination_example :
    getAllUsersPagination (some 2) none 25 = ⟨25, 3, 2, true⟩ := by
  have h : ceilDiv 25 10 = 3 := by
    simp only [ceilDiv, Int.ceil_eq_iff]
    norm_num
  simp [getAllUsersPagination, parsedOr, h]

/-! ## Settled claims -/

/-- C1: when at most one order carries transaction id `t`, a second verification of `t`
by the same user, after a first one with any gateway result, answers 404
"Order not found or already processed" and leaves the whole store (orders, purchases,
carts) as the first call left it. -/
theorem verify_twice_rejected (r1 r2 : PaymentResult) (u : AuthUser) (t : Option String)
    (s : Store) (h : s.orders.countP (fun o => o.transactionId == t) ≤ 1) :
    verify r2 (some u) t (verify r1 (some u) t s).1 =
      ((verify r1 (some u) t s).1,
        ⟨404, .message "Order not found or already processed"⟩) := by
  cases hfind : s.orders.find? (pendingFor t u.id) with
  | none =>
    rw [verify_of_no_pending r1 u t s hfind]
    exact verify_of_no_pending r2 u t s hfind
  | some o =>
    apply verify_of_no_pending
    by_cases hr : r1.status = "completed"
    · rw [verify_completed r1 u t s o hfind hr]
      exact find_updateFirst_none _ (fun o => o.transactionId == t) _
        (pendingFor_carries t u.id) (fun x _ => pendingFor_markCompleted r1 t u.id x) _ h
    · rw [verify_failed r1 u t s o hfind hr]
      exact find_updateFirst_none _ (fun o => o.transactionId == t) _
        (pendingFor_carries t u.id) (fun x _ => pendingFor_markFailed t u.id x) _ h

theorem verify_twice_rejected_witness :
    pendingStore.orders.countP (fun o => o.transactionId == some "TXN1") ≤ 1 ∧
    verify paidResult (some alice) (some "TXN1")
        (verify paidResult (some alice) (some "TXN1") pendingStore).1 =
      ((verify paidResult (some alice) (some "TXN1") pendingStore).1,
        ⟨404, .message "Order not found or already processed"⟩) :=
  ⟨by decide, verify_twice_rejected paidResult paidResult alice (some "TXN1") pendingStore
    (by decide)⟩

/-- C2: after a verification that finds the pending order `o` and whose gateway result
has status 'completed', the ledger is the old ledger followed by as many new rows as
`o` has items, and the i-th new row has the bookId, title, author and price of the i-th
item of `o`, quantity 1 and the userId of `o`. -/
theorem verify_success_purchase_rows (r : PaymentResult) (u : AuthUser) (t : Option String)
    (s : Store) (o : Order) (hfind : s.orders.find? (pendingFor t u.id) = some o)
    (hr : r.status = "completed") :
    ∃ rows : List Purchase,
      (verify r (some u) t s).1.purchases = s.purchases ++ rows ∧
      rows.length = o.items.length ∧
      ∀ (i : Nat) (item : OrderItem), o.items[i]? = some item →
        ∃ row, rows[i]? = some row ∧ row.bookId = item.bookId ∧ row.title = item.title ∧
          row.author = item.author ∧ row.price = item.price ∧ row.quantity = 1 ∧
          row.userId = o.userId := by
  refine ⟨o.items.map (purchaseRecord o.userId), ?_, by simp, ?_⟩
  · rw [verify_completed r u t s o hfind hr]
    exact purchases_append_records _ _
  · intro i item hi
    refine ⟨purchaseRecord o.userId item, ?_, rfl, rfl, rfl, rfl, rfl, rfl⟩
    simp [List.getElem?_map, hi]

theorem verify_success_purchase_rows_witness :
    pendingStore.orders.find? (pendingFor (some "TXN1") alice.id) = some sampleOrder ∧
    paidResult.status = "completed" ∧
    ∃ rows : List Purchase,
      (verify paidResult (some alice) (some "TXN1") pendingStore).1.purchases =
        pendingStore.purchases ++ rows ∧
      rows.length = sampleOrder.items.length ∧
      ∀ (i : Nat) (item : OrderItem), sampleOrder.items[i]? = some item →
        ∃ row, rows[i]? = some row ∧ row.bookId = item.bookId ∧ row.title = item.title ∧
          row.author = item.author ∧ row.price = item.price ∧ row.quantity = 1 ∧
          row.userId = sampleOrder.userId :=
  ⟨by decide, by decide,
    verify_success_purchase_rows paidResult alice (some "TXN1") pendingStore sampleOrder
      (by decide) (by decide)⟩

/-- C3, as stated, fails: with cart items priced 9007199254740992 (that is 2^53), 1 and
1, in this order, the initiation stores an order with these three line items whose
totalAmount is 9007199254740992, while the sum of the three prices is 9007199254740994,
itself a double: each addition of 1 is rounded away. -/
theorem initiate_total_rounded :
    ∃ o : Order,
      (initiate sampleEnv (some alice) none roundingStore).1.orders = [o] ∧
      linePrices o.items = [9007199254740992, 1, 1] ∧
      exactSum (linePrices o.items) = some 9007199254740994 ∧
      o.totalAmount = 9007199254740992 ∧
      o.totalAmount.value? = some 9007199254740992 ∧
      o.totalAmount.value? ≠ exactSum (linePrices o.items) ∧
      (9007199254740994 : JsNumber).value? = some 9007199254740994 := by
  have key : ∃ o : Order,
      (initiate sampleEnv (some alice) none roundingStore).1.orders = [o] ∧
      linePrices o.items = [.finite 1 53, .finite 1 0, .finite 1 0] ∧
      o.totalAmount = .finite 1 53 :=
    ⟨_, rfl, by decide, by decide⟩
  have h53 : (9007199254740992 : JsNumber) = .finite 1 53 := by decide
  have h1 : (1 : JsNumber) = .finite 1 0 := by decide
  have h54 : (9007199254740994 : JsNumber) = .finite 4503599627370497 1 := by decide
  obtain ⟨o, ho, hp, ht⟩ := key
  refine ⟨o, ho, ?_, ?_, ?_, ?_, ?_, ?_⟩
  · rw [hp, h53, h1]
  · rw [hp]
    norm_num [exactSum, JsNumber.value?]
  · rw [ht, h53]
  · rw [ht]
    norm_num [JsNumber.value?]
  · rw [ht, hp]
    norm_num [exactSum, JsNumber.value?]
  · rw [h54]
    norm_num [JsNumber.value?]

/-- C3, amended: an initiation by a user whose cart is not empty stores exactly one new
order, whose line items are the snapshots of the cart items and whose totalAmount is the
sum of the prices of these line items as the language computes it: added one by one from
0, in the order of the items, each step rounded to a double, a missing, zero or NaN price
counting 0.  It is the sum of the prices as real numbers whenever no step rounds, and in
particular when the prices are whole numbers whose sum is below 2^53 (200 and 150 give
350). -/
theorem initiate_total_double_sum (env : InitiateEnv) (u : AuthUser) (upiId : Option String)
    (s : Store) (hne : cartOf u.id s ≠ []) :
    ∃ o : Order,
      (initiate env (some u) upiId s).1.orders = s.orders ++ [o] ∧
      o.items = (cartOf u.id s).map snapshot ∧
      o.totalAmount = doubleSum (linePrices o.items) ∧
      (noRounding 0 (linePrices o.items) = true →
        o.totalAmount.value? = exactSum (linePrices o.items)) ∧
      (∀ ns : List Nat, linePrices o.items = ns.map JsNumber.ofNat → ns.sum < 2 ^ 53 →
        o.totalAmount = JsNumber.ofNat ns.sum) := by
  have hlen : ¬ (List.filter (fun c => c.userId == u.id) s.carts).length = 0 := by
    intro h0
    exact hne (List.length_eq_zero.mp h0)
  unfold initiate
  simp only [beq_iff_eq, hlen, if_false]
  cases env.paymentRequest with
  | none =>
    exact ⟨_, rfl, rfl, cartTotal_eq_lineSum _, fun h => cartTotal_exact _ h,
      fun ns h hs => cartTotal_nat _ ns h hs⟩
  | some pr =>
    exact ⟨_, rfl, rfl, cartTotal_eq_lineSum _, fun h => cartTotal_exact _ h,
      fun ns h hs => cartTotal_nat _ ns h hs⟩

theorem initiate_total_double_sum_witness :
    cartOf alice.id cartStore ≠ [] ∧
    (initiate sampleEnv (some alice) none cartStore).1.orders = [sampleOrder] ∧
    linePrices sampleOrder.items = [200, 150].map JsNumber.ofNat ∧
    sampleOrder.totalAmount = 350 ∧
    linePrices sampleOrder.items = [200, 150] ∧
    (noRounding 0 [200, 150] = true ∧ exactSum [200, 150] = some 350 ∧
      (350 : JsNumber).value? = some 350) ∧
    ∃ o : Order,
      (initiate sampleEnv (some alice) none cartStore).1.orders = cartStore.orders ++ [o] ∧
      o.items = (cartOf alice.id cartStore).map snapshot ∧
      o.totalAmount = doubleSum (linePrices o.items) ∧
      (noRounding 0 (linePrices o.items) = true →
        o.totalAmount.value? = exactSum (linePrices o.items)) ∧
      (∀ ns : List Nat, linePrices o.items = ns.map JsNumber.ofNat → ns.sum < 2 ^ 53 →
        o.totalAmount = JsNumber.ofNat ns.sum) :=
  ⟨by decide, by decide, by decide, by decide, by decide, noRounding_sample,
    initiate_total_double_sum sampleEnv alice none cartStore (by decide)⟩

/-- C4: the order stored by an initiation on a non-empty cart is pending, and after any
sequence of add-to-cart and remove-from-cart requests by any users the Order collection
is the same list, so that order, its items and its totalAmount are unchanged. -/
theorem pending_order_frozen (env : InitiateEnv) (u : AuthUser) (upiId : Option String)
    (s : Store) (hne : cartOf u.id s ≠ []) :
    ∃ o : Order,
      (initiate env (some u) upiId s).1.orders = s.orders ++ [o] ∧
      o.paymentStatus = "pending" ∧ o.status = "pending" ∧
      ∀ ops : List CartOp,
        (applyCartOps ops (initiate env (some u) upiId s).1).orders = s.orders ++ [o] := by
  have hlen : ¬ (List.filter (fun c => c.userId == u.id) s.carts).length = 0 := by
    intro h0
    exact hne (List.length_eq_zero.mp h0)
  have key : ∃ o : Order, (initiate env (some u) upiId s).1.orders = s.orders ++ [o] ∧
      o.paymentStatus = "pending" ∧ o.status = "pending" := by
    unfold initiate
    simp only [beq_iff_eq, hlen, if_false]
    cases env.paymentRequest with
    | none => exact ⟨_, rfl, rfl, rfl⟩
    | some pr => exact ⟨_, rfl, rfl, rfl⟩
  obtain ⟨o, ho, hp, hs⟩ := key
  refine ⟨o, ho, hp, hs, ?_⟩
  intro ops
  rw [applyCartOps_orders, ho]

theorem pending_order_frozen_witness :
    cartOf alice.id cartStore ≠ [] ∧
    ∃ o : Order,
      (initiate sampleEnv (some alice) none cartStore).1.orders = cartStore.orders ++ [o] ∧
      o.paymentStatus = "pending" ∧ o.status = "pending" ∧
      ∀ ops : List CartOp,
        (applyCartOps ops (initiate sampleEnv (some alice) none cartStore).1).orders =
          cartStore.orders ++ [o] :=
  ⟨by decide, pending_order_frozen sampleEnv alice none cartStore (by decide)⟩

/-- C5: when no order has the requested transactionId, the requesting user as userId and
paymentStatus 'pending', verification answers 404 and leaves the store unchanged. -/
theorem verify_not_found (r : PaymentResult) (u : AuthUser) (t : Option String) (s : Store)
    (h : ∀ o ∈ s.orders,
      ¬ (o.transactionId = t ∧ o.userId = u.id ∧ o.paymentStatus = "pending")) :
    verify r (some u) t s = (s, ⟨404, .message "Order not found or already processed"⟩) := by
  apply verify_of_no_pending
  rw [List.find?_eq_none]
  intro o ho hp
  apply h o ho
  simpa [pendingFor, and_assoc] using hp

theorem verify_not_found_witness :
    (∀ o ∈ pendingStore.orders,
      ¬ (o.transactionId = some "TXN1" ∧ o.userId = bob.id ∧ o.paymentStatus = "pending")) ∧
    verify paidResult (some bob) (some "TXN1") pendingStore =
      (pendingStore, ⟨404, .message "Order not found or already processed"⟩) :=
  ⟨by decide, verify_not_found paidResult bob (some "TXN1") pendingStore (by decide)⟩

/-- C6: a verification that finds the pending order `o` and whose gateway result has
status 'completed' writes `o` back in place with paymentStatus and status 'completed',
with the gateway transaction id of the result (in `upiTransactionId` and in
`paymentDetails`) and with the payment time of the result; the other orders and the
other fields of `o` are unchanged. -/
theorem verify_success_order (r : PaymentResult) (u : AuthUser) (t : Option String)
    (s : Store) (o : Order) (hfind : s.orders.find? (pendingFor t u.id) = some o)
    (hr : r.status = "completed") :
    ∃ (pre post : List Order) (o' : Order),
      s.orders = pre ++ o :: post ∧
      (verify r (some u) t s).1.orders = pre ++ o' :: post ∧
      o'.paymentStatus = "completed" ∧ o'.status = "completed" ∧
      o'.upiTransactionId = some r.gatewayResponse.gatewayTransactionId ∧
      o'.paymentDetails.gatewayTransactionId = some r.gatewayResponse.gatewayTransactionId ∧
      o'.paymentDetails.paymentTime = some r.paymentTime ∧
      o'.paymentDetails.paymentGateway = some "UPI" ∧
      o'.paymentDetails.upiId = o.paymentDetails.upiId ∧
      o'._id = o._id ∧ o'.userId = o.userId ∧ o'.items = o.items ∧
      o'.totalAmount = o.totalAmount ∧ o'.paymentMethod = o.paymentMethod ∧
      o'.transactionId = o.transactionId := by
  obtain ⟨pre, post, hl, _, _, hu⟩ :=
    updateFirst_of_find (pendingFor t u.id) (markCompleted r) s.orders o hfind
  refine ⟨pre, post, markCompleted r o, hl, ?_, rfl, rfl, rfl, rfl, rfl, rfl, rfl, rfl, rfl,
    rfl, rfl, rfl, rfl⟩
  rw [verify_completed r u t s o hfind hr]
  exact hu

theorem verify_success_order_witness :
    pendingStore.orders.find? (pendingFor (some "TXN1") alice.id) = some sampleOrder ∧
    paidResult.status = "completed" ∧
    ∃ (pre post : List Order) (o' : Order),
      pendingStore.orders = pre ++ sampleOrder :: post ∧
      (verify paidResult (some alice) (some "TXN1") pendingStore).1.orders =
        pre ++ o' :: post ∧
      o'.paymentStatus = "completed" ∧ o'.status = "completed" ∧
      o'.upiTransactionId = some paidResult.gatewayResponse.gatewayTransactionId ∧
      o'.paymentDetails.gatewayTransactionId =
        some paidResult.gatewayResponse.gatewayTransactionId ∧
      o'.paymentDetails.paymentTime = some paidResult.paymentTime ∧
      o'.paymentDetails.paymentGateway = some "UPI" ∧
      o'.paymentDetails.upiId = sampleOrder.paymentDetails.upiId ∧
      o'._id = sampleOrder._id ∧ o'.userId = sampleOrder.userId ∧
      o'.items = sampleOrder.items ∧
      o'.totalAmount = sampleOrder.totalAmount ∧
      o'.paymentMethod = sampleOrder.paymentMethod ∧
      o'.transactionId = sampleOrder.transactionId :=
  ⟨by decide, by decide,
    verify_success_order paidResult alice (some "TXN1") pendingStore sampleOrder
      (by decide) (by decide)⟩

/-- C7: after a verification by user `u` that finds a pending order and whose gateway
result has status 'completed', the CartItem collection holds no item of `u`, and the
items of the other users are the ones it held before. -/
theorem verify_success_clears_cart (r : PaymentResult) (u : AuthUser) (t : Option String)
    (s : Store) (o : Order) (hfind : s.orders.find? (pendingFor t u.id) = some o)
    (hr : r.status = "completed") :
    cartOf u.id (verify r (some u) t s).1 = [] ∧
    ∀ v : ObjectId, v ≠ u.id → cartOf v (verify r (some u) t s).1 = cartOf v s := by
  rw [verify_completed r u t s o hfind hr]
  constructor
  · simp [cartOf, List.filter_filter]
  · intro v hv
    simp only [cartOf, List.filter_filter]
    apply List.filter_congr
    intro c _
    by_cases hc : c.userId = v
    · simp [hc, hv]
    · simp [hc]

theorem verify_success_clears_cart_witness :
    pendingStore.orders.find? (pendingFor (some "TXN1") alice.id) = some sampleOrder ∧
    paidResult.status = "completed" ∧
    cartOf alice.id (verify paidResult (some alice) (some "TXN1") pendingStore).1 = [] ∧
    ∀ v : ObjectId, v ≠ alice.id →
      cartOf v (verify paidResult (some alice) (some "TXN1") pendingStore).1 =
        cartOf v pendingStore :=
  ⟨by decide, by decide,
    verify_success_clears_cart paidResult alice (some "TXN1") pendingStore sampleOrder
      (by decide) (by decide)⟩

/-- C8: a verification that finds the pending order `o` and whose gateway result has a
status other than 'completed' writes `o` back in place with paymentStatus 'failed' and
status 'cancelled' (nothing else changed) and answers 200 with success = false. -/
theorem verify_failure_order (r : PaymentResult) (u : AuthUser) (t : Option String)
    (s : Store) (o : Order) (hfind : s.orders.find? (pendingFor t u.id) = some o)
    (hr : r.status ≠ "completed") :
    (∃ (pre post : List Order),
      s.orders = pre ++ o :: post ∧
      (verify r (some u) t s).1.orders =
        pre ++ { o with paymentStatus := "failed", status := "cancelled" } :: post) ∧
    (verify r (some u) t s).2 = ⟨200, .verified false "Payment failed" o._id t none⟩ := by
  obtain ⟨pre, post, hl, _, _, hu⟩ :=
    updateFirst_of_find (pendingFor t u.id) markFailed s.orders o hfind
  rw [verify_failed r u t s o hfind hr]
  exact ⟨⟨pre, post, hl, hu⟩, rfl⟩

theorem verify_failure_order_witness :
    pendingStore.orders.find? (pendingFor (some "TXN1") alice.id) = some sampleOrder ∧
    failedResult.status ≠ "completed" ∧
    (∃ (pre post : List Order),
      pendingStore.orders = pre ++ sampleOrder :: post ∧
      (verify failedResult (some alice) (some "TXN1") pendingStore).1.orders =
        pre ++ { sampleOrder with paymentStatus := "failed", status := "cancelled" } :: post) ∧
    (verify failedResult (some alice) (some "TXN1") pendingStore).2 =
      ⟨200, .verified false "Payment failed" sampleOrder._id (some "TXN1") none⟩ :=
  ⟨by decide, by decide,
    verify_failure_order failedResult alice (some "TXN1") pendingStore sampleOrder
      (by decide) (by decide)⟩

/-- C9: after an accepted initiation by a user with a non-empty cart, followed by a
verification of the returned transaction id whose gateway result has a status other
than 'completed', the CartItem collection (so the cart of the user too) is what it
was before the initiation, the ledger has no new row, and the verification answered 200
with success = false. -/
theorem failed_checkout_keeps_cart (env : InitiateEnv) (u : AuthUser) (upiId : Option String)
    (s : Store) (pr : PaymentRequest) (r : PaymentResult)
    (hpr : env.paymentRequest = some pr) (hne : cartOf u.id s ≠ [])
    (hr : r.status ≠ "completed") :
    (initiate env (some u) upiId s).2.status = 200 ∧
    (verify r (some u) (some pr.transactionId) (initiate env (some u) upiId s).1).1.carts
      = s.carts ∧
    cartOf u.id (verify r (some u) (some pr.transactionId)
      (initiate env (some u) upiId s).1).1 = cartOf u.id s ∧
    (verify r (some u) (some pr.transactionId) (initiate env (some u) upiId s).1).1.purchases
      = s.purchases ∧
    ∃ orderId, (verify r (some u) (some pr.transactionId)
      (initiate env (some u) upiId s).1).2 =
        ⟨200, .verified false "Payment failed" orderId (some pr.transactionId) none⟩ := by
  have hlen : ¬ (List.filter (fun c => c.userId == u.id) s.carts).length = 0 := by
    intro h0
    exact hne (List.length_eq_zero.mp h0)
  have hinit : initiate env (some u) upiId s =
      ({ s with orders := s.orders ++
          [{ pendingOrder env u.id upiId (s.carts.filter (fun c => c.userId == u.id)) with
              transactionId := some pr.transactionId }] },
        ⟨200, .initiated env.freshId pr.transactionId pr.upiString pr.qrCode
          (cartTotal (s.carts.filter (fun c => c.userId == u.id))) pr.upiId⟩) := by
    unfold initiate
    simp only [beq_iff_eq, hlen, if_false, hpr]
    rfl
  rw [hinit]
  have hsome : ∃ o, List.find? (pendingFor (some pr.transactionId) u.id)
      (s.orders ++
        [{ pendingOrder env u.id upiId (s.carts.filter (fun c => c.userId == u.id)) with
            transactionId := some pr.transactionId }]) = some o := by
    rw [← Option.isSome_iff_exists, List.find?_isSome]
    refine ⟨_, List.mem_append_right _ (List.mem_singleton_self _), ?_⟩
    simp [pendingFor, pendingOrder]
  obtain ⟨o, ho⟩ := hsome
  rw [verify_failed r u (some pr.transactionId) _ o ho hr]
  exact ⟨rfl, rfl, rfl, rfl, o._id, rfl⟩

theorem failed_checkout_keeps_cart_witness :
    sampleEnv.paymentRequest = some samplePaymentRequest ∧
    cartOf alice.id cartStore ≠ [] ∧
    failedResult.status ≠ "completed" ∧
    (initiate sampleEnv (some alice) none cartStore).2.status = 200 ∧
    (verify failedResult (some alice) (some "TXN1")
      (initiate sampleEnv (some alice) none cartStore).1).1.carts = cartStore.carts ∧
    cartOf alice.id (verify failedResult (some alice) (some "TXN1")
      (initiate sampleEnv (some alice) none cartStore).1).1 = cartOf alice.id cartStore ∧
    (verify failedResult (some alice) (some "TXN1")
      (initiate sampleEnv (some alice) none cartStore).1).1.purchases = cartStore.purchases ∧
    ∃ orderId, (verify failedResult (some alice) (some "TXN1")
      (initiate sampleEnv (some alice) none cartStore).1).2 =
        ⟨200, .verified false "Payment failed" orderId (some "TXN1") none⟩ :=
  ⟨rfl, by decide, by decide,
    failed_checkout_keeps_cart sampleEnv alice none cartStore samplePaymentRequest
      failedResult rfl (by decide) (by decide)⟩

/-- C10: in a store with at most one CartItem for the pair (user, book), two accepted
add-to-cart requests of a signed-in user for the same bookId, with any titles, prices and
other fields, leave exactly one CartItem for the pair; and no add-to-cart request at all
changes the number of CartItems of a pair that already has one. -/
theorem add_twice_one_item (e1 e2 : AddEnv) (u : AuthUser) (b1 b2 : AddBody) (s : Store)
    (b : String) (hu : objectIdIsValid u._id = true)
    (hb1 : b1.bookId = some b) (hb2 : b2.bookId = some b)
    (hinv : s.carts.countP (cartKey u._id b) ≤ 1)
    (h1 : (addToCart e1 (some u) b1 s).2.status = 200)
    (h2 : (addToCart e2 (some u) b2 (addToCart e1 (some u) b1 s).1).2.status = 200) :
    (addToCart e2 (some u) b2 (addToCart e1 (some u) b1 s).1).1.carts.countP
        (cartKey u._id b) = 1 ∧
    ∀ (env : AddEnv) (user : Option AuthUser) (body : AddBody) (s0 : Store)
      (uid : ObjectId) (bookId : String),
      1 ≤ s0.carts.countP (cartKey uid bookId) →
      (addToCart env user body s0).1.carts.countP (cartKey uid bookId) =
        s0.carts.countP (cartKey uid bookId) := by
  refine ⟨?_, fun env user body s0 uid bookId h =>
    addToCart_keeps_existing env user body s0 uid bookId h⟩
  have hfirst := addToCart_accepted e1 u b1 s b hu hb1 h1
  have hsecond := addToCart_accepted e2 u b2 _ b hu hb2 h2
  rw [hsecond, hfirst]
  split_ifs <;> omega

theorem add_twice_one_item_witness :
    objectIdIsValid alice._id = true ∧
    addA.bookId = some "A" ∧ addAgain.bookId = some "A" ∧
    emptyStore.carts.countP (cartKey alice._id "A") ≤ 1 ∧
    (addToCart ⟨"64b0000000000000000000c1", 10⟩ (some alice) addA emptyStore).2.status = 200 ∧
    (addToCart ⟨"64b0000000000000000000c2", 11⟩ (some alice) addAgain
      (addToCart ⟨"64b0000000000000000000c1", 10⟩ (some alice) addA emptyStore).1).2.status
        = 200 ∧
    ((addToCart ⟨"64b0000000000000000000c2", 11⟩ (some alice) addAgain
        (addToCart ⟨"64b0000000000000000000c1", 10⟩ (some alice) addA emptyStore).1).1.carts.countP
        (cartKey alice._id "A") = 1 ∧
      ∀ (env : AddEnv) (user : Option AuthUser) (body : AddBody) (s0 : Store)
        (uid : ObjectId) (bookId : String),
        1 ≤ s0.carts.countP (cartKey uid bookId) →
        (addToCart env user body s0).1.carts.countP (cartKey uid bookId) =
          s0.carts.countP (cartKey uid bookId)) :=
  ⟨by decide, rfl, rfl, by decide, by decide, by decide,
    add_twice_one_item ⟨"64b0000000000000000000c1", 10⟩ ⟨"64b0000000000000000000c2", 11⟩
      alice addA addAgain emptyStore "A" (by decide) rfl rfl (by decide) (by decide)
      (by decide)⟩

/-- C11: when the cart holds an item for (user, book), a further valid add-to-cart
request of that user for that book, with any title, author, price and imageUrl, leaves
the whole store unchanged and answers 200 with the existing item (the one the lookup
finds), so none of its fields is updated. -/
theorem add_existing_unchanged (env : AddEnv) (u : AuthUser) (body : AddBody) (s : Store)
    (b : String) (price : JsNumber) (hu : objectIdIsValid u._id = true)
    (hb : body.bookId = some b) (hbne : b ≠ "") (ht : truthy body.title = true)
    (hp : body.price = .number price)
    (hex : ∃ c ∈ s.carts, c.userId = u._id ∧ c.bookId = b) :
    ∃ item ∈ s.carts, item.userId = u._id ∧ item.bookId = b ∧
      s.carts.find? (cartKey u._id b) = some item ∧
      addToCart env (some u) body s = (s, ⟨200, .cartItem item⟩) := by
  have hsome : (s.carts.find? (cartKey u._id b)).isSome = true := by
    rw [List.find?_isSome]
    obtain ⟨c, hc, h1, h2⟩ := hex
    exact ⟨c, hc, by simp [cartKey, h1, h2]⟩
  obtain ⟨item, hitem⟩ := Option.isSome_iff_exists.mp hsome
  have hmem := List.mem_of_find?_eq_some hitem
  have hkey := List.find?_some hitem
  have hpair : item.userId = u._id ∧ item.bookId = b := by simpa [cartKey] using hkey
  refine ⟨item, hmem, hpair.1, hpair.2, hitem, ?_⟩
  have htu := truthy_of_valid u._id hu
  have htb : truthy (some b) = true := by simpa [truthy] using hbne
  simp [addToCart, orElseStr, htu, hb, htb, ht, hp, withDefault, hu, hitem]

theorem add_existing_unchanged_witness :
    objectIdIsValid alice._id = true ∧ addAgain.bookId = some "A" ∧ "A" ≠ "" ∧
    truthy addAgain.title = true ∧ addAgain.price = .number 250 ∧
    (∃ c ∈ oneBookStore.carts, c.userId = alice._id ∧ c.bookId = "A") ∧
    ∃ item ∈ oneBookStore.carts, item.userId = alice._id ∧ item.bookId = "A" ∧
      oneBookStore.carts.find? (cartKey alice._id "A") = some item ∧
      addToCart ⟨"64b0000000000000000000c2", 11⟩ (some alice) addAgain oneBookStore =
        (oneBookStore, ⟨200, .cartItem item⟩) :=
  ⟨by decide, rfl, by decide, by decide, rfl, ⟨bookA, by decide, by decide, by decide⟩,
    add_existing_unchanged ⟨"64b0000000000000000000c2", 11⟩ alice addAgain oneBookStore
      "A" 250 (by decide) rfl (by decide) (by decide) rfl
      ⟨bookA, by decide, by decide, by decide⟩⟩

/-- C12: an add-to-cart request whose bookId or title is missing (or empty), whose price
is missing, or whose price is not a number, is answered with status 400 and leaves the
store unchanged, whoever sends it. -/
theorem add_invalid_rejected (env : AddEnv) (user : Option AuthUser) (body : AddBody)
    (s : Store)
    (h : truthy body.bookId = false ∨ truthy body.title = false ∨
      body.price = JsValue.undefined ∨ ∀ n : JsNumber, body.price ≠ JsValue.number n) :
    (addToCart env user body s).1 = s ∧ (addToCart env user body s).2.status = 400 := by
  unfold addToCart
  simp only []
  split
  · exact ⟨rfl, rfl⟩
  · split
    · exact ⟨rfl, rfl⟩
    · next h1 _ =>
      split
      · next n hn =>
        exfalso
        rcases h with h | h | h | h
        · simp [h] at h1
        · simp [h] at h1
        · rw [h] at hn
          cases hn
        · exact h n hn
      · exact ⟨rfl, rfl⟩

theorem add_invalid_rejected_witness :
    (truthy addNoBook.bookId = false ∨ truthy addNoBook.title = false ∨
      addNoBook.price = JsValue.undefined ∨
      ∀ n : JsNumber, addNoBook.price ≠ JsValue.number n) ∧
    (addToCart ⟨"64b0000000000000000000c1", 10⟩ (some alice) addNoBook cartStore).1
      = cartStore ∧
    (addToCart ⟨"64b0000000000000000000c1", 10⟩ (some alice) addNoBook cartStore).2.status
      = 400 :=
  ⟨Or.inl rfl,
    add_invalid_rejected ⟨"64b0000000000000000000c1", 10⟩ (some alice) addNoBook cartStore
      (Or.inl rfl)⟩

/-- C13, as stated, fails: a request with price -5 is accepted with status 200 and the
item is stored with price -5. -/
theorem add_negative_price_stored :
    (addToCart ⟨"64b0000000000000000000c3", 12⟩ (some alice) addNegative emptyStore).2.status
      = 200 ∧
    ∃ item ∈ (addToCart ⟨"64b0000000000000000000c3", 12⟩ (some alice) addNegative
        emptyStore).1.carts,
      item.bookId = "N" ∧ item.price = some (-5) ∧ (-5 : JsNumber) < 0 := by
  refine ⟨by decide, ⟨_, List.mem_singleton_self _, ?_⟩⟩
  decide

/-- C13, amended: add-to-cart either leaves the store unchanged or appends one item whose
price is the number carried by the request, whatever its sign, and answers 200 with
that item. -/
theorem add_stores_request_price (env : AddEnv) (user : Option AuthUser) (body : AddBody)
    (s : Store) :
    (addToCart env user body s).1 = s ∨
    ∃ (n : JsNumber) (item : CartItem),
      body.price = JsValue.number n ∧
      (addToCart env user body s).1 = { s with carts := s.carts ++ [item] } ∧
      item.price = some n ∧
      (addToCart env user body s).2 = ⟨200, .cartItem item⟩ := by
  unfold addToCart
  simp only []
  split
  · exact Or.inl rfl
  · split
    · exact Or.inl rfl
    · split
      · next n hn =>
        split
        · exact Or.inl rfl
        · exact Or.inr ⟨n, _, hn, rfl, rfl, rfl⟩
      · exact Or.inl rfl

/-- C14, as stated, fails: no cart item has the id "abc", yet the removal answers 400
"Invalid item ID", not 404. -/
theorem remove_malformed_id :
    (∀ c ∈ cartStore.carts, c._id ≠ "abc") ∧
    removeFromCart (some alice) "abc" cartStore =
      (cartStore, ⟨400, .error "Invalid item ID"⟩) ∧
    (removeFromCart (some alice) "abc" cartStore).2.status ≠ 404 := by
  decide

/-- C14, amended: with an item id that is a well-formed ObjectId, remove-from-cart
deletes exactly the cart item owned by the requesting user whose id is the ObjectId that
the given string spells (the case of its hexadecimal letters does not matter), all other
items staying as they are and in place, and answers 404 with the store unchanged when no
item has that id or the item is owned by a different user; with an id that is not a
well-formed ObjectId it answers 400 with the store unchanged. -/
theorem remove_exactly_owned (u : AuthUser) (itemId : String) (s : Store) :
    (objectIdIsValid itemId = false →
      removeFromCart (some u) itemId s = (s, ⟨400, .error "Invalid item ID"⟩)) ∧
    (objectIdIsValid itemId = true →
      ((∃ c ∈ s.carts, c._id = castObjectId itemId ∧ c.userId = u._id) →
        ∃ (pre : List CartItem) (c : CartItem) (post : List CartItem),
          s.carts = pre ++ c :: post ∧ c._id = castObjectId itemId ∧ c.userId = u._id ∧
          (∀ x ∈ pre, ¬ (x._id = castObjectId itemId ∧ x.userId = u._id)) ∧
          removeFromCart (some u) itemId s =
            ({ s with carts := pre ++ post }, ⟨200, .success "Item removed from cart"⟩)) ∧
      ((∀ c ∈ s.carts, ¬ (c._id = castObjectId itemId ∧ c.userId = u._id)) →
        removeFromCart (some u) itemId s = (s, ⟨404, .error "Item not found in cart"⟩))) := by
  refine ⟨fun hbad => by simp [removeFromCart, hbad], fun hok => ⟨?_, ?_⟩⟩
  · rintro ⟨c, hc, hid, huid⟩
    have hpc : ownedItem itemId u._id c = true := by simp [ownedItem, hid, huid]
    obtain ⟨a, pre, post, hpre, hpa, hl, he⟩ := List.exists_of_eraseP hc hpc
    have hfind : (s.carts.find? (ownedItem itemId u._id)).isSome = true := by
      rw [List.find?_isSome]
      exact ⟨c, hc, hpc⟩
    obtain ⟨x, hx⟩ := Option.isSome_iff_exists.mp hfind
    have hpa2 : a._id = castObjectId itemId ∧ a.userId = u._id := by
      simpa [ownedItem] using hpa
    refine ⟨pre, a, post, hl, hpa2.1, hpa2.2, ?_, ?_⟩
    · intro y hy hy2
      exact hpre y hy (by simp [ownedItem, hy2.1, hy2.2])
    · simp [removeFromCart, hok, hx, he]
  · intro hnone
    have hfind : s.carts.find? (ownedItem itemId u._id) = none := by
      rw [List.find?_eq_none]
      intro c hc hp
      exact hnone c hc (by simpa [ownedItem] using hp)
    simp [removeFromCart, hok, hfind]

theorem remove_exactly_owned_witness :
    objectIdIsValid "64B0000000000000000000A1" = true ∧
    castObjectId "64B0000000000000000000A1" = "64b0000000000000000000a1" ∧
    (∃ c ∈ cartStore.carts,
      c._id = castObjectId "64B0000000000000000000A1" ∧ c.userId = alice._id) ∧
    ∃ (pre : List CartItem) (c : CartItem) (post : List CartItem),
      cartStore.carts = pre ++ c :: post ∧
      c._id = castObjectId "64B0000000000000000000A1" ∧
      c.userId = alice._id ∧
      (∀ x ∈ pre,
        ¬ (x._id = castObjectId "64B0000000000000000000A1" ∧ x.userId = alice._id)) ∧
      removeFromCart (some alice) "64B0000000000000000000A1" cartStore =
        ({ cartStore with carts := pre ++ post },
          ⟨200, .success "Item removed from cart"⟩) :=
  ⟨by decide, by decide, ⟨bookA, by decide, by decide, by decide⟩,
    ((remove_exactly_owned alice "64B0000000000000000000A1" cartStore).2 (by decide)).1
      ⟨bookA, by decide, by decide, by decide⟩⟩

/-- C15: in every store that the routes can produce, an initiation by a user who has no
unpurchased cart item answers 400 "Cart is empty" and leaves the store unchanged, so no
order is created. -/
theorem initiate_empty_cart_rejected (env : InitiateEnv) (u : AuthUser)
    (upiId : Option String) (s : Store) (hs : Reachable s)
    (hnone : ∀ c ∈ s.carts, c.userId = u.id → c.purchased = true) :
    initiate env (some u) upiId s = (s, ⟨400, .message "Cart is empty"⟩) := by
  apply initiate_no_items
  unfold cartOf
  rw [List.filter_eq_nil_iff]
  intro c hc hu
  have h1 := hnone c hc (by simpa using hu)
  have h2 := reachable_allUnpurchased s hs c hc
  rw [h2] at h1
  cases h1

theorem initiate_empty_cart_rejected_witness :
    Reachable bobStore ∧
    (∀ c ∈ bobStore.carts, c.userId = alice.id → c.purchased = true) ∧
    initiate sampleEnv (some alice) none bobStore =
      (bobStore, ⟨400, .message "Cart is empty"⟩) :=
  ⟨Reachable.step _ _ Reachable.empty, by decide,
    initiate_empty_cart_rejected sampleEnv alice none bobStore
      (Reachable.step _ _ Reachable.empty) (by decide)⟩

/-- C16: an initiation by a user whose cart is not empty stores one new order, with
status 'pending', paymentStatus 'pending' and paymentMethod 'upi', owned by the user,
whose line items are the cart items of the user in order with bookId, title, author,
price and imageUrl copied; when the payment service returns a request, the response is
200 and carries its transaction id, and whenever the response carries a transaction id
the order is stored with that id. -/
theorem initiate_order_shape (env : InitiateEnv) (u : AuthUser) (upiId : Option String)
    (s : Store) (hne : cartOf u.id s ≠ []) :
    ∃ o : Order,
      (initiate env (some u) upiId s).1.orders = s.orders ++ [o] ∧
      o.status = "pending" ∧ o.paymentStatus = "pending" ∧ o.paymentMethod = "upi" ∧
      o.userId = u.id ∧
      o.items.length = (cartOf u.id s).length ∧
      (∀ (i : Nat) (c : CartItem), (cartOf u.id s)[i]? = some c →
        ∃ item, o.items[i]? = some item ∧ item.bookId = c.bookId ∧ item.title = c.title ∧
          item.author = c.author ∧ item.price = c.price ∧ item.imageUrl = c.imageUrl) ∧
      (∀ pr, env.paymentRequest = some pr →
        o.transactionId = some pr.transactionId ∧
        (initiate env (some u) upiId s).2 =
          ⟨200, .initiated o._id pr.transactionId pr.upiString pr.qrCode
            (cartTotal (cartOf u.id s)) pr.upiId⟩) ∧
      (∀ orderId t upiString qrCode amount payee,
        (initiate env (some u) upiId s).2 =
          ⟨200, .initiated orderId t upiString qrCode amount payee⟩ →
        o.transactionId = some t) := by
  have hlen : ¬ (List.filter (fun c => c.userId == u.id) s.carts).length = 0 := by
    intro h0
    exact hne (List.length_eq_zero.mp h0)
  have hitems : ∀ (i : Nat) (c : CartItem), (cartOf u.id s)[i]? = some c →
      ∃ item, ((cartOf u.id s).map snapshot)[i]? = some item ∧ item.bookId = c.bookId ∧
        item.title = c.title ∧ item.author = c.author ∧ item.price = c.price ∧
        item.imageUrl = c.imageUrl := by
    intro i c hc
    exact ⟨snapshot c, by simp [List.getElem?_map, hc], rfl, rfl, rfl, rfl, rfl⟩
  unfold initiate
  simp only [beq_iff_eq, hlen, if_false]
  cases hpr : env.paymentRequest with
  | none =>
    refine ⟨_, rfl, rfl, rfl, rfl, rfl, by simp [pendingOrder, cartOf], hitems, ?_, ?_⟩
    · intro pr h
      cases h
    · intro orderId t upiString qrCode amount payee h
      simp at h
  | some pr =>
    refine ⟨_, rfl, rfl, rfl, rfl, rfl, by simp [pendingOrder, cartOf], hitems, ?_, ?_⟩
    · intro pr2 h
      cases h
      exact ⟨rfl, rfl⟩
    · intro orderId t upiString qrCode amount payee h
      simp only [Prod.snd, Response.mk.injEq, Body.initiated.injEq, true_and] at h
      simp [h.2.1]

theorem initiate_order_shape_witness :
    cartOf alice.id cartStore ≠ [] ∧
    ∃ o : Order,
      (initiate sampleEnv (some alice) none cartStore).1.orders = cartStore.orders ++ [o] ∧
      o.status = "pending" ∧ o.paymentStatus = "pending" ∧ o.paymentMethod = "upi" ∧
      o.userId = alice.id ∧
      o.items.length = (cartOf alice.id cartStore).length ∧
      (∀ (i : Nat) (c : CartItem), (cartOf alice.id cartStore)[i]? = some c →
        ∃ item, o.items[i]? = some item ∧ item.bookId = c.bookId ∧ item.title = c.title ∧
          item.author = c.author ∧ item.price = c.price ∧ item.imageUrl = c.imageUrl) ∧
      (∀ pr, sampleEnv.paymentRequest = some pr →
        o.transactionId = some pr.transactionId ∧
        (initiate sampleEnv (some alice) none cartStore).2 =
          ⟨200, .initiated o._id pr.transactionId pr.upiString pr.qrCode
            (cartTotal (cartOf alice.id cartStore)) pr.upiId⟩) ∧
      (∀ orderId t upiString qrCode amount payee,
        (initiate sampleEnv (some alice) none cartStore).2 =
          ⟨200, .initiated orderId t upiString qrCode amount payee⟩ →
        o.transactionId = some t) :=
  ⟨by decide, initiate_order_shape sampleEnv alice none cartStore (by decide)⟩

/-- C17: in the success path of verification the writes happen in the order: the found
order `o` is saved as completed, then the purchase rows of its items are inserted, then
the cart of the user is cleared, and the last store is the one the handler returns.  So
in the store after every prefix of these writes, the ledger differs from the initial one
only if `o` is already saved as completed, and so does the cart collection. -/
theorem verify_success_effect_order (r : PaymentResult) (u : AuthUser) (t : Option String)
    (s : Store) (o : Order) (hfind : s.orders.find? (pendingFor t u.id) = some o)
    (hr : r.status = "completed") :
    ∃ (pre post : List Order) (s1 s2 s3 : Store),
      s.orders = pre ++ o :: post ∧
      verifySuccessTrace r u.id t o s = [s1, s2, s3] ∧
      (s1.orders = pre ++ markCompleted r o :: post ∧ s1.purchases = s.purchases ∧
        s1.carts = s.carts) ∧
      (s2.orders = s1.orders ∧
        s2.purchases = s.purchases ++ o.items.map (purchaseRecord o.userId) ∧
        s2.carts = s.carts) ∧
      (s3.orders = s1.orders ∧ s3.purchases = s2.purchases ∧
        s3.carts = s.carts.filter (fun c => !(c.userId == u.id))) ∧
      s3 = (verify r (some u) t s).1 ∧
      (markCompleted r o).paymentStatus = "completed" ∧
      (markCompleted r o).status = "completed" ∧
      ∀ x ∈ s :: verifySuccessTrace r u.id t o s,
        (x.purchases ≠ s.purchases → x.orders = pre ++ markCompleted r o :: post) ∧
        (x.carts ≠ s.carts → x.orders = pre ++ markCompleted r o :: post) := by
  obtain ⟨pre, post, hl, _, _, hu⟩ :=
    updateFirst_of_find (pendingFor t u.id) (markCompleted r) s.orders o hfind
  refine ⟨pre, post, _, _, _, hl, rfl, ⟨hu, rfl, rfl⟩,
    ⟨rfl, purchases_append_records _ _, rfl⟩, ⟨rfl, rfl, rfl⟩, ?_, rfl, rfl, ?_⟩
  · rw [verify_completed r u t s o hfind hr]
  · intro x hx
    simp only [verifySuccessTrace, List.mem_cons, List.mem_singleton, List.mem_nil_iff,
      or_false] at hx
    rcases hx with rfl | rfl | rfl | rfl
    · exact ⟨fun h => absurd rfl h, fun h => absurd rfl h⟩
    · exact ⟨fun _ => hu, fun _ => hu⟩
    · exact ⟨fun _ => hu, fun _ => hu⟩
    · exact ⟨fun _ => hu, fun _ => hu⟩

theorem verify_success_effect_order_witness :
    pendingStore.orders.find? (pendingFor (some "TXN1") alice.id) = some sampleOrder ∧
    paidResult.status = "completed" ∧
    ∃ (pre post : List Order) (s1 s2 s3 : Store),
      pendingStore.orders = pre ++ sampleOrder :: post ∧
      verifySuccessTrace paidResult alice.id (some "TXN1") sampleOrder pendingStore
        = [s1, s2, s3] ∧
      (s1.orders = pre ++ markCompleted paidResult sampleOrder :: post ∧
        s1.purchases = pendingStore.purchases ∧ s1.carts = pendingStore.carts) ∧
      (s2.orders = s1.orders ∧
        s2.purchases = pendingStore.purchases ++
          sampleOrder.items.map (purchaseRecord sampleOrder.userId) ∧
        s2.carts = pendingStore.carts) ∧
      (s3.orders = s1.orders ∧ s3.purchases = s2.purchases ∧
        s3.carts = pendingStore.carts.filter (fun c => !(c.userId == alice.id))) ∧
      s3 = (verify paidResult (some alice) (some "TXN1") pendingStore).1 ∧
      (markCompleted paidResult sampleOrder).paymentStatus = "completed" ∧
      (markCompleted paidResult sampleOrder).status = "completed" ∧
      ∀ x ∈ pendingStore ::
          verifySuccessTrace paidResult alice.id (some "TXN1") sampleOrder pendingStore,
        (x.purchases ≠ pendingStore.purchases →
          x.orders = pre ++ markCompleted paidResult sampleOrder :: post) ∧
        (x.carts ≠ pendingStore.carts →
          x.orders = pre ++ markCompleted paidResult sampleOrder :: post) :=
  ⟨by decide, by decide,
    verify_success_effect_order paidResult alice (some "TXN1") pendingStore sampleOrder
      (by decide) (by decide)⟩

/-- C18, as stated, fails for `POST /orders`: with the schema defaults, the order it
creates from the two-book cart is pending, with paymentStatus pending, and the purchase
rows of its two items are appended all the same. -/
theorem createOrder_rows_for_pending_order :
    ∃ o : Order,
      (createOrder ⟨"64b0000000000000000000f2", pendingDefaults⟩ (some alice)
        cartStore).1.orders = cartStore.orders ++ [o] ∧
      (createOrder ⟨"64b0000000000000000000f2", pendingDefaults⟩ (some alice)
        cartStore).1.purchases =
          cartStore.purchases ++ o.items.map (purchaseRecord o.userId) ∧
      o.items.length = 2 ∧
      o.status = "pending" ∧ o.paymentStatus = "pending" ∧
      o.status ≠ "completed" := by
  refine ⟨defaultOrder ⟨"64b0000000000000000000f2", pendingDefaults⟩ alice.id
    [bookA, bookB], ?_⟩
  decide

/-- C18, amended: `POST /payments/upi/verify` and `POST /cart/checkout` append purchase
rows only together with an order that has status 'completed' and paymentStatus
'completed' in the resulting store, the rows being those of its items; `POST /orders`
appends the rows of the items of the order it creates, whose status and paymentStatus
are the defaults of the Order schema. -/
theorem purchase_rows_with_their_order :
    (∀ (r : PaymentResult) (user : Option AuthUser) (t : Option String) (s : Store),
      (verify r user t s).1.purchases = s.purchases ∨
      ∃ (pre post : List Order) (o o' : Order),
        s.orders = pre ++ o :: post ∧
        (verify r user t s).1.orders = pre ++ o' :: post ∧
        o'.items = o.items ∧ o'.userId = o.userId ∧
        o'.status = "completed" ∧ o'.paymentStatus = "completed" ∧
        (verify r user t s).1.purchases =
          s.purchases ++ o'.items.map (purchaseRecord o'.userId)) ∧
    (∀ (freshId : ObjectId) (user : Option AuthUser) (address transactionId : Option String)
      (s : Store),
      (checkout freshId user address transactionId s).1.purchases = s.purchases ∨
      ∃ o : Order,
        (checkout freshId user address transactionId s).1.orders = s.orders ++ [o] ∧
        o.status = "completed" ∧ o.paymentStatus = "completed" ∧
        (checkout freshId user address transactionId s).1.purchases =
          s.purchases ++ o.items.map (purchaseRecord o.userId)) ∧
    (∀ (env : CreateEnv) (user : Option AuthUser) (s : Store),
      (createOrder env user s).1.purchases = s.purchases ∨
      ∃ o : Order,
        (createOrder env user s).1.orders = s.orders ++ [o] ∧
        o.status = env.defaults.status ∧ o.paymentStatus = env.defaults.paymentStatus ∧
        (createOrder env user s).1.purchases =
          s.purchases ++ o.items.map (purchaseRecord o.userId)) := by
  refine ⟨?_, checkout_purchases_cases, createOrder_purchases_cases⟩
  intro r user t s
  rcases verify_purchases_cases r user t s with h | ⟨pre, post, o, h1, h2, h3⟩
  · exact Or.inl h
  · exact Or.inr ⟨pre, post, o, markCompleted r o, h1, h2, rfl, rfl, rfl, rfl, h3⟩

/-- C19 fails on the code: a verified callback reporting 'completed' for the pending
two-item order of the scenario saves the order with paymentStatus and status 'completed'
and clears the cart, but appends no purchase row, while the verification route on the
same store appends one row per item. -/
theorem callback_completes_without_rows :
    completedCallback.verified = true ∧ completedCallback.status = "completed" ∧
    pendingStore.orders = [sampleOrder] ∧ sampleOrder.items.length = 2 ∧
    (callback completedCallback pendingStore).1.orders =
      [applyCallback completedCallback sampleOrder] ∧
    (applyCallback completedCallback sampleOrder).paymentStatus = "completed" ∧
    (applyCallback completedCallback sampleOrder).status = "completed" ∧
    (callback completedCallback pendingStore).1.carts = [] ∧
    (callback completedCallback pendingStore).1.purchases = [] ∧
    (verify paidResult (some alice) (some "TXN1") pendingStore).1.purchases.length = 2 := by
  decide

/-- C20: every request to a route of the cart, order and payment routers (refund and
status update included) leaves the Purchase collection as it was or appends rows to it:
the ledger before is an initial segment of the ledger after, so no existing row is
changed or removed. -/
theorem ledger_append_only (op : Op) (s : Store) :
    ∃ rows : List Purchase, (Op.run s op).purchases = s.purchases ++ rows := by
  cases op with
  | cartAdd env user body => exact ⟨[], by simp [Op.run, addToCart_purchases]⟩
  | cartGet user q => exact ⟨[], by simp [Op.run]⟩
  | cartCheckout freshId user address t =>
    rcases checkout_purchases_cases freshId user address t s with h | ⟨o, _, _, _, h⟩
    · exact ⟨[], by simp [Op.run, h]⟩
    · exact ⟨_, h⟩
  | cartRemove user itemId => exact ⟨[], by simp [Op.run, removeFromCart_purchases]⟩
  | orderCreate env user =>
    rcases createOrder_purchases_cases env user s with h | ⟨o, _, _, _, h⟩
    · exact ⟨[], by simp [Op.run, h]⟩
    · exact ⟨_, h⟩
  | orderListUser user uid => exact ⟨[], by simp [Op.run]⟩
  | orderListAll user => exact ⟨[], by simp [Op.run]⟩
  | orderUpdateStatus user orderId status =>
    exact ⟨[], by simp [Op.run, updateOrderStatus_purchases]⟩
  | payInitiate env user upiId => exact ⟨[], by simp [Op.run, initiate_purchases]⟩
  | payVerify r user t =>
    rcases verify_purchases_cases r user t s with h | ⟨_, _, o, _, _, h⟩
    · exact ⟨[], by simp [Op.run, h]⟩
    · exact ⟨_, h⟩
  | payStatus user t => exact ⟨[], by simp [Op.run]⟩
  | payCallback v => exact ⟨[], by simp [Op.run, callback_purchases]⟩
  | payRefund processRefund user body => exact ⟨[], by simp [Op.run, refund_purchases]⟩

/-- C21: a status update by an administrator, with an allowed status and the id of a
stored order (the ObjectId that the path parameter spells), writes that order back in
place with the new status; when its
paymentMethod is 'cod' the paymentStatus becomes 'completed' for 'completed', 'failed'
for 'cancelled' and 'pending' for 'pending', otherwise the paymentStatus is the recorded
one; nothing else of the order, no other order and no other collection changes. -/
theorem status_update_mapping (u : AuthUser) (orderId st : String) (s : Store) (o : Order)
    (hadmin : u.role = "admin") (hst : st ∈ allowedStatuses)
    (hid : objectIdIsValid orderId = true)
    (hfind : s.orders.find? (fun o => o._id == castObjectId orderId) = some o) :
    ∃ (pre post : List Order) (o' : Order),
      s.orders = pre ++ o :: post ∧ (∀ x ∈ pre, x._id ≠ castObjectId orderId) ∧
      o._id = castObjectId orderId ∧
      updateOrderStatus (some u) orderId (some st) s =
        ({ s with orders := pre ++ o' :: post }, ⟨200, .updated o'⟩) ∧
      o'.status = st ∧
      (o.paymentMethod = "cod" →
        (st = "completed" → o'.paymentStatus = "completed") ∧
        (st = "cancelled" → o'.paymentStatus = "failed") ∧
        (st = "pending" → o'.paymentStatus = "pending")) ∧
      (o.paymentMethod ≠ "cod" → o'.paymentStatus = o.paymentStatus) ∧
      o' = { o with status := st, paymentStatus := o'.paymentStatus } := by
  obtain ⟨pre, post, hl, hpre, ho, hu⟩ :=
    updateFirst_of_find (fun o => o._id == castObjectId orderId) (applyStatus st) s.orders o
      hfind
  refine ⟨pre, post, applyStatus st o, hl, ?_, by simpa using ho, ?_, rfl,
    mappedPaymentStatus_cod o st, mappedPaymentStatus_other o st, rfl⟩
  · intro x hx
    simpa using hpre x hx
  · rw [updateOrderStatus_admin u orderId st s hadmin hst hid, hfind, hu]

theorem status_update_mapping_witness :
    carol.role = "admin" ∧ "cancelled" ∈ allowedStatuses ∧
    objectIdIsValid "64b0000000000000000000f2" = true ∧
    twoOrderStore.orders.find? (fun o => o._id == castObjectId "64b0000000000000000000f2")
      = some codOrder ∧
    ∃ (pre post : List Order) (o' : Order),
      twoOrderStore.orders = pre ++ codOrder :: post ∧
      (∀ x ∈ pre, x._id ≠ castObjectId "64b0000000000000000000f2") ∧
      codOrder._id = castObjectId "64b0000000000000000000f2" ∧
      updateOrderStatus (some carol) "64b0000000000000000000f2" (some "cancelled")
          twoOrderStore =
        ({ twoOrderStore with orders := pre ++ o' :: post }, ⟨200, .updated o'⟩) ∧
      o'.status = "cancelled" ∧
      (codOrder.paymentMethod = "cod" →
        ("cancelled" = "completed" → o'.paymentStatus = "completed") ∧
        ("cancelled" = "cancelled" → o'.paymentStatus = "failed") ∧
        ("cancelled" = "pending" → o'.paymentStatus = "pending")) ∧
      (codOrder.paymentMethod ≠ "cod" → o'.paymentStatus = codOrder.paymentStatus) ∧
      o' = { codOrder with status := "cancelled", paymentStatus := o'.paymentStatus } :=
  ⟨by decide, by decide, by decide, by decide,
    status_update_mapping carol "64b0000000000000000000f2" "cancelled" twoOrderStore codOrder
      (by decide) (by decide) (by decide) (by decide)⟩

/-- C22 fails on the code: an administrator sends the allowed status 'completed' with the
order id "abc", which no order has; the answer is 500 "Error updating order status", not
404, because `findById` throws on an id that does not cast to an ObjectId.  With an id
of another order the same request succeeds, and with a well-formed id that no order has
it is answered 404. -/
theorem status_update_malformed_id :
    carol.role = "admin" ∧ "completed" ∈ allowedStatuses ∧
    (∀ o ∈ twoOrderStore.orders, o._id ≠ "abc") ∧
    updateOrderStatus (some carol) "abc" (some "completed") twoOrderStore =
      (twoOrderStore, ⟨500, .message "Error updating order status"⟩) ∧
    (updateOrderStatus (some carol) "64b0000000000000000000f2" (some "completed")
      twoOrderStore).2.status = 200 ∧
    updateOrderStatus (some carol) "64b0000000000000000000ff" (some "completed")
      twoOrderStore = (twoOrderStore, ⟨404, .message "Order not found"⟩) := by
  decide

/-- C23, as stated, fails twice on the completed order of the scenario (total 350): a
refund request that supplies the amount 0 asks the payment service to refund 350, the
total, not the supplied amount; and a refund request with the order id "abc", which no
order has, is answered 500, not 404. -/
theorem refund_zero_amount_and_malformed_id :
    paidStore.orders.find? (refundable paidOrder._id alice.id) = some paidOrder ∧
    paidOrder.totalAmount = 350 ∧
    (refund echoRefund (some alice)
      { orderId := paidOrder._id, amount := some 0, reason := none } paidStore).2 =
        ⟨200, .refunded "RF1" 350 "processed"⟩ ∧
    (∀ o ∈ paidStore.orders, o._id ≠ "abc") ∧
    refund echoRefund (some alice) { orderId := "abc", amount := none, reason := none }
      paidStore = (paidStore, ⟨500, .message "Failed to process refund"⟩) := by
  decide

/-- C23, amended: with an order id that is a well-formed ObjectId, refund returns 404 and
changes nothing unless an order whose id is the ObjectId that the given string spells
(the case of its hexadecimal letters does not matter) exists, is owned by the requesting
user and has paymentStatus 'completed'; when such an order exists, the payment service
is asked to refund the supplied amount when one is supplied and is truthy (not 0, -0 or
NaN), and the totalAmount of the order otherwise, and when it returns a result the order
is written back in place with paymentStatus 'refunded' and status 'cancelled', nothing
else changing. -/
theorem refund_contract
    (processRefund : Option String → JsNumber → Option String → Option RefundResult)
    (u : AuthUser) (body : RefundBody) (s : Store)
    (hid : objectIdIsValid body.orderId = true) :
    ((∀ o ∈ s.orders,
        ¬ (o._id = castObjectId body.orderId ∧ o.userId = u.id ∧
          o.paymentStatus = "completed")) →
      refund processRefund (some u) body s =
        (s, ⟨404, .message "Order not found or not eligible for refund"⟩)) ∧
    (∀ (o : Order) (r : RefundResult),
      s.orders.find? (refundable body.orderId u.id) = some o →
      processRefund o.transactionId
        (match body.amount with
          | none => o.totalAmount
          | some a => if a.truthy = true then a else o.totalAmount) body.reason = some r →
      ∃ (pre post : List Order),
        s.orders = pre ++ o :: post ∧
        o._id = castObjectId body.orderId ∧ o.userId = u.id ∧
        o.paymentStatus = "completed" ∧
        refund processRefund (some u) body s =
          ({ s with orders :=
              pre ++ { o with paymentStatus := "refunded", status := "cancelled" } :: post },
            ⟨200, .refunded r.refundId r.amount r.status⟩)) := by
  constructor
  · intro hnone
    apply refund_of_none processRefund u body s hid
    rw [List.find?_eq_none]
    intro o ho hp
    apply hnone o ho
    simpa [refundable, and_assoc] using hp
  · intro o r hfind hr
    obtain ⟨pre, post, hl, _, ho, hu⟩ :=
      updateFirst_of_find (refundable body.orderId u.id) markRefunded s.orders o hfind
    have ho' : o._id = castObjectId body.orderId ∧ o.userId = u.id ∧
        o.paymentStatus = "completed" := by
      simpa [refundable, and_assoc] using ho
    refine ⟨pre, post, hl, ho'.1, ho'.2.1, ho'.2.2, ?_⟩
    rw [refund_of_found processRefund u body s o r hid hfind (by simpa [amountOr] using hr), hu]
    rfl

theorem refund_contract_witness :
    objectIdIsValid "64B0000000000000000000F1" = true ∧
    paidStore.orders.find? (refundable "64B0000000000000000000F1" alice.id)
      = some paidOrder ∧
    echoRefund paidOrder.transactionId 100 none = some ⟨"RF1", 100, "processed"⟩ ∧
    ∃ (pre post : List Order),
      paidStore.orders = pre ++ paidOrder :: post ∧
      paidOrder._id = castObjectId "64B0000000000000000000F1" ∧
      paidOrder.userId = alice.id ∧
      paidOrder.paymentStatus = "completed" ∧
      refund echoRefund (some alice)
          { orderId := "64B0000000000000000000F1", amount := some 100, reason := none }
          paidStore =
        ({ paidStore with orders :=
            pre ++ { paidOrder with paymentStatus := "refunded", status := "cancelled" }
              :: post },
          ⟨200, .refunded "RF1" 100 "processed"⟩) :=
  ⟨by decide, by decide, rfl,
    (refund_contract echoRefund alice
      { orderId := "64B0000000000000000000F1", amount := some 100, reason := none } paidStore
      (by decide)).2 paidOrder ⟨"RF1", 100, "processed"⟩ (by decide) rfl⟩

/-- C24: a request of a signed-in user `u` to a cart route (add, list, checkout, remove)
or to the initiation, verification or refund route, whatever item id, order id,
transaction id or body it carries and whatever the role of `u`, leaves the cart items
and the orders of every other user `v` as they were. -/
theorem other_users_untouched (u : AuthUser) (req : UserRequest) (s : Store)
    (hu : u._id ≠ "") (v : ObjectId) (hv : v ≠ u._id) :
    cartOf v (Op.run s (req.toOp u)) = cartOf v s ∧
    ordersOf v (Op.run s (req.toOp u)) = ordersOf v s := by
  cases req with
  | add env body => exact addToCart_other env u body s hu v hv
  | getCart q => exact ⟨rfl, rfl⟩
  | checkout freshId address t => exact checkout_other freshId u address t s v hv
  | remove itemId => exact removeFromCart_other u itemId s v hv
  | initiate env upiId => exact initiate_other env u upiId s v hv
  | verify r t => exact verify_other r u t s v hv
  | refund processRefund body => exact refund_other processRefund u body s v hv

theorem other_users_untouched_witness :
    bob._id ≠ "" ∧ alice._id ≠ bob._id ∧
    cartOf alice._id (Op.run pendingStore
      ((UserRequest.verify paidResult (some "TXN1")).toOp bob)) = cartOf alice._id pendingStore ∧
    ordersOf alice._id (Op.run pendingStore
      ((UserRequest.verify paidResult (some "TXN1")).toOp bob)) =
        ordersOf alice._id pendingStore :=
  ⟨by decide, by decide,
    other_users_untouched bob (UserRequest.verify paidResult (some "TXN1")) pendingStore
      (by decide) alice._id (by decide)⟩

/-- C25: in every store reached from the empty database by requests to the routes, every
order has its status among pending, completed, cancelled and its paymentStatus among
pending, completed, failed, refunded, and every request (initiation, verification,
payment callback, refund, status update, cart checkout and the others) keeps this;
the callback is given a verification status of the payment status domain and order
creation schema defaults of the two domains. -/
theorem status_domain_invariant (ops : List Op) (h : ∀ op ∈ ops, op.conforms = true) :
    StatusDomain (runAll ops emptyStore) ∧
    ∀ (op : Op) (s : Store), op.conforms = true → StatusDomain s →
      StatusDomain (Op.run s op) := by
  refine ⟨runAll_statusDomain ops emptyStore h ?_, fun op s hc hs => run_statusDomain op s hc hs⟩
  intro o ho
  simp [emptyStore] at ho

theorem status_domain_invariant_witness :
    (∀ op ∈ sampleOps, op.conforms = true) ∧
    (runAll sampleOps emptyStore).orders.length = 1 ∧
    StatusDomain (runAll sampleOps emptyStore) ∧
    ∀ (op : Op) (s : Store), op.conforms = true → StatusDomain s →
      StatusDomain (Op.run s op) :=
  ⟨by decide, by decide, status_domain_invariant sampleOps (by decide)⟩

/-- C26 fails on the code: the handler looks the order up and saves it in separate steps,
with the payment service awaited in between.  Two verifications of TXN1 that both do
their lookup on the store of the scenario before either saves both find the pending
order; both then answer 200 "Payment successful", and the ledger ends with four rows
for the two items of the order.  Served one after the other, the second is answered
404. -/
theorem concurrent_verify_both_settle :
    verifyLookup alice (some "TXN1") pendingStore = some sampleOrder ∧
    sampleOrder.items.length = 2 ∧
    (verifySettle paidResult alice (some "TXN1") sampleOrder pendingStore).2 =
      ⟨200, .verified true "Payment successful" sampleOrder._id (some "TXN1") (some "GW1")⟩ ∧
    (verifySettle paidResult alice (some "TXN1") sampleOrder
      (verifySettle paidResult alice (some "TXN1") sampleOrder pendingStore).1).2 =
      ⟨200, .verified true "Payment successful" sampleOrder._id (some "TXN1") (some "GW1")⟩ ∧
    (verifySettle paidResult alice (some "TXN1") sampleOrder
      (verifySettle paidResult alice (some "TXN1") sampleOrder
        pendingStore).1).1.purchases.length = 4 ∧
    verifyLookup alice (some "TXN1")
      (verifySettle paidResult alice (some "TXN1") sampleOrder pendingStore).1 = none ∧
    (verify paidResult (some alice) (some "TXN1")
      (verify paidResult (some alice) (some "TXN1") pendingStore).1).2.status = 404 := by
  decide

/-- C27, as stated, fails: with unpurchased cart items priced 0.1 and 0.2 the direct
checkout stores an order whose totalAmount is 0.30000000000000004, which is neither the
number 0.3 nor the sum of the two prices: the sum of the two doubles is
10808639105689191 / 2^55, and the total is 10808639105689192 / 2^55. -/
theorem checkout_total_rounded :
    ∃ o : Order,
      (checkout "64b0000000000000000000f4" (some alice) none (some "TXN8")
        fractionStore).1.orders = [o] ∧
      cartPrices (fractionStore.carts.filter (unpurchasedOf alice._id)) =
        [JsNumber.ofDecimal 1 1, JsNumber.ofDecimal 2 1] ∧
      o.totalAmount = JsNumber.ofDecimal 30000000000000004 17 ∧
      o.totalAmount ≠ JsNumber.ofDecimal 3 1 ∧
      exactSum (cartPrices (fractionStore.carts.filter (unpurchasedOf alice._id))) =
        some (10808639105689191 / 36028797018963968) ∧
      o.totalAmount.value? = some (10808639105689192 / 36028797018963968) ∧
      o.totalAmount.value? ≠
        exactSum (cartPrices (fractionStore.carts.filter (unpurchasedOf alice._id))) := by
  have key : ∃ o : Order,
      (checkout "64b0000000000000000000f4" (some alice) none (some "TXN8")
        fractionStore).1.orders = [o] ∧
      o.totalAmount = .finite 1351079888211149 (-52) :=
    ⟨_, rfl, by decide⟩
  have hp : cartPrices (fractionStore.carts.filter (unpurchasedOf alice._id)) =
      [.finite 3602879701896397 (-55), .finite 3602879701896397 (-54)] := by decide
  have h1 : JsNumber.ofDecimal 1 1 = .finite 3602879701896397 (-55) := by decide
  have h2 : JsNumber.ofDecimal 2 1 = .finite 3602879701896397 (-54) := by decide
  have h3 : JsNumber.ofDecimal 3 1 = .finite 5404319552844595 (-54) := by decide
  have h4 : JsNumber.ofDecimal 30000000000000004 17 = .finite 1351079888211149 (-52) := by
    decide
  obtain ⟨o, ho, ht⟩ := key
  refine ⟨o, ho, ?_, ?_, ?_, ?_, ?_, ?_⟩
  · rw [hp, h1, h2]
  · rw [ht, h4]
  · rw [ht, h3]
    decide
  · rw [hp]
    norm_num [exactSum, JsNumber.value?]
  · rw [ht]
    norm_num [JsNumber.value?]
  · rw [ht, hp]
    norm_num [exactSum, JsNumber.value?]

/-- C27, amended: a direct cart checkout without a transactionId answers 400 and changes
nothing; with a transactionId and at least one unpurchased cart item of the user it
stores one new order with status 'completed', paymentStatus 'completed', paymentMethod
'upi', the transactionId, and as totalAmount the sum of the prices of these items as the
language computes it (added one by one from 0, in the order of the items, each step
rounded to a double, a missing, zero or NaN price counting 0), which is the sum of the
prices as real numbers whenever no step rounds, and in particular when the prices are
whole numbers whose sum is below 2^53; it appends one purchase row per item, in order,
with the fields of the item and quantity 1, and leaves the user without unpurchased
cart items. -/
theorem checkout_contract (freshId : ObjectId) (u : AuthUser) (address : Option String)
    (t : Option String) (s : Store) :
    (truthy t = false →
      checkout freshId (some u) address t s =
        (s, ⟨400, .error "UPI payment required: missing transactionId"⟩)) ∧
    (truthy t = true → s.carts.filter (unpurchasedOf u._id) ≠ [] →
      ∃ (o : Order) (rows : List Purchase),
        (checkout freshId (some u) address t s).1.orders = s.orders ++ [o] ∧
        o.status = "completed" ∧ o.paymentStatus = "completed" ∧ o.paymentMethod = "upi" ∧
        o.userId = u._id ∧ o.transactionId = t ∧
        o.items = (s.carts.filter (unpurchasedOf u._id)).map snapshot ∧
        o.totalAmount = doubleSum (cartPrices (s.carts.filter (unpurchasedOf u._id))) ∧
        (noRounding 0 (cartPrices (s.carts.filter (unpurchasedOf u._id))) = true →
          o.totalAmount.value? =
            exactSum (cartPrices (s.carts.filter (unpurchasedOf u._id)))) ∧
        (∀ ns : List Nat,
          cartPrices (s.carts.filter (unpurchasedOf u._id)) = ns.map JsNumber.ofNat →
          ns.sum < 2 ^ 53 → o.totalAmount = JsNumber.ofNat ns.sum) ∧
        (checkout freshId (some u) address t s).1.purchases = s.purchases ++ rows ∧
        rows.length = (s.carts.filter (unpurchasedOf u._id)).length ∧
        (∀ (i : Nat) (c : CartItem), (s.carts.filter (unpurchasedOf u._id))[i]? = some c →
          ∃ row, rows[i]? = some row ∧ row.bookId = c.bookId ∧ row.title = c.title ∧
            row.author = c.author ∧ row.price = c.price ∧ row.quantity = 1 ∧
            row.userId = u._id) ∧
        (checkout freshId (some u) address t s).1.carts.filter (unpurchasedOf u._id) = [] ∧
        (checkout freshId (some u) address t s).2.status = 200) := by
  constructor
  · intro ht
    simp [checkout, ht]
  · intro ht hne
    have hlen : ¬ (List.filter (unpurchasedOf u._id) s.carts).length = 0 := by
      intro h0
      exact hne (List.length_eq_zero.mp h0)
    refine ⟨completedOrder freshId u._id address t (s.carts.filter (unpurchasedOf u._id)),
      (s.carts.filter (unpurchasedOf u._id)).map (purchaseOfCart u._id), ?_, rfl, rfl, rfl,
      rfl, rfl, rfl, cartTotal_eq_doubleSum _, fun h => cartTotal_exact_cart _ h,
      fun ns h hs => cartTotal_nat_cart _ ns h hs, ?_, by simp, ?_, ?_, ?_⟩
    · simp [checkout, ht, hlen]
    · simp [checkout, ht, hlen]
    · intro i c hc
      exact ⟨purchaseOfCart u._id c, by simp [List.getElem?_map, hc], rfl, rfl, rfl, rfl,
        rfl, rfl⟩
    · simp [checkout, ht, hlen, List.filter_filter]
    · simp [checkout, ht, hlen]

theorem checkout_contract_witness :
    truthy (some "TXN7") = true ∧ cartStore.carts.filter (unpurchasedOf alice._id) ≠ [] ∧
    cartPrices (cartStore.carts.filter (unpurchasedOf alice._id)) =
      [200, 150].map JsNumber.ofNat ∧
    cartPrices (cartStore.carts.filter (unpurchasedOf alice._id)) = [200, 150] ∧
    (noRounding 0 [200, 150] = true ∧ exactSum [200, 150] = some 350 ∧
      (350 : JsNumber).value? = some 350) ∧
    (checkout "64b0000000000000000000f3" (some alice) none (some "TXN7")
      cartStore).2.body =
        .checkedOut "Checkout successful" 350 2 "TXN7"
          (completedOrder "64b0000000000000000000f3" alice._id none (some "TXN7")
            [bookA, bookB]) ∧
    ∃ (o : Order) (rows : List Purchase),
      (checkout "64b0000000000000000000f3" (some alice) none (some "TXN7")
        cartStore).1.orders = cartStore.orders ++ [o] ∧
      o.status = "completed" ∧ o.paymentStatus = "completed" ∧ o.paymentMethod = "upi" ∧
      o.userId = alice._id ∧ o.transactionId = some "TXN7" ∧
      o.items = (cartStore.carts.filter (unpurchasedOf alice._id)).map snapshot ∧
      o.totalAmount =
        doubleSum (cartPrices (cartStore.carts.filter (unpurchasedOf alice._id))) ∧
      (noRounding 0 (cartPrices (cartStore.carts.filter (unpurchasedOf alice._id))) = true →
        o.totalAmount.value? =
          exactSum (cartPrices (cartStore.carts.filter (unpurchasedOf alice._id)))) ∧
      (∀ ns : List Nat,
        cartPrices (cartStore.carts.filter (unpurchasedOf alice._id)) =
          ns.map JsNumber.ofNat →
        ns.sum < 2 ^ 53 → o.totalAmount = JsNumber.ofNat ns.sum) ∧
      (checkout "64b0000000000000000000f3" (some alice) none (some "TXN7")
        cartStore).1.purchases = cartStore.purchases ++ rows ∧
      rows.length = (cartStore.carts.filter (unpurchasedOf alice._id)).length ∧
      (∀ (i : Nat) (c : CartItem),
        (cartStore.carts.filter (unpurchasedOf alice._id))[i]? = some c →
        ∃ row, rows[i]? = some row ∧ row.bookId = c.bookId ∧ row.title = c.title ∧
          row.author = c.author ∧ row.price = c.price ∧ row.quantity = 1 ∧
          row.userId = alice._id) ∧
      (checkout "64b0000000000000000000f3" (some alice) none (some "TXN7")
        cartStore).1.carts.filter (unpurchasedOf alice._id) = [] ∧
      (checkout "64b0000000000000000000f3" (some alice) none (some "TXN7")
        cartStore).2.status = 200 :=
  ⟨by decide, by decide, by decide, by decide, noRounding_sample, by decide,
    (checkout_contract "64b0000000000000000000f3" alice none (some "TXN7") cartStore).2
      (by decide) (by decide)⟩

/-- C28: after an initiation by `u` that the payment service answers with transaction id
`t`, on a non-empty cart and with no stored order carrying `t`, the response is 200 with
`t` and the id of the new order, which is stored with transactionId `t`, userId `u` and
paymentStatus 'pending'; a verification of `t` by `u` that follows at once finds it
(the answer is 200, not 404) and settles that same order in place, completed or failed
by the gateway result, answering with the order id the initiation returned. -/
theorem initiate_verify_round_trip (env : InitiateEnv) (u : AuthUser)
    (upiId : Option String) (s : Store) (pr : PaymentRequest) (r : PaymentResult)
    (hpr : env.paymentRequest = some pr) (hne : cartOf u.id s ≠ [])
    (hfresh : ∀ o ∈ s.orders, o.transactionId ≠ some pr.transactionId) :
    ∃ o : Order,
      (initiate env (some u) upiId s).1.orders = s.orders ++ [o] ∧
      (∃ upiString qrCode amount payee, (initiate env (some u) upiId s).2 =
        ⟨200, .initiated o._id pr.transactionId upiString qrCode amount payee⟩) ∧
      o.transactionId = some pr.transactionId ∧ o.userId = u.id ∧
      o.paymentStatus = "pending" ∧
      (verify r (some u) (some pr.transactionId) (initiate env (some u) upiId s).1).2.status
        = 200 ∧
      (r.status = "completed" →
        (verify r (some u) (some pr.transactionId) (initiate env (some u) upiId s).1).1.orders
          = s.orders ++ [markCompleted r o] ∧
        (verify r (some u) (some pr.transactionId) (initiate env (some u) upiId s).1).2 =
          ⟨200, .verified true "Payment successful" o._id (some pr.transactionId)
            (some r.gatewayResponse.gatewayTransactionId)⟩) ∧
      (r.status ≠ "completed" →
        (verify r (some u) (some pr.transactionId) (initiate env (some u) upiId s).1).1.orders
          = s.orders ++ [markFailed o] ∧
        (verify r (some u) (some pr.transactionId) (initiate env (some u) upiId s).1).2 =
          ⟨200, .verified false "Payment failed" o._id (some pr.transactionId) none⟩) := by
  have hlen : ¬ (List.filter (fun c => c.userId == u.id) s.carts).length = 0 := by
    intro h0
    exact hne (List.length_eq_zero.mp h0)
  have hinit : initiate env (some u) upiId s =
      ({ s with orders := s.orders ++
          [{ pendingOrder env u.id upiId (s.carts.filter (fun c => c.userId == u.id)) with
              transactionId := some pr.transactionId }] },
        ⟨200, .initiated env.freshId pr.transactionId pr.upiString pr.qrCode
          (cartTotal (s.carts.filter (fun c => c.userId == u.id))) pr.upiId⟩) := by
    unfold initiate
    simp only [beq_iff_eq, hlen, if_false, hpr]
    rfl
  have hl : ∀ x ∈ s.orders, pendingFor (some pr.transactionId) u.id x = false := by
    intro x hx
    simp [pendingFor, hfresh x hx]
  have ho : pendingFor (some pr.transactionId) u.id
      { pendingOrder env u.id upiId (s.carts.filter (fun c => c.userId == u.id)) with
        transactionId := some pr.transactionId } = true := by
    simp [pendingFor, pendingOrder]
  have hfind := find_append_last _ s.orders _ hl ho
  rw [hinit]
  refine ⟨_, rfl, ⟨_, _, _, _, rfl⟩, rfl, rfl, rfl, ?_, ?_, ?_⟩
  · by_cases hr : r.status = "completed"
    · rw [verify_completed r u (some pr.transactionId) _ _ hfind hr]
    · rw [verify_failed r u (some pr.transactionId) _ _ hfind hr]
  · intro hr
    rw [verify_completed r u (some pr.transactionId) _ _ hfind hr]
    exact ⟨updateFirst_append_last _ _ _ ho s.orders hl, rfl⟩
  · intro hr
    rw [verify_failed r u (some pr.transactionId) _ _ hfind hr]
    exact ⟨updateFirst_append_last _ _ _ ho s.orders hl, rfl⟩

theorem initiate_verify_round_trip_witness :
    sampleEnv.paymentRequest = some samplePaymentRequest ∧
    cartOf alice.id cartStore ≠ [] ∧
    (∀ o ∈ cartStore.orders, o.transactionId ≠ some samplePaymentRequest.transactionId) ∧
    ∃ o : Order,
      (initiate sampleEnv (some alice) none cartStore).1.orders = cartStore.orders ++ [o] ∧
      (∃ upiString qrCode amount payee, (initiate sampleEnv (some alice) none cartStore).2 =
        ⟨200, .initiated o._id samplePaymentRequest.transactionId upiString qrCode amount
          payee⟩) ∧
      o.transactionId = some samplePaymentRequest.transactionId ∧ o.userId = alice.id ∧
      o.paymentStatus = "pending" ∧
      (verify paidResult (some alice) (some samplePaymentRequest.transactionId)
        (initiate sampleEnv (some alice) none cartStore).1).2.status = 200 ∧
      (paidResult.status = "completed" →
        (verify paidResult (some alice) (some samplePaymentRequest.transactionId)
          (initiate sampleEnv (some alice) none cartStore).1).1.orders
          = cartStore.orders ++ [markCompleted paidResult o] ∧
        (verify paidResult (some alice) (some samplePaymentRequest.transactionId)
          (initiate sampleEnv (some alice) none cartStore).1).2 =
          ⟨200, .verified true "Payment successful" o._id
            (some samplePaymentRequest.transactionId)
            (some paidResult.gatewayResponse.gatewayTransactionId)⟩) ∧
      (paidResult.status ≠ "completed" →
        (verify paidResult (some alice) (some samplePaymentRequest.transactionId)
          (initiate sampleEnv (some alice) none cartStore).1).1.orders
          = cartStore.orders ++ [markFailed o] ∧
        (verify paidResult (some alice) (some samplePaymentRequest.transactionId)
          (initiate sampleEnv (some alice) none cartStore).1).2 =
          ⟨200, .verified false "Payment failed" o._id
            (some samplePaymentRequest.transactionId) none⟩) :=
  ⟨rfl, by decide, by decide,
    initiate_verify_round_trip sampleEnv alice none cartStore samplePaymentRequest paidResult
      rfl (by decide) (by decide)⟩

/-- C29: for every number of retries and every sequence of fetch outcomes the call ends,
after `n + 1` calls of `fetch` with `n` at most `retries`: the outcomes before the last
are all retryable (a network error, or a response that is not ok with status 429 or
500 to 599), the last one is not retryable or is that of the last permitted attempt, the
waits slept are `backoff * 2^k` for `k = 0, ..., n - 1` in order, and the call returns
the last response or throws the last network error. -/
theorem fetchWithRetries_contract (fetch : Nat → FetchOutcome) (retries backoff : Nat) :
    (∃ n : Nat, n ≤ retries ∧
      (∀ k < n, retryable (fetch k) = true) ∧
      (n = retries ∨ retryable (fetch n) = false) ∧
      fetchWithRetries fetch retries backoff =
        ⟨finish (fetch n), n + 1, (List.range n).map (fun k => backoff * 2 ^ k)⟩) ∧
    (fetchWithRetries fetch retries backoff).attempts ≤ retries + 1 ∧
    (∀ o : FetchOutcome, retryable o = true ↔
      (∃ err, o = .networkError err) ∨
      ∃ res, o = .response res ∧ res.ok = false ∧
        (res.status = 429 ∨ (500 ≤ res.status ∧ res.status < 600))) := by
  obtain ⟨m, hm1, hm2, hm3, hm4⟩ :=
    fetchLoop_spec fetch retries backoff retries 0 [] (by omega) (by omega)
  have hrun : fetchWithRetries fetch retries backoff =
      ⟨finish (fetch m), m + 1, (List.range m).map (fun k => backoff * 2 ^ k)⟩ := by
    unfold fetchWithRetries
    rw [hm4]
    simp [backoffs]
  refine ⟨⟨m, by omega, ?_, ?_, hrun⟩, ?_, ?_⟩
  · intro k hk
    simpa using hm2 k hk
  · simpa using hm3
  · rw [hrun]
    show m + 1 ≤ retries + 1
    omega
  · intro o
    cases o with
    | response res =>
      cases res with
      | mk ok status => cases ok <;> simp [retryable, retryStatus]
    | networkError err => simp [retryable]

/-- C30: when the limit in effect is at least 1, the reported totalPages is the ceiling
of totalUsers / limit (the least number of pages of `limit` users that hold them all),
and hasMore is true exactly when page * limit < totalUsers, that is when users remain
beyond the current page; the page in effect is 1 and the limit in effect is 10 when
`parseInt` gives NaN (parameter absent or unparsable) or 0. -/
theorem pagination_contract (pageParsed limitParsed : Option Int) (totalUsers : Nat)
    (hpage : 1 ≤ parsedOr pageParsed 1) (hlimit : 1 ≤ parsedOr limitParsed 10) :
    (getAllUsersPagination pageParsed limitParsed totalUsers).totalPages =
      Int.ceil ((totalUsers : ℚ) / ((parsedOr limitParsed 10 : Int) : ℚ)) ∧
    (totalUsers : Int) ≤
      (getAllUsersPagination pageParsed limitParsed totalUsers).totalPages *
        parsedOr limitParsed 10 ∧
    ((getAllUsersPagination pageParsed limitParsed totalUsers).totalPages - 1) *
        parsedOr limitParsed 10 < totalUsers ∧
    (getAllUsersPagination pageParsed limitParsed totalUsers).currentPage =
      parsedOr pageParsed 1 ∧
    1 ≤ (getAllUsersPagination pageParsed limitParsed totalUsers).currentPage ∧
    ((getAllUsersPagination pageParsed limitParsed totalUsers).hasMore = true ↔
      (getAllUsersPagination pageParsed limitParsed totalUsers).currentPage *
        parsedOr limitParsed 10 < totalUsers) ∧
    ((pageParsed = none ∨ pageParsed = some 0) → parsedOr pageParsed 1 = 1) ∧
    ((limitParsed = none ∨ limitParsed = some 0) → parsedOr limitParsed 10 = 10) := by
  have hb : (0 : Int) < parsedOr limitParsed 10 := by omega
  have hbounds := ceilDiv_bounds (totalUsers : Int) (parsedOr limitParsed 10) hb
  refine ⟨?_, hbounds.1, hbounds.2, rfl, hpage, ?_, ?_, ?_⟩
  · simp [getAllUsersPagination, ceilDiv]
  · simp only [getAllUsersPagination, decide_eq_true_eq]
    exact lt_ceilDiv _ _ _ hb
  · rintro (h | h) <;> simp [h, parsedOr]
  · rintro (h | h) <;> simp [h, parsedOr]

theorem pagination_contract_witness :
    1 ≤ parsedOr (some 2) 1 ∧ 1 ≤ parsedOr none 10 ∧
    (getAllUsersPagination (some 2) none 25).totalPages =
      Int.ceil (((25 : Nat) : ℚ) / ((parsedOr none 10 : Int) : ℚ)) ∧
    (((25 : Nat) : Int)) ≤
      (getAllUsersPagination (some 2) none 25).totalPages * parsedOr none 10 ∧
    ((getAllUsersPagination (some 2) none 25).totalPages - 1) * parsedOr none 10
      < ((25 : Nat) : Int) ∧
    (getAllUsersPagination (some 2) none 25).currentPage = parsedOr (some 2) 1 ∧
    1 ≤ (getAllUsersPagination (some 2) none 25).currentPage ∧
    ((getAllUsersPagination (some 2) none 25).hasMore = true ↔
      (getAllUsersPagination (some 2) none 25).currentPage * parsedOr none 10
        < ((25 : Nat) : Int)) ∧
    (((some 2 : Option Int) = none ∨ (some 2 : Option Int) = some 0) →
      parsedOr (some 2) 1 = 1) ∧
    (((none : Option Int) = none ∨ (none : Option Int) = some 0) → parsedOr none 10 = 10) :=
  ⟨by decide, by decide, pagination_contract (some 2) none 25 (by decide) (by decide)⟩

end BookApp
